import Mathlib

/-!
# School Management System API: the v1 request pipeline and its managers

A shallow embedding of the middlewares under `src/routes/v1/middlewares/`
(`requireRole`, `requireSchoolScope`, `rateLimit`, `authJwt`), of
`validators.js`, of `wrap` and the route table of `src/routes/v1/index.js`, and
of the managers under `src/managers/sms/`, followed by the properties proved
about them.

Conventions of the embedding.
* A middleware `(req, res, next) => ...` ends in exactly one of two ways on
  every path of the source: `return next()` or
  `return res.status(s).send({ ok: false, error: { code, message } })`.
  `Reply` records which one; `Outcome` does so where the failure carries
  `details`.
* For the pipeline of a route each middleware is written a second time, as the
  list of what it does with `res` and `next` (`Effect`); such a list can also
  hold a response followed by `next()`, or an exception. The dispatch of
  Express (`runStages`) runs what follows a middleware once for each `next()`
  in its list.
* `req.auth` is either never assigned (`none`) or the object assigned by
  `authJwt` (`some p`).
* Values read from a decoded token, from `req.params` or from `req.body` are
  JavaScript primitives (`JsVal`).
* A manager method is a function from the database to its result, a returned
  value or a thrown error (`Thrown`), and the database it leaves.
* The packages `jsonwebtoken`, `bcrypt` and `mongoose` are not part of the
  repository: what the code calls from them is a parameter (`Jwt`,
  `Externals`).
-/

namespace Sms

/-! ## JavaScript values -/

/-- The JavaScript primitives a token claim or a route parameter holds here:
`undefined` (a missing property), `null`, a boolean or a string. `_signToken`
writes strings and `null` only and a route parameter is a string, so numbers
and objects are left out. -/
inductive JsVal where
  | undefined
  | null
  | bool (b : Bool)
  | str (s : String)
  deriving DecidableEq, Repr

namespace JsVal

/-- JavaScript truthiness, the test behind `!v` and `v ? a : b`. -/
def truthy : JsVal → Bool
  | undefined => false
  | null => false
  | bool b => b
  | str s => decide (s ≠ "")

/-- The conversion `String(v)`. -/
def toStr : JsVal → String
  | undefined => "undefined"
  | null => "null"
  | bool true => "true"
  | bool false => "false"
  | str s => s

end JsVal

/-! ## Requests and replies -/

/-- The object `authJwt` stores in `req.auth`. -/
structure Principal where
  userId : JsVal
  role : JsVal
  schoolId : JsVal
  deriving DecidableEq, Repr

/-- How a middleware ends: it calls `next()`, or it sends
`res.status(status).send({ ok: false, error: { code, message } })`. -/
inductive Reply where
  | next
  | send (status : Nat) (code : String) (message : String)
  deriving DecidableEq, Repr

namespace Reply

/-- Whether the middleware called `next()`. -/
def calledNext : Reply → Bool
  | next => true
  | send _ _ _ => false

/-- The HTTP status of the response sent, if one was sent. -/
def status? : Reply → Option Nat
  | next => none
  | send s _ _ => some s

/-- The `error.code` of the response sent, if one was sent. -/
def code? : Reply → Option String
  | next => none
  | send _ c _ => some c

end Reply

/-! ## `requireRole.js` -/

/-- The middleware returned by `requireRole(roles)`; `set.has` on primitives is
membership. -/
def requireRole (roles : List JsVal) (auth : Option Principal) : Reply :=
  match auth with
  | none => .send 401 "UNAUTHORIZED" "Unauthorized"
  | some p =>
    if ¬ (p.role ∈ roles) then .send 403 "FORBIDDEN" "Forbidden"
    else .next

/-! ## `requireSchoolScope.js` -/

/-- The middleware returned by `requireSchoolScope()`; `target` is
`req.params.schoolId`. -/
def requireSchoolScope (auth : Option Principal) (target : JsVal) : Reply :=
  match auth with
  | none => .send 401 "UNAUTHORIZED" "Unauthorized"
  | some p =>
    if p.role = .str "SUPERADMIN" then .next
    else
      let schoolId := target
      if p.role ≠ .str "SCHOOL_ADMIN" ∨ p.schoolId.truthy = false then
        .send 403 "FORBIDDEN" "Forbidden"
      else if p.schoolId.toStr ≠ schoolId.toStr then
        .send 403 "FORBIDDEN" "Forbidden"
      else .next

/-! ## `rateLimit.js` -/

/-- The value stored in the module-level `buckets` map for one key. -/
structure Entry where
  reset : Int
  count : Int
  deriving DecidableEq, Repr

/-- The module-level `buckets` map: `b key` is `buckets.get(key)`. -/
abbrev Buckets := String → Option Entry

/-- The map before any request. -/
def Buckets.empty : Buckets := fun _ => none

/-- The call `buckets.set(key, entry)`. -/
def Buckets.set (b : Buckets) (key : String) (entry : Entry) : Buckets :=
  fun k => if k = key then some entry else b k

/-- The parts of a request the limiter reads. -/
structure LimiterReq where
  ip : String
  originalUrl : String
  deriving DecidableEq, Repr

/-- The options object `{ windowSec, max, keyFn }` of a limiter. -/
structure LimiterConfig where
  windowSec : Int
  max : Int
  keyFn : Option (LimiterReq → String)

/-- Line 11: `keyFn ? keyFn(req) : ip:originalUrl`. -/
def limiterKey (cfg : LimiterConfig) (req : LimiterReq) : String :=
  match cfg.keyFn with
  | some f => f req
  | none => req.ip ++ ":" ++ req.originalUrl

/-- What one call of the limiter leaves behind: the map, the three
`X-RateLimit-*` headers (the numbers the source renders with `String`) and the
reply. -/
structure Limited where
  buckets : Buckets
  limit : Int
  remaining : Int
  resetAt : Int
  reply : Reply

/-- The middleware returned by `rateLimit({ windowSec, max, keyFn })`, called
when `nowSec()` is `t`. -/
def rateLimit (cfg : LimiterConfig) (req : LimiterReq) (t : Int) (buckets : Buckets) : Limited :=
  let key := limiterKey cfg req
  let entry : Entry := (buckets key).getD { reset := t + cfg.windowSec, count := 0 }
  let entry : Entry := if t > entry.reset then { reset := t + cfg.windowSec, count := 0 } else entry
  let entry : Entry := { entry with count := entry.count + 1 }
  let buckets := buckets.set key entry
  { buckets := buckets
    limit := cfg.max
    remaining := Max.max 0 (cfg.max - entry.count)
    resetAt := entry.reset
    reply :=
      if entry.count > cfg.max then .send 429 "RATE_LIMITED" "Too many requests"
      else .next }

/-- The limiter called once per element of `calls` (request and clock reading),
in order; the results are listed in call order. -/
def runLimiter (cfg : LimiterConfig) : Buckets → List (LimiterReq × Int) → List Limited
  | _, [] => []
  | b, (req, t) :: rest =>
    let r := rateLimit cfg req t b
    r :: runLimiter cfg r.buckets rest

/-- The map after the calls `calls`. -/
def bucketsAfter (cfg : LimiterConfig) : Buckets → List (LimiterReq × Int) → Buckets
  | b, [] => b
  | b, (req, t) :: rest => bucketsAfter cfg (rateLimit cfg req t b).buckets rest

/-! ### The limiter as described in the specification -/

/-- The bucket of the specification: `{windowStart, count}`. -/
structure SpecBucket where
  windowStart : Int
  count : Int
  deriving DecidableEq, Repr

/-- The result `{allowed, count, resetAt}` of the reference algorithm together
with the bucket it leaves. -/
structure SpecChecked where
  bucket : SpecBucket
  allowed : Bool
  count : Int
  resetAt : Int
  deriving DecidableEq, Repr

/-- The reference algorithm, in the words of the specification: look up or
create the bucket; if `now > windowStart + windowLengthSeconds` reset
`windowStart = now`, `count = 0`; increment `count`;
`allowed = count <= limit`. -/
def specCheck (limit windowLengthSeconds : Int) (now : Int) (bucket : Option SpecBucket) :
    SpecChecked :=
  let b : SpecBucket := bucket.getD { windowStart := now, count := 0 }
  let b : SpecBucket :=
    if now > b.windowStart + windowLengthSeconds then { windowStart := now, count := 0 } else b
  let b : SpecBucket := { b with count := b.count + 1 }
  { bucket := b
    allowed := decide (b.count ≤ limit)
    count := b.count
    resetAt := b.windowStart + windowLengthSeconds }

/-- The reference algorithm called at each time of `times` for one key. -/
def specRun (limit windowLengthSeconds : Int) : Option SpecBucket → List Int → List SpecChecked
  | _, [] => []
  | b, now :: rest =>
    let r := specCheck limit windowLengthSeconds now b
    r :: specRun limit windowLengthSeconds (some r.bucket) rest

/-! ## `authJwt.js` and `_signToken` -/

/-- The method `split(sep)` of a string, on its characters. -/
def splitChars (sep : Char) : List Char → List (List Char)
  | [] => [[]]
  | c :: cs =>
    if c = sep then [] :: splitChars sep cs
    else
      match splitChars sep cs with
      | [] => [[c]]
      | p :: ps => (c :: p) :: ps

/-- The call `s.split(sep)` for a one-character separator. -/
def jsSplit (s : String) (sep : Char) : List String :=
  (splitChars sep s.data).map String.mk

/-- The expression `v || d` for a string property that may be missing. -/
def strOr (v : Option String) (d : String) : String :=
  match v with
  | none => d
  | some s => if s = "" then d else s

/-- The claims of a token that this code writes and reads. -/
structure Claims where
  sub : JsVal
  role : JsVal
  schoolId : JsVal
  deriving DecidableEq, Repr

/-- Why `jwt.verify` or `jwt.sign` threw. -/
inductive JwtError where
  | expired
  | invalidSignature
  | malformed
  | other (message : String)
  deriving DecidableEq, Repr

/-- The two functions used from the external package `jsonwebtoken`; the clock
they read is the last argument. -/
structure Jwt where
  sign : Claims → String → String → Int → Except JwtError String
  verify : String → String → Int → Except JwtError Claims

/-- What `authJwt` did: the tokens it passed to `jwt.verify`, the value it
assigned to `req.auth` (none when it assigned nothing) and its reply. -/
structure Authenticated where
  verified : List String
  auth : Option Principal
  reply : Reply
  deriving DecidableEq, Repr

/-- The middleware returned by `authJwt({ config })`, with
`config.dotEnv.JWT_SECRET = secret`, on a request whose `authorization` header
is `authorization`, when the clock reads `now`. -/
def authJwt (jwt : Jwt) (secret : String) (now : Int) (authorization : Option String) :
    Authenticated :=
  let auth := strOr authorization ""
  let parts := jsSplit auth ' '
  if parts.length ≠ 2 ∨ parts[0]? ≠ some "Bearer" then
    { verified := [], auth := none
      reply := .send 401 "UNAUTHORIZED" "Missing or invalid Authorization header" }
  else
    let token := parts.getD 1 ""
    match jwt.verify token secret now with
    | .ok decoded =>
      { verified := [token]
        auth := some { userId := decoded.sub, role := decoded.role, schoolId := decoded.schoolId }
        reply := .next }
    | .error _ =>
      { verified := [token], auth := none
        reply := .send 401 "UNAUTHORIZED" "Invalid or expired token" }

/-- A document of the `User` model; `_id` and `schoolId` are ObjectIds, held as
the hexadecimal string `String` gives for them, `schoolId` is `null` by
default. -/
structure User where
  _id : String
  email : String
  passwordHash : String
  role : String
  schoolId : Option String
  deriving DecidableEq, Repr

/-- The `payload` object built in `_signToken`. -/
def tokenPayload (user : User) : Claims :=
  { sub := .str user._id
    role := .str user.role
    schoolId :=
      match user.schoolId with
      | some oid => .str oid
      | none => .null }

/-- The method `_signToken(user)` of `SmsAuthManager`, with
`config.dotEnv = { JWT_SECRET: secret, JWT_EXPIRES_IN: expiresIn }`. -/
def _signToken (jwt : Jwt) (secret : String) (expiresIn : Option String) (now : Int)
    (user : User) : Except JwtError String :=
  let payload := tokenPayload user
  jwt.sign payload secret (strOr expiresIn "1h") now

/-- The contract of `jsonwebtoken` that a round trip relies on: a token
returned by `jwt.sign` holds no space (it is three base64url parts joined by
dots), and from its issue until `lifetime expiresIn` seconds later `jwt.verify`
under the same secret returns the claims that were signed. -/
def Jwt.RoundTrips (jwt : Jwt) (lifetime : String → Int) : Prop :=
  ∀ (claims : Claims) (secret expiresIn : String) (issuedAt : Int) (token : String),
    jwt.sign claims secret expiresIn issuedAt = .ok token →
      ' ' ∉ token.data ∧
      ∀ now, issuedAt ≤ now → now < issuedAt + lifetime expiresIn →
        jwt.verify token secret now = .ok claims

/-! ### What a caller can see of one limiter call -/

/-- The outcome of a call of the code's limiter for `key`: whether `next` was
called, and the `count` and `reset` the bucket of `key` holds afterwards. -/
def Limited.observed (key : String) (r : Limited) : Option (Bool × Int × Int) :=
  (r.buckets key).map fun e => (r.reply.calledNext, e.count, e.reset)

/-- The outcome of a call of the reference algorithm: `allowed`, `count` and the
reset time `windowStart + windowLengthSeconds`. -/
def SpecChecked.observed (s : SpecChecked) : Bool × Int × Int :=
  (s.allowed, s.count, s.resetAt)

/-- The bucket of the code and the bucket of the reference algorithm describe
the same window: `reset = windowStart + windowLengthSeconds`, same `count`. -/
def Corresponds (windowSec : Int) : Option Entry → Option SpecBucket → Prop
  | none, none => True
  | some e, some s => e.reset = s.windowStart + windowSec ∧ e.count = s.count
  | _, _ => False

/-- The reply of the `i`-th call (from 0) of a window that started with `c`
calls counted, under the limit `max`. -/
def windowReply (max c : Int) (i : Nat) : Reply :=
  if c + (i : Int) < max then .next else .send 429 "RATE_LIMITED" "Too many requests"

/-! ## Concrete inputs used below -/

/-- A school admin of school `A`. -/
def adminOfA : Principal := { userId := .str "u2", role := .str "SCHOOL_ADMIN", schoolId := .str "A" }

/-- A superadmin; its token carries `schoolId: null`. -/
def superadmin : Principal := { userId := .str "u1", role := .str "SUPERADMIN", schoolId := .null }

/-- A principal whose role is outside the enumeration of the `User` model. -/
def teacher : Principal := { userId := .str "u3", role := .str "TEACHER", schoolId := .str "A" }

/-- The limiter of `POST /auth/login`: 5 calls per 60 seconds and address. -/
def loginLimiter : LimiterConfig :=
  { windowSec := 60, max := 5, keyFn := some fun r => r.ip ++ ":login" }

/-- A request from the address `10.0.0.1`. -/
def loginReq : LimiterReq := { ip := "10.0.0.1", originalUrl := "/v1/auth/login" }

/-- The bucket of `loginReq` after five calls in the window that ends at
second 60. -/
def fullBucket : Buckets := Buckets.empty.set "10.0.0.1:login" { reset := 60, count := 5 }

/-- A stand-in for `jsonwebtoken` that knows one token, `t.k.n`: it is issued
at second 0 for the claims of `superadmin` and accepted until second 3600;
`old` has expired and every other string is malformed. -/
def toyJwt : Jwt where
  sign := fun claims _ _ issuedAt =>
    if claims = { sub := .str "u1", role := .str "SUPERADMIN", schoolId := .null }
        ∧ issuedAt = 0 then .ok "t.k.n"
    else .error (.other "unsupported")
  verify := fun token _ now =>
    if token = "t.k.n" then
      if now ≤ 3600 then .ok { sub := .str "u1", role := .str "SUPERADMIN", schoolId := .null }
      else .error .expired
    else if token = "old" then .error .expired
    else .error .malformed

/-- The stored superadmin whose claims `toyJwt` returns. -/
def rootUser : User :=
  { _id := "u1", email := "sa@example.com", passwordHash := "h", role := "SUPERADMIN",
    schoolId := none }

/-- The outcome of `authJwt` on a header that is not `Bearer <token>`. -/
def malformedHeader : Authenticated :=
  { verified := [], auth := none
    reply := .send 401 "UNAUTHORIZED" "Missing or invalid Authorization header" }

/-! ## Errors and the response envelope -/

/-- The property `code` of an error: a string for `HttpError`, a number for a
database error such as the duplicate-key error 11000. -/
inductive ErrCode where
  | str (s : String)
  | num (n : Nat)
  deriving DecidableEq, Repr

/-- A thrown error as the `catch` blocks read it: `err.status`, `err.code`
(both possibly missing) and `err.message`. -/
structure Thrown where
  status : Option Nat
  code : Option ErrCode
  message : String
  deriving DecidableEq, Repr

/-- The constructor `new HttpError(status, message, code)`, the same class in
the four managers: `this.code = code || 'ERROR'`. -/
def HttpError (status : Nat) (message : String) (code : Option String) : Thrown :=
  { status := some status, code := some (.str (strOr code "ERROR")), message := message }

/-- One element of `details`: `{ field, message }`. -/
structure FieldError where
  field : String
  message : String
  deriving DecidableEq, Repr

/-- The object `error` of a failure envelope: `{ code, message, details? }`. -/
structure ErrorBody where
  code : ErrCode
  message : String
  details : Option (List FieldError)
  deriving DecidableEq, Repr

/-- The body of a response: `{ ok: true, data }` or `{ ok: false, error }`. -/
inductive Envelope (α : Type) where
  | ok (data : α)
  | error (error : ErrorBody)
  deriving DecidableEq, Repr

/-- A response: `res.status(status).send(body)`. -/
structure Response (α : Type) where
  status : Nat
  body : Envelope α
  deriving DecidableEq, Repr

/-- The response a middleware sent, as a `Response`; none when it called
`next()`. -/
def Reply.response? (α : Type) : Reply → Option (Response α)
  | .next => none
  | .send status code message =>
    some { status := status
           body := .error { code := .str code, message := message, details := none } }

/-! ## `_assertScope` of the managers -/

/-- The method `_assertScope({ schoolId, __authUser })` of `SmsClassroomManager`. -/
def SmsClassroomManager._assertScope (schoolId : JsVal) (__authUser : Principal) :
    Except Thrown Unit :=
  if __authUser.role = .str "SUPERADMIN" then .ok ()
  else if __authUser.role ≠ .str "SCHOOL_ADMIN" then
    .error (HttpError 403 "Forbidden" (some "FORBIDDEN"))
  else if __authUser.schoolId.truthy = false ∨ __authUser.schoolId.toStr ≠ schoolId.toStr then
    .error (HttpError 403 "Forbidden" (some "FORBIDDEN"))
  else .ok ()

/-- The method `_assertScope({ schoolId, __authUser })` of `SmsStudentManager`. -/
def SmsStudentManager._assertScope (schoolId : JsVal) (__authUser : Principal) :
    Except Thrown Unit :=
  if __authUser.role = .str "SUPERADMIN" then .ok ()
  else if __authUser.role ≠ .str "SCHOOL_ADMIN" then
    .error (HttpError 403 "Forbidden" (some "FORBIDDEN"))
  else if __authUser.schoolId.truthy = false ∨ __authUser.schoolId.toStr ≠ schoolId.toStr then
    .error (HttpError 403 "Forbidden" (some "FORBIDDEN"))
  else .ok ()

/-! ## `wrap` of `routes/v1/index.js` -/

/-- The expression `err.code || 'INTERNAL_ERROR'`: a missing code, the empty
string and the number 0 are falsy. -/
def codeOr (code : Option ErrCode) (d : String) : ErrCode :=
  match code with
  | none => .str d
  | some (.str s) => if s = "" then .str d else .str s
  | some (.num n) => if n = 0 then .str d else .num n

/-- The expression `err.status || 500`. -/
def statusOr (status : Option Nat) (d : Nat) : Nat :=
  match status with
  | none => d
  | some n => if n = 0 then d else n

/-- The responses `wrap(fn)` sends for one request, given what `await fn(req,
res)` did: returned `out` or threw `err`; a response is the completed call
`res.status(status).send(body)` with its two arguments. The call writes the
head of the response with `status`, which Node refuses with a `RangeError`
when `status` is outside 100..999; in the `catch` block nothing catches that
error, so no response is sent. -/
def wrap {α : Type} (outcome : Except Thrown α) : List (Response α) :=
  match outcome with
  | .ok out => [{ status := 200, body := .ok out }]
  | .error err =>
    let status := statusOr err.status 500
    let code := codeOr err.code "INTERNAL_ERROR"
    let message := strOr (some err.message) "Internal error"
    if 100 ≤ status ∧ status ≤ 999 then
      [{ status := status, body := .error { code := code, message := message, details := none } }]
    else []

/-- Every `new HttpError(status, message, code)` of the four managers, as
`(status, message, code)`: `SmsAuth.manager.js` lines 35, 40, 56, 74, 77,
`SmsClassroom.manager.js` lines 38, 58, `SmsStudent.manager.js` lines 47, 77,
145, 149, 162; the other occurrences repeat one of these. -/
def managerErrors : List (Nat × String × String) :=
  [ (409, "A superadmin already exists", "SUPERADMIN_EXISTS"),
    (409, "Email already in use", "EMAIL_EXISTS"),
    (401, "Invalid credentials", "INVALID_CREDENTIALS"),
    (403, "Forbidden", "FORBIDDEN"),
    (404, "School not found", "NOT_FOUND"),
    (409, "Classroom name already exists for this school", "DUPLICATE"),
    (404, "Classroom not found", "NOT_FOUND"),
    (409, "studentNumber already exists for this school", "DUPLICATE"),
    (404, "Student not found", "NOT_FOUND"),
    (404, "Destination school not found", "NOT_FOUND"),
    (404, "Destination classroom not found", "NOT_FOUND"),
    (409, "studentNumber already exists for destination school", "DUPLICATE") ]

/-! ## `validators.js` and the rules of the routes -/

/-- How a stage of a route ends when its failure may carry `details`: it calls
`next()` or sends `res.status(status).send({ ok: false, error })`. -/
inductive Outcome where
  | next
  | respond (status : Nat) (error : ErrorBody)
  deriving DecidableEq, Repr

/-- A `Reply` as an `Outcome`; the guards and the limiter send no `details`. -/
def Reply.outcome : Reply → Outcome
  | .next => .next
  | .send status code message =>
    .respond status { code := .str code, message := message, details := none }

/-- The parsed JSON body `req.body`: `body field` is `req.body[field]`,
`undefined` for a field that is absent. -/
abbrev Body := String → JsVal

/-- White space and line terminators of ECMAScript, what `trim()` strips and
the class `\S` excludes. -/
def isJsSpace (c : Char) : Bool :=
  [0x9, 0xA, 0xB, 0xC, 0xD, 0x20, 0xA0, 0x1680, 0x2000, 0x2001, 0x2002, 0x2003, 0x2004,
    0x2005, 0x2006, 0x2007, 0x2008, 0x2009, 0x200A, 0x2028, 0x2029, 0x202F, 0x205F, 0x3000,
    0xFEFF].contains c.toNat

/-- The method `trim()`, on the characters of a string. -/
def trimChars (l : List Char) : List Char :=
  ((l.dropWhile isJsSpace).reverse.dropWhile isJsSpace).reverse

/-- The method `trim()`. -/
def jsTrim (s : String) : String := String.mk (trimChars s.data)

/-- The property `length` of a string: its number of UTF-16 code units, two
for a character outside the basic plane. -/
def jsLength (s : String) : Nat :=
  (s.data.map fun c => if c.toNat < 0x10000 then 1 else 2).sum

/-- Whether a string matches the pattern of `isEmail`, one or more `\S`, an
at sign, one or more `\S`, a dot, one or more `\S`, over the whole string:
no character is white space, and an at sign at position `i >= 1` is followed
by a dot at position `j >= i + 2` that is not the last character. -/
def emailShape (cs : List Char) : Bool :=
  cs.all (fun c => !isJsSpace c) &&
    (List.range cs.length).any fun i =>
      (List.range cs.length).any fun j =>
        decide (1 ≤ i) && decide (i + 2 ≤ j) && decide (j + 2 ≤ cs.length) &&
          decide (cs[i]? = some '@') && decide (cs[j]? = some '.')

/-- The function `isEmail(v)`. -/
def isEmail (v : JsVal) : Bool :=
  match v with
  | .str s => emailShape (jsTrim s).data
  | _ => false

/-- The function `str(v)`: a string is trimmed, any other value is returned
as it is. -/
def str (v : JsVal) : JsVal :=
  match v with
  | .str s => .str (jsTrim s)
  | v => v

/-- The function `required(obj, field, errors)`; the result is the array
`errors` after the call. -/
def required (obj : Body) (field : String) (errors : List FieldError) : List FieldError :=
  if obj field = .undefined ∨ obj field = .null ∨ str (obj field) = .str "" then
    errors ++ [{ field := field, message := field ++ " is required" }]
  else errors

/-- The function `validate(req, res, next, fn)`; `fn` maps the array `errors`
it is given to the array after its pushes. -/
def validate (fn : List FieldError → List FieldError) : Outcome :=
  let errors := fn []
  if errors.length ≠ 0 then
    .respond 400
      { code := .str "VALIDATION_ERROR", message := "Invalid input", details := some errors }
  else .next

/-- The rule of `POST /auth/register-superadmin` (and of
`POST /schools/:schoolId/admins`, which has the same one). -/
def registerRule (body : Body) (errors : List FieldError) : List FieldError :=
  let errors := required body "email" errors
  let errors := required body "password" errors
  let errors :=
    if (body "email").truthy = true ∧ isEmail (body "email") = false then
      errors ++ [{ field := "email", message := "Invalid email" }]
    else errors
  if (body "password").truthy = true ∧ jsLength (body "password").toStr < 8 then
    errors ++ [{ field := "password", message := "Password must be at least 8 characters" }]
  else errors

/-- The rule of `POST /auth/login`. -/
def loginRule (body : Body) (errors : List FieldError) : List FieldError :=
  let errors := required body "email" errors
  let errors := required body "password" errors
  if (body "email").truthy = true ∧ isEmail (body "email") = false then
    errors ++ [{ field := "email", message := "Invalid email" }]
  else errors

/-- A registration body with the empty `email` and a password of three
characters. -/
def shortBody : Body := fun field =>
  if field = "email" then .str ""
  else if field = "password" then .str "abc"
  else .undefined

/-! ## The routes of `routes/v1/index.js` -/

/-- The rule of `POST /schools`. -/
def schoolRule (body : Body) (errors : List FieldError) : List FieldError :=
  required body "name" errors

/-- The rule of `POST /schools/:schoolId/classrooms`; `numberIsNaN v` stands for
the built-in `Number.isNaN(Number(v))`. -/
def classroomRule (numberIsNaN : JsVal → Bool) (body : Body) (errors : List FieldError) :
    List FieldError :=
  let errors := required body "name" errors
  if body "capacity" ≠ .undefined ∧ numberIsNaN (body "capacity") = true then
    errors ++ [{ field := "capacity", message := "capacity must be a number" }]
  else errors

/-- The rule of `POST /schools/:schoolId/students`. -/
def studentRule (body : Body) (errors : List FieldError) : List FieldError :=
  let errors := required body "firstName" errors
  let errors := required body "lastName" errors
  required body "studentNumber" errors

/-- The manager methods the routes call inside `wrap`. -/
inductive Method where
  | registerSuperadmin | login | createSchoolAdmin
  | createSchool | listSchools | getSchool | updateSchool | deleteSchool
  | createClassroom | listClassrooms | getClassroom | updateClassroom | deleteClassroom
  | createStudent | listStudents | getStudent | updateStudent | deleteStudent
  | enrollStudent | transferStudent
  deriving DecidableEq, Repr

/-- The limiter installed with `router.use` before every route. -/
def globalLimiter : LimiterConfig :=
  { windowSec := 60, max := 60, keyFn := some fun r => r.ip ++ ":v1" }

/-- The limiter of `POST /auth/register-superadmin`. -/
def registerLimiter : LimiterConfig :=
  { windowSec := 60, max := 5, keyFn := some fun r => r.ip ++ ":register-superadmin" }

/-- The parts of a request the middlewares read; `schoolId` is
`req.params.schoolId`. -/
structure HttpReq where
  ip : String
  originalUrl : String
  authorization : Option String
  schoolId : JsVal
  body : Body

/-- The configuration and the clock the middlewares read. -/
structure Ctx where
  jwt : Jwt
  secret : String
  now : Int

/-- What the middlewares change: the module-level `buckets` and `req.auth`. -/
structure ReqState where
  buckets : Buckets
  auth : Option Principal

/-! ### The middlewares as Express calls them

Each middleware is written out once more, statement by statement, as the list
of the things it does with `res` and `next`. Nothing in the type of that list
keeps a middleware from sending a response and calling `next()` as well, or
from doing neither: that the middlewares of the repository do not is proved
from these definitions, not assumed by them. -/

/-- One thing a middleware does with `res` and `next`: `res.setHeader(name,
value)` (the value is the number the source renders with `String`),
`res.status(..).send(..)`, `next()`, or an exception that leaves it. -/
inductive Effect (α : Type) where
  | setHeader (name : String) (value : Int)
  | send (response : Response α)
  | next
  | throw (err : Thrown)

/-- A middleware `(req, res, next) => ...` called on a request: the state it
leaves and what it did with `res` and `next`, in the order of its statements. -/
abbrev Middleware (α : Type) := Ctx → HttpReq → ReqState → ReqState × List (Effect α)

/-- The middleware of `rateLimit.js`, lines 10 to 29. -/
def Mw.rateLimit {α : Type} (cfg : LimiterConfig) : Middleware α := fun ctx req st =>
  let key := limiterKey cfg { ip := req.ip, originalUrl := req.originalUrl }
  let t := ctx.now
  let entry : Entry := (st.buckets key).getD { reset := t + cfg.windowSec, count := 0 }
  let entry : Entry := if t > entry.reset then { reset := t + cfg.windowSec, count := 0 } else entry
  let entry : Entry := { entry with count := entry.count + 1 }
  let st : ReqState := { st with buckets := st.buckets.set key entry }
  let headers : List (Effect α) :=
    [ .setHeader "X-RateLimit-Limit" cfg.max,
      .setHeader "X-RateLimit-Remaining" (Max.max 0 (cfg.max - entry.count)),
      .setHeader "X-RateLimit-Reset" entry.reset ]
  if entry.count > cfg.max then
    (st, headers ++
      [.send { status := 429
               body := .error { code := .str "RATE_LIMITED", message := "Too many requests",
                                details := none } }])
  else (st, headers ++ [.next])

/-- The middleware of `authJwt.js`, lines 4 to 22; the `catch` block takes
every error of `jwt.verify`. -/
def Mw.authJwt {α : Type} : Middleware α := fun ctx req st =>
  let auth := strOr req.authorization ""
  let parts := jsSplit auth ' '
  if parts.length ≠ 2 ∨ parts[0]? ≠ some "Bearer" then
    (st, [.send { status := 401
                  body := .error { code := .str "UNAUTHORIZED"
                                   message := "Missing or invalid Authorization header"
                                   details := none } }])
  else
    let token := parts.getD 1 ""
    match ctx.jwt.verify token ctx.secret ctx.now with
    | .ok decoded =>
      ({ st with auth := some { userId := decoded.sub, role := decoded.role,
                                schoolId := decoded.schoolId } }, [.next])
    | .error _ =>
      (st, [.send { status := 401
                    body := .error { code := .str "UNAUTHORIZED"
                                     message := "Invalid or expired token"
                                     details := none } }])

/-- The middleware of `requireRole.js`, lines 3 to 11. -/
def Mw.requireRole {α : Type} (roles : List JsVal) : Middleware α := fun _ _ st =>
  match st.auth with
  | none =>
    (st, [.send { status := 401
                  body := .error { code := .str "UNAUTHORIZED", message := "Unauthorized",
                                   details := none } }])
  | some p =>
    if ¬ (p.role ∈ roles) then
      (st, [.send { status := 403
                    body := .error { code := .str "FORBIDDEN", message := "Forbidden",
                                     details := none } }])
    else (st, [.next])

/-- The middleware of `requireSchoolScope.js`, lines 2 to 15. -/
def Mw.requireSchoolScope {α : Type} : Middleware α := fun _ req st =>
  match st.auth with
  | none =>
    (st, [.send { status := 401
                  body := .error { code := .str "UNAUTHORIZED", message := "Unauthorized",
                                   details := none } }])
  | some p =>
    if p.role = .str "SUPERADMIN" then (st, [.next])
    else
      let schoolId := req.schoolId
      if p.role ≠ .str "SCHOOL_ADMIN" ∨ p.schoolId.truthy = false then
        (st, [.send { status := 403
                      body := .error { code := .str "FORBIDDEN", message := "Forbidden",
                                       details := none } }])
      else if p.schoolId.toStr ≠ schoolId.toStr then
        (st, [.send { status := 403
                      body := .error { code := .str "FORBIDDEN", message := "Forbidden",
                                       details := none } }])
      else (st, [.next])

/-- The middleware `(req, res, next) => validate(req, res, next, fn)` of a
route, `validators.js` lines 15 to 22; `rule req.body` is `fn`. -/
def Mw.validate {α : Type} (rule : Body → List FieldError → List FieldError) :
    Middleware α := fun _ req st =>
  let errors := rule req.body []
  if errors.length ≠ 0 then
    (st, [.send { status := 400
                  body := .error { code := .str "VALIDATION_ERROR", message := "Invalid input",
                                   details := some errors } }])
  else (st, [.next])

/-- What a `Reply` says the middleware did. -/
def Reply.effects (α : Type) : Reply → List (Effect α)
  | .next => [.next]
  | .send status code message =>
    [.send { status := status
             body := .error { code := .str code, message := message, details := none } }]

/-- What an `Outcome` says the middleware did. -/
def Outcome.effects (α : Type) : Outcome → List (Effect α)
  | .next => [.next]
  | .respond status error => [.send { status := status, body := .error error }]

/-- A route: its verb and path, its middlewares in order, and the manager
method its wrapped handler calls. -/
structure Route (α : Type) where
  verb : String
  path : String
  stages : List (Middleware α)
  handler : Method

/-- The routes of the v1 router, in the order of the source. -/
def v1Routes (α : Type) (numberIsNaN : JsVal → Bool) : List (Route α) :=
  [ { verb := "POST", path := "/auth/register-superadmin", handler := .registerSuperadmin,
      stages := [Mw.rateLimit registerLimiter, Mw.validate registerRule] },
    { verb := "POST", path := "/auth/login", handler := .login,
      stages := [Mw.rateLimit loginLimiter, Mw.validate loginRule] },
    { verb := "POST", path := "/schools/:schoolId/admins", handler := .createSchoolAdmin,
      stages := [Mw.authJwt, Mw.requireRole [.str "SUPERADMIN"], Mw.validate registerRule] },
    { verb := "POST", path := "/schools", handler := .createSchool,
      stages := [Mw.authJwt, Mw.requireRole [.str "SUPERADMIN"], Mw.validate schoolRule] },
    { verb := "GET", path := "/schools", handler := .listSchools,
      stages := [Mw.authJwt, Mw.requireRole [.str "SUPERADMIN"]] },
    { verb := "GET", path := "/schools/:id", handler := .getSchool,
      stages := [Mw.authJwt, Mw.requireRole [.str "SUPERADMIN"]] },
    { verb := "PUT", path := "/schools/:id", handler := .updateSchool,
      stages := [Mw.authJwt, Mw.requireRole [.str "SUPERADMIN"]] },
    { verb := "DELETE", path := "/schools/:id", handler := .deleteSchool,
      stages := [Mw.authJwt, Mw.requireRole [.str "SUPERADMIN"]] },
    { verb := "POST", path := "/schools/:schoolId/classrooms", handler := .createClassroom,
      stages := [Mw.authJwt, Mw.requireSchoolScope, Mw.validate (classroomRule numberIsNaN)] },
    { verb := "GET", path := "/schools/:schoolId/classrooms", handler := .listClassrooms,
      stages := [Mw.authJwt, Mw.requireSchoolScope] },
    { verb := "GET", path := "/schools/:schoolId/classrooms/:classroomId",
      handler := .getClassroom, stages := [Mw.authJwt, Mw.requireSchoolScope] },
    { verb := "PUT", path := "/schools/:schoolId/classrooms/:classroomId",
      handler := .updateClassroom, stages := [Mw.authJwt, Mw.requireSchoolScope] },
    { verb := "DELETE", path := "/schools/:schoolId/classrooms/:classroomId",
      handler := .deleteClassroom, stages := [Mw.authJwt, Mw.requireSchoolScope] },
    { verb := "POST", path := "/schools/:schoolId/students", handler := .createStudent,
      stages := [Mw.authJwt, Mw.requireSchoolScope, Mw.validate studentRule] },
    { verb := "GET", path := "/schools/:schoolId/students", handler := .listStudents,
      stages := [Mw.authJwt, Mw.requireSchoolScope] },
    { verb := "GET", path := "/schools/:schoolId/students/:studentId", handler := .getStudent,
      stages := [Mw.authJwt, Mw.requireSchoolScope] },
    { verb := "PUT", path := "/schools/:schoolId/students/:studentId", handler := .updateStudent,
      stages := [Mw.authJwt, Mw.requireSchoolScope] },
    { verb := "DELETE", path := "/schools/:schoolId/students/:studentId",
      handler := .deleteStudent, stages := [Mw.authJwt, Mw.requireSchoolScope] },
    { verb := "POST", path := "/schools/:schoolId/students/:studentId/enroll",
      handler := .enrollStudent, stages := [Mw.authJwt, Mw.requireSchoolScope] },
    { verb := "POST", path := "/schools/:schoolId/students/:studentId/transfer",
      handler := .transferStudent, stages := [Mw.authJwt, Mw.requireRole [.str "SUPERADMIN"]] } ]

/-- What serving one request did: the positions of the middlewares that were
called, in the order of the calls (0 is the global limiter, 1 the first
middleware of the route); how often the manager method was called; the
responses sent, each with the position of its sender (the wrapped handler
stands after the last middleware); the errors that left a middleware; and the
state left. -/
structure Served (α : Type) where
  ran : List Nat
  handlerCalls : Nat
  sent : List (Nat × Response α)
  errors : List Thrown
  state : ReqState

/-- The dispatch of Express for the middleware at position `i`, whose effects
are given in order: a header changes nothing here, a response is recorded, each
call of `next()` runs `rest`, the middlewares after this one, on the state
reached, and an exception ends the middleware and is recorded. -/
def runEffects {α : Type} (i : Nat) (rest : ReqState → Served α) :
    List (Effect α) → Served α → Served α
  | [], acc => acc
  | .setHeader _ _ :: es, acc => runEffects i rest es acc
  | .send r :: es, acc => runEffects i rest es { acc with sent := acc.sent ++ [(i, r)] }
  | .next :: es, acc =>
    let d := rest acc.state
    runEffects i rest es
      { ran := acc.ran ++ d.ran, handlerCalls := acc.handlerCalls + d.handlerCalls
        sent := acc.sent ++ d.sent, errors := acc.errors ++ d.errors, state := d.state }
  | .throw err :: _, acc => { acc with errors := acc.errors ++ [err] }

/-- The middlewares `stages`, standing at the positions `i`, `i + 1`, ..., and
after them the wrapped handler, as Express runs them: the first one is called,
and what follows it is called whenever it calls `next()`. `handler` is the call
of the manager method, given the request and `req.auth`. -/
def runStages {α : Type} (ctx : Ctx) (req : HttpReq)
    (handler : HttpReq → Option Principal → Except Thrown α) :
    List (Middleware α) → Nat → ReqState → Served α
  | [], i, st =>
    { ran := [], handlerCalls := 1
      sent := (wrap (handler req st.auth)).map fun r => (i, r)
      errors := [], state := st }
  | m :: rest, i, st =>
    runEffects i (runStages ctx req handler rest (i + 1)) (m ctx req st).2
      { ran := [i], handlerCalls := 0, sent := [], errors := [], state := (m ctx req st).1 }

/-- A request served by a route of the router: the global limiter, then the
middlewares of the route, then the handler. -/
def serve {α : Type} (ctx : Ctx) (req : HttpReq)
    (handler : HttpReq → Option Principal → Except Thrown α) (route : Route α)
    (st : ReqState) : Served α :=
  runStages ctx req handler (Mw.rateLimit globalLimiter :: route.stages) 0 st

/-- The effects of a middleware other than its headers. -/
def control {α : Type} (es : List (Effect α)) : List (Effect α) :=
  es.filter fun e =>
    match e with
    | .setHeader _ _ => false
    | _ => true

/-- A middleware that, on every call, either calls `next()` once and sends
nothing, or sends one failure (a status from 400 on with an `error` body) and
does not call `next()`; it never throws. -/
def Tidy {α : Type} (m : Middleware α) : Prop :=
  ∀ (ctx : Ctx) (req : HttpReq) (st : ReqState),
    control (m ctx req st).2 = [.next] ∨
    ∃ r : Response α, control (m ctx req st).2 = [.send r] ∧ 400 ≤ r.status ∧
      ∃ e : ErrorBody, r.body = .error e

/-- The route `POST /auth/login`. -/
def loginRoute (α : Type) : Route α :=
  { verb := "POST", path := "/auth/login", handler := .login,
    stages := [Mw.rateLimit loginLimiter, Mw.validate loginRule] }

/-- A login request without body fields. -/
def emptyLogin : HttpReq :=
  { ip := "10.0.0.1", originalUrl := "/v1/auth/login", authorization := none
    schoolId := .undefined, body := fun _ => .undefined }

/-- A login request whose `email` is the boolean `false`. -/
def falseEmailLogin : HttpReq :=
  { ip := "10.0.0.1", originalUrl := "/v1/auth/login", authorization := none
    schoolId := .undefined
    body := fun field =>
      if field = "email" then .bool false
      else if field = "password" then .str "x"
      else .undefined }

/-- The `TypeError` of `email.toLowerCase()` (`SmsAuth.manager.js` line 55)
when `email` is a boolean: it has neither `status` nor `code`. -/
def toLowerCaseTypeError : Thrown :=
  { status := none, code := none, message := "email.toLowerCase is not a function" }

/-! ## The collections and the managers of users and schools

The database is a record of four lists of documents. An ObjectId is held as
the hexadecimal string `String` gives for it and documents are found by
equality of ids; the `_id` of a new document is an argument of the call that
creates it. The timestamps of the documents are left out. -/

/-- A document of the `School` model. -/
structure School where
  _id : String
  name : String
  address : String
  phone : String
  createdBy : String
  deriving DecidableEq, Repr

/-- A document of the `Classroom` model. -/
structure Classroom where
  _id : String
  schoolId : String
  name : JsVal
  capacity : JsVal
  resources : JsVal
  deriving DecidableEq, Repr

/-- A document of the `Student` model. -/
structure Student where
  _id : String
  schoolId : String
  classroomId : Option String
  firstName : JsVal
  lastName : JsVal
  dob : JsVal
  studentNumber : JsVal
  status : JsVal
  deriving DecidableEq, Repr

/-- The four collections. -/
structure Db where
  users : List User
  schools : List School
  classrooms : List Classroom
  students : List Student
  deriving DecidableEq, Repr

/-- The database before any request. -/
def Db.empty : Db := { users := [], schools := [], classrooms := [], students := [] }

/-- The functions of the platform and of the packages `bcrypt` and `mongoose`
that the managers call and this development does not define. -/
structure Externals where
  /-- The method `toLowerCase()` of a string. -/
  toLowerCase : String → String
  /-- The call `bcrypt.hash(password, 12)`. -/
  bcryptHash : String → String
  /-- The call `bcrypt.compare(password, passwordHash)`. -/
  bcryptCompare : String → String → Bool
  /-- The expression `new Date(dob)`. -/
  newDate : JsVal → JsVal
  /-- Whether a field matches `{ $regex: q, $options: 'i' }`. -/
  regexTest : JsVal → JsVal → Bool
  /-- The value of `Math.min(parseInt(limit || 50, 10), 200)`. -/
  parseLimit : JsVal → Int
  /-- The value of `Math.max(parseInt(offset || 0, 10), 0)`. -/
  parseOffset : JsVal → Int
  /-- The positions, among the students that match a filter, of the documents
  that `sort({ createdAt: -1 }).skip(offset).limit(limit)` returns, in order. -/
  pageStudents : Int → Int → List Student → List Nat
  /-- The same for classrooms. -/
  pageClassrooms : Int → Int → List Classroom → List Nat
  /-- The error, if any, that storing a student document raises: a failed
  schema validation or cast, or duplicate key 11000 of the unique index on
  `schoolId` and `studentNumber`; the first argument is the collection. -/
  studentSaveError : List Student → Student → Option Thrown
  /-- The same for classrooms, whose unique index is on `schoolId` and `name`. -/
  classroomSaveError : List Classroom → Classroom → Option Thrown

/-- The configuration `config.dotEnv` and the package `jsonwebtoken`, as
`SmsAuthManager` uses them. -/
structure AuthConfig where
  jwt : Jwt
  secret : String
  expiresIn : Option String

/-- The error `jwt.sign` throws, as a thrown value: it has no status and no
code. -/
def JwtError.thrown : JwtError → Thrown
  | .expired => { status := none, code := none, message := "jwt expired" }
  | .invalidSignature => { status := none, code := none, message := "invalid signature" }
  | .malformed => { status := none, code := none, message := "jwt malformed" }
  | .other message => { status := none, code := none, message := message }

/-- The call `User.create({ email, passwordHash, role, schoolId })` under the
schema of `User.model.js`: `email` is lower-cased and trimmed and is required,
and it is unique; `_id` is the id the driver generates. -/
def User.create (ext : Externals) (_id email passwordHash role : String)
    (schoolId : Option String) (db : Db) : Except Thrown User × Db :=
  let stored := jsTrim (ext.toLowerCase email)
  if stored = "" then
    (.error { status := none, code := none
              message := "User validation failed: email: Path `email` is required." }, db)
  else if db.users.any (fun u => u.email = stored) then
    (.error { status := none, code := some (.num 11000)
              message := "E11000 duplicate key error" }, db)
  else
    let user : User :=
      { _id := _id, email := stored, passwordHash := passwordHash, role := role
        schoolId := schoolId }
    (.ok user, { db with users := db.users ++ [user] })

/-- The object `user` in the results of `SmsAuthManager`; `schoolId` is
`undefined` where the source does not set it. -/
structure UserDto where
  id : String
  email : String
  role : String
  schoolId : JsVal
  deriving DecidableEq, Repr

/-- The result `{ token, user }` of `registerSuperadmin` and `login`. -/
structure Session where
  token : String
  user : UserDto
  deriving DecidableEq, Repr

/-- The method `registerSuperadmin({ email, password })`, when the clock reads
`now` and the driver generates `newId`. -/
def registerSuperadmin (ext : Externals) (cfg : AuthConfig) (now : Int) (newId : String)
    (email password : String) (db : Db) : Except Thrown Session × Db :=
  match db.users.find? (fun u => u.role = "SUPERADMIN") with
  | some _ => (.error (HttpError 409 "A superadmin already exists" (some "SUPERADMIN_EXISTS")), db)
  | none =>
    match db.users.find? (fun u => u.email = ext.toLowerCase email) with
    | some _ => (.error (HttpError 409 "Email already in use" (some "EMAIL_EXISTS")), db)
    | none =>
      let passwordHash := ext.bcryptHash password
      match User.create ext newId (ext.toLowerCase email) passwordHash "SUPERADMIN" none db with
      | (.error err, db1) => (.error err, db1)
      | (.ok user, db1) =>
        match _signToken cfg.jwt cfg.secret cfg.expiresIn now user with
        | .error e => (.error e.thrown, db1)
        | .ok token =>
          (.ok { token := token
                 user := { id := user._id, email := user.email, role := user.role
                           schoolId := .undefined } }, db1)

/-- The method `login({ email, password })`. -/
def login (ext : Externals) (cfg : AuthConfig) (now : Int) (email password : String)
    (db : Db) : Except Thrown Session × Db :=
  match db.users.find? (fun u => u.email = ext.toLowerCase email) with
  | none => (.error (HttpError 401 "Invalid credentials" (some "INVALID_CREDENTIALS")), db)
  | some user =>
    if ext.bcryptCompare password user.passwordHash = false then
      (.error (HttpError 401 "Invalid credentials" (some "INVALID_CREDENTIALS")), db)
    else
      match _signToken cfg.jwt cfg.secret cfg.expiresIn now user with
      | .error e => (.error e.thrown, db)
      | .ok token =>
        (.ok { token := token
               user := { id := user._id, email := user.email, role := user.role
                         schoolId := match user.schoolId with
                                     | some oid => .str oid
                                     | none => .null } }, db)

/-- The method `createSchoolAdmin({ schoolId, email, password, __authUser })`. -/
def createSchoolAdmin (ext : Externals) (newId : String) (schoolId email password : String)
    (__authUser : Principal) (db : Db) : Except Thrown UserDto × Db :=
  if __authUser.role ≠ .str "SUPERADMIN" then
    (.error (HttpError 403 "Forbidden" (some "FORBIDDEN")), db)
  else
    match db.schools.find? (fun s => s._id = schoolId) with
    | none => (.error (HttpError 404 "School not found" (some "NOT_FOUND")), db)
    | some _ =>
      match db.users.find? (fun u => u.email = ext.toLowerCase email) with
      | some _ => (.error (HttpError 409 "Email already in use" (some "EMAIL_EXISTS")), db)
      | none =>
        let passwordHash := ext.bcryptHash password
        match User.create ext newId (ext.toLowerCase email) passwordHash "SCHOOL_ADMIN"
            (some schoolId) db with
        | (.error err, db1) => (.error err, db1)
        | (.ok user, db1) =>
          (.ok { id := user._id, email := user.email, role := user.role
                 schoolId := .str (user.schoolId.getD "null") }, db1)

/-- The expression `v || ''` for a field of the body. -/
def valOr (v : JsVal) (d : String) : JsVal :=
  if v.truthy = true then v else .str d

/-- The result of `_toDto` of `SmsSchoolManager`, without the timestamps. -/
structure SchoolDto where
  id : String
  name : String
  address : String
  phone : String
  createdBy : String
  deriving DecidableEq, Repr

/-- The method `_toDto(s)` of `SmsSchoolManager`. -/
def SmsSchoolManager._toDto (s : School) : SchoolDto :=
  { id := s._id, name := s.name, address := strOr (some s.address) "",
    phone := strOr (some s.phone) "", createdBy := s.createdBy }

/-- The method `createSchool({ name, address, phone, __authUser })`; under the
schema of `School.model.js` the name is trimmed and is required. -/
def createSchool (newId : String) (name address phone : JsVal) (__authUser : Principal)
    (db : Db) : Except Thrown SchoolDto × Db :=
  if __authUser.role ≠ .str "SUPERADMIN" then
    (.error (HttpError 403 "Forbidden" (some "FORBIDDEN")), db)
  else if name = .undefined ∨ name = .null ∨ jsTrim name.toStr = "" then
    (.error { status := none, code := none
              message := "School validation failed: name: Path `name` is required." }, db)
  else
    let school : School :=
      { _id := newId, name := jsTrim name.toStr, address := (valOr address "").toStr,
        phone := (valOr phone "").toStr, createdBy := __authUser.userId.toStr }
    (.ok (SmsSchoolManager._toDto school), { db with schools := db.schools ++ [school] })

/-- The first document of `l` that satisfies `p` removed, as `findOneAndDelete`
does. -/
def removeFirst {α : Type} (p : α → Bool) : List α → List α
  | [] => []
  | a :: as => if p a then as else a :: removeFirst p as

/-- The method `deleteSchool({ id, __authUser })`; the result `true` stands for
`{ deleted: true }`. -/
def deleteSchool (id : String) (__authUser : Principal) (db : Db) : Except Thrown Bool × Db :=
  if __authUser.role ≠ .str "SUPERADMIN" then
    (.error (HttpError 403 "Forbidden" (some "FORBIDDEN")), db)
  else
    match db.schools.find? (fun s => s._id = id) with
    | none => (.error (HttpError 404 "School not found" (some "NOT_FOUND")), db)
    | some _ =>
      let schools := removeFirst (fun s => s._id = id) db.schools
      let users := db.users.map fun u =>
        if u.schoolId = some id then { u with schoolId := none } else u
      (.ok true, { db with schools := schools, users := users })

/-- Whether a string is the rendering of an ObjectId: 24 hexadecimal digits in
lower case. -/
def isObjectId (s : String) : Bool :=
  s.data.length = 24 && s.data.all fun c => c.isDigit || ('a' ≤ c && c ≤ 'f')

/-- The states of the database reached from the empty one by calls of
`registerSuperadmin`, `createSchool`, `createSchoolAdmin` and `deleteSchool`
with any arguments; the ids the driver generates are ObjectIds. -/
inductive Reachable (ext : Externals) (cfg : AuthConfig) : Db → Prop where
  | empty : Reachable ext cfg Db.empty
  | registerSuperadmin (db : Db) (now : Int) (newId email password : String) :
      Reachable ext cfg db → isObjectId newId = true →
      Reachable ext cfg (registerSuperadmin ext cfg now newId email password db).2
  | createSchool (db : Db) (newId : String) (name address phone : JsVal)
      (__authUser : Principal) :
      Reachable ext cfg db → isObjectId newId = true →
      Reachable ext cfg (createSchool newId name address phone __authUser db).2
  | createSchoolAdmin (db : Db) (newId schoolId email password : String)
      (__authUser : Principal) :
      Reachable ext cfg db → isObjectId newId = true →
      Reachable ext cfg (createSchoolAdmin ext newId schoolId email password __authUser db).2
  | deleteSchool (db : Db) (id : String) (__authUser : Principal) :
      Reachable ext cfg db →
      Reachable ext cfg (deleteSchool id __authUser db).2

/-- The principal a stored user gets: `login` with `email` and `password` at
`issuedAt`, then `authJwt` at `now` on the header `Bearer ` followed by the
token; none when the login or the authentication fails. -/
def principalOf (ext : Externals) (cfg : AuthConfig) (issuedAt now : Int)
    (email password : String) (db : Db) : Option Principal :=
  match (login ext cfg issuedAt email password db).1 with
  | .error _ => none
  | .ok session =>
    (authJwt cfg.jwt cfg.secret now (some ("Bearer " ++ session.token))).auth

/-- What holds of the users and schools in every reachable state: the ids of
the schools are ObjectIds; a SUPERADMIN has no school; a SCHOOL_ADMIN has no
school or one that is in the collection; no other role occurs; at most one
user is a SUPERADMIN. -/
def Db.Consistent (db : Db) : Prop :=
  (∀ s ∈ db.schools, isObjectId s._id = true) ∧
  (∀ u ∈ db.users,
    (u.role = "SUPERADMIN" ∧ u.schoolId = none) ∨
    (u.role = "SCHOOL_ADMIN" ∧
      (u.schoolId = none ∨ ∃ s ∈ db.schools, u.schoolId = some s._id))) ∧
  db.users.countP (fun u => u.role = "SUPERADMIN") ≤ 1

/-- Stand-ins for the external functions: lower-casing of ASCII letters, a
hash that prefixes the password, no date conversion, no search, the first 50
documents as page, a database that accepts every document. -/
def plainExt : Externals where
  toLowerCase := fun s => String.mk (s.data.map Char.toLower)
  bcryptHash := fun password => "$2b$12$" ++ password
  bcryptCompare := fun password passwordHash => passwordHash = "$2b$12$" ++ password
  newDate := fun v => v
  regexTest := fun _ _ => true
  parseLimit := fun _ => 50
  parseOffset := fun _ => 0
  pageStudents := fun _ _ l => List.range (Nat.min l.length 50)
  pageClassrooms := fun _ _ l => List.range (Nat.min l.length 50)
  studentSaveError := fun _ _ => none
  classroomSaveError := fun _ _ => none

/-- The id of the superadmin of the examples. -/
def rootId : String := "64b000000000000000000001"

/-- The id of the school of the examples. -/
def schoolAId : String := "64b000000000000000000002"

/-- The id of the school admin of the examples. -/
def adminId : String := "64b000000000000000000003"

/-- The claims of the superadmin of the examples. -/
def rootClaims : Claims :=
  { sub := .str rootId, role := .str "SUPERADMIN", schoolId := .null }

/-- The claims of the school admin of the examples after its school was
deleted. -/
def orphanClaims : Claims :=
  { sub := .str adminId, role := .str "SCHOOL_ADMIN", schoolId := .null }

/-- A stand-in for `jsonwebtoken` that knows two tokens: `r.o.t` for
`rootClaims` and `a.d.m` for `orphanClaims`; it signs nothing else and its
tokens do not expire. -/
def tableJwt : Jwt where
  sign := fun claims _ _ _ =>
    if claims = rootClaims then .ok "r.o.t"
    else if claims = orphanClaims then .ok "a.d.m"
    else .error (.other "unsupported")
  verify := fun token _ _ =>
    if token = "r.o.t" then .ok rootClaims
    else if token = "a.d.m" then .ok orphanClaims
    else .error .malformed

/-- The configuration of the examples. -/
def tableCfg : AuthConfig := { jwt := tableJwt, secret := "test-secret", expiresIn := some "1h" }

/-- The principal of the superadmin of the examples. -/
def rootPrincipal : Principal :=
  { userId := .str rootId, role := .str "SUPERADMIN", schoolId := .null }

/-- The database after the superadmin registered. -/
def dbRegistered : Db :=
  (registerSuperadmin plainExt tableCfg 0 rootId "sa@example.com" "password123" Db.empty).2

/-- The database after the superadmin created a school. -/
def dbWithSchool : Db :=
  (createSchool schoolAId (.str "My School") (.str "123 St") (.str "555") rootPrincipal
    dbRegistered).2

/-- The database after the superadmin created an admin of that school. -/
def dbWithAdmin : Db :=
  (createSchoolAdmin plainExt adminId schoolAId "admin@example.com" "password123"
    rootPrincipal dbWithSchool).2

/-- The database after the superadmin deleted the school. -/
def dbSchoolDeleted : Db := (deleteSchool schoolAId rootPrincipal dbWithAdmin).2

/-- The principal `authJwt` builds from a token that `_signToken(user)`
issued. -/
def User.principal (user : User) : Principal :=
  { userId := .str user._id
    role := .str user.role
    schoolId :=
      match user.schoolId with
      | some oid => .str oid
      | none => .null }

/-! ## The managers of classrooms and students -/

/-- The first document of `l` that satisfies `p` replaced by `doc`, as
`save()` does for the document that `findOne` returned. -/
def replaceFirst {α : Type} (p : α → Bool) (doc : α) : List α → List α
  | [] => []
  | a :: as => if p a then doc :: as else a :: replaceFirst p doc as

/-- The `catch` block around `create` and `save`: the duplicate-key error
becomes `HttpError(409, message, 'DUPLICATE')`, any other error is thrown
again. -/
def rethrowDuplicate (message : String) (err : Thrown) : Thrown :=
  if err.code = some (.num 11000) then HttpError 409 message (some "DUPLICATE") else err

/-- The result `{ total, limit, offset, items }` of a list method. -/
structure Page (α : Type) where
  total : Nat
  limit : Int
  offset : Int
  items : List α
  deriving DecidableEq, Repr

/-- The result of `_toDto` of `SmsClassroomManager`, without the timestamps;
`resources` is an array, held as a value this development does not look into. -/
structure ClassroomDto where
  id : String
  schoolId : String
  name : JsVal
  capacity : JsVal
  resources : JsVal
  deriving DecidableEq, Repr

/-- The method `_toDto(c)` of `SmsClassroomManager`. -/
def SmsClassroomManager._toDto (c : Classroom) : ClassroomDto :=
  { id := c._id, schoolId := c.schoolId, name := c.name, capacity := c.capacity,
    resources := c.resources }

/-- The query `Classroom.findOne({ _id: classroomId, schoolId })`. -/
def findClassroom (db : Db) (classroomId : JsVal) (schoolId : String) : Option Classroom :=
  db.classrooms.find? fun c => decide (JsVal.str c._id = classroomId) && decide (c.schoolId = schoolId)

/-- The method `listClassrooms({ schoolId, __authUser, limit, offset })`. -/
def listClassrooms (ext : Externals) (schoolId : String) (limit offset : JsVal)
    (__authUser : Principal) (db : Db) : Except Thrown (Page ClassroomDto) × Db :=
  match SmsClassroomManager._assertScope (.str schoolId) __authUser with
  | .error err => (.error err, db)
  | .ok _ =>
    let limit := ext.parseLimit limit
    let offset := ext.parseOffset offset
    let found := db.classrooms.filter fun c => decide (c.schoolId = schoolId)
    let items := (ext.pageClassrooms limit offset found).filterMap fun i => found[i]?
    (.ok { total := found.length, limit := limit, offset := offset
           items := items.map SmsClassroomManager._toDto }, db)

/-- The method `getClassroom({ schoolId, classroomId, __authUser })`. -/
def getClassroom (schoolId classroomId : String) (__authUser : Principal) (db : Db) :
    Except Thrown ClassroomDto × Db :=
  match SmsClassroomManager._assertScope (.str schoolId) __authUser with
  | .error err => (.error err, db)
  | .ok _ =>
    match findClassroom db (.str classroomId) schoolId with
    | none => (.error (HttpError 404 "Classroom not found" (some "NOT_FOUND")), db)
    | some classroom => (.ok (SmsClassroomManager._toDto classroom), db)

/-- The method `updateClassroom({ schoolId, classroomId, name, capacity,
resources, __authUser })`. -/
def updateClassroom (ext : Externals) (schoolId classroomId : String)
    (name capacity resources : JsVal) (__authUser : Principal) (db : Db) :
    Except Thrown ClassroomDto × Db :=
  match SmsClassroomManager._assertScope (.str schoolId) __authUser with
  | .error err => (.error err, db)
  | .ok _ =>
    match findClassroom db (.str classroomId) schoolId with
    | none => (.error (HttpError 404 "Classroom not found" (some "NOT_FOUND")), db)
    | some classroom =>
      let classroom := if name ≠ .undefined then { classroom with name := name } else classroom
      let classroom :=
        if capacity ≠ .undefined then { classroom with capacity := capacity } else classroom
      let classroom :=
        if resources ≠ .undefined then { classroom with resources := resources } else classroom
      match ext.classroomSaveError db.classrooms classroom with
      | some err =>
        (.error (rethrowDuplicate "Classroom name already exists for this school" err), db)
      | none =>
        let classrooms := replaceFirst
          (fun c => decide (JsVal.str c._id = JsVal.str classroomId) &&
            decide (c.schoolId = schoolId))
          classroom db.classrooms
        (.ok (SmsClassroomManager._toDto classroom), { db with classrooms := classrooms })

/-- The method `deleteClassroom({ schoolId, classroomId, __authUser })`; the
result `true` stands for `{ deleted: true }`. -/
def deleteClassroom (schoolId classroomId : String) (__authUser : Principal) (db : Db) :
    Except Thrown Bool × Db :=
  match SmsClassroomManager._assertScope (.str schoolId) __authUser with
  | .error err => (.error err, db)
  | .ok _ =>
    match findClassroom db (.str classroomId) schoolId with
    | none => (.error (HttpError 404 "Classroom not found" (some "NOT_FOUND")), db)
    | some _ =>
      let classrooms := removeFirst
        (fun c => decide (JsVal.str c._id = JsVal.str classroomId) &&
          decide (c.schoolId = schoolId))
        db.classrooms
      (.ok true, { db with classrooms := classrooms })

/-- The result of `_toDto` of `SmsStudentManager`, without the timestamps. -/
structure StudentDto where
  id : String
  schoolId : String
  classroomId : Option String
  firstName : JsVal
  lastName : JsVal
  dob : JsVal
  studentNumber : JsVal
  status : JsVal
  deriving DecidableEq, Repr

/-- The method `_toDto(s)` of `SmsStudentManager`. -/
def SmsStudentManager._toDto (s : Student) : StudentDto :=
  { id := s._id, schoolId := s.schoolId, classroomId := s.classroomId
    firstName := s.firstName, lastName := s.lastName, dob := s.dob
    studentNumber := s.studentNumber, status := s.status }

/-- The filter `{ _id: studentId, schoolId }` on students. -/
def isStudent (studentId schoolId : String) (s : Student) : Bool :=
  decide (s._id = studentId) && decide (s.schoolId = schoolId)

/-- The query `Student.findOne({ _id: studentId, schoolId })`. -/
def findStudent (db : Db) (studentId schoolId : String) : Option Student :=
  db.students.find? (isStudent studentId schoolId)

/-- The method `createStudent({ schoolId, firstName, lastName, dob,
studentNumber, classroomId, __authUser })`, when the driver generates
`newId`. -/
def createStudent (ext : Externals) (newId schoolId : String)
    (firstName lastName dob studentNumber classroomId : JsVal) (__authUser : Principal)
    (db : Db) : Except Thrown StudentDto × Db :=
  match SmsStudentManager._assertScope (.str schoolId) __authUser with
  | .error err => (.error err, db)
  | .ok _ =>
    match db.schools.find? (fun s => s._id = schoolId) with
    | none => (.error (HttpError 404 "School not found" (some "NOT_FOUND")), db)
    | some _ =>
      if classroomId.truthy = true ∧ findClassroom db classroomId schoolId = none then
        (.error (HttpError 404 "Classroom not found" (some "NOT_FOUND")), db)
      else
        let student : Student :=
          { _id := newId, schoolId := schoolId
            classroomId := if classroomId.truthy = true then some classroomId.toStr else none
            firstName := firstName, lastName := lastName
            dob := if dob.truthy = true then ext.newDate dob else .null
            studentNumber := studentNumber, status := .str "ENROLLED" }
        match ext.studentSaveError db.students student with
        | some err =>
          (.error (rethrowDuplicate "studentNumber already exists for this school" err), db)
        | none =>
          (.ok (SmsStudentManager._toDto student),
           { db with students := db.students ++ [student] })

/-- The method `listStudents({ schoolId, __authUser, limit, offset, q })`. -/
def listStudents (ext : Externals) (schoolId : String) (limit offset q : JsVal)
    (__authUser : Principal) (db : Db) : Except Thrown (Page StudentDto) × Db :=
  match SmsStudentManager._assertScope (.str schoolId) __authUser with
  | .error err => (.error err, db)
  | .ok _ =>
    let limit := ext.parseLimit limit
    let offset := ext.parseOffset offset
    let found := db.students.filter fun s =>
      decide (s.schoolId = schoolId) &&
        (!q.truthy || ext.regexTest q s.firstName || ext.regexTest q s.lastName ||
          ext.regexTest q s.studentNumber)
    let items := (ext.pageStudents limit offset found).filterMap fun i => found[i]?
    (.ok { total := found.length, limit := limit, offset := offset
           items := items.map SmsStudentManager._toDto }, db)

/-- The method `getStudent({ schoolId, studentId, __authUser })`. -/
def getStudent (schoolId studentId : String) (__authUser : Principal) (db : Db) :
    Except Thrown StudentDto × Db :=
  match SmsStudentManager._assertScope (.str schoolId) __authUser with
  | .error err => (.error err, db)
  | .ok _ =>
    match findStudent db studentId schoolId with
    | none => (.error (HttpError 404 "Student not found" (some "NOT_FOUND")), db)
    | some student => (.ok (SmsStudentManager._toDto student), db)

/-- The assignments of `updateStudent` to the fields other than
`classroomId`: a field is set when its argument is not `undefined`. -/
def assignStudentFields (ext : Externals) (firstName lastName dob studentNumber status : JsVal)
    (student : Student) : Student :=
  let student := if firstName ≠ .undefined then { student with firstName := firstName } else student
  let student := if lastName ≠ .undefined then { student with lastName := lastName } else student
  let student :=
    if dob ≠ .undefined then
      { student with dob := if dob.truthy = true then ext.newDate dob else .null }
    else student
  let student :=
    if studentNumber ≠ .undefined then { student with studentNumber := studentNumber }
    else student
  if status ≠ .undefined then { student with status := status } else student

/-- The call `student.save()` inside `try`/`catch` for a student found by
`{ _id: studentId, schoolId }`. -/
def saveStudent (ext : Externals) (message : String) (studentId schoolId : String)
    (student : Student) (db : Db) : Except Thrown StudentDto × Db :=
  match ext.studentSaveError db.students student with
  | some err => (.error (rethrowDuplicate message err), db)
  | none =>
    (.ok (SmsStudentManager._toDto student),
     { db with students := replaceFirst (isStudent studentId schoolId) student db.students })

/-- The method `updateStudent({ schoolId, studentId, firstName, lastName, dob,
studentNumber, status, classroomId, __authUser })`. -/
def updateStudent (ext : Externals) (schoolId studentId : String)
    (firstName lastName dob studentNumber status classroomId : JsVal)
    (__authUser : Principal) (db : Db) : Except Thrown StudentDto × Db :=
  match SmsStudentManager._assertScope (.str schoolId) __authUser with
  | .error err => (.error err, db)
  | .ok _ =>
    match findStudent db studentId schoolId with
    | none => (.error (HttpError 404 "Student not found" (some "NOT_FOUND")), db)
    | some student =>
      if classroomId ≠ .undefined ∧ classroomId ≠ .null ∧ classroomId ≠ .str "" ∧
          findClassroom db classroomId schoolId = none then
        (.error (HttpError 404 "Classroom not found" (some "NOT_FOUND")), db)
      else
        let student :=
          if classroomId = .undefined then student
          else if classroomId = .null ∨ classroomId = .str "" then
            { student with classroomId := none }
          else { student with classroomId := some classroomId.toStr }
        let student := assignStudentFields ext firstName lastName dob studentNumber status student
        saveStudent ext "studentNumber already exists for this school" studentId schoolId
          student db

/-- The method `deleteStudent({ schoolId, studentId, __authUser })`; the result
`true` stands for `{ deleted: true }`. -/
def deleteStudent (schoolId studentId : String) (__authUser : Principal) (db : Db) :
    Except Thrown Bool × Db :=
  match SmsStudentManager._assertScope (.str schoolId) __authUser with
  | .error err => (.error err, db)
  | .ok _ =>
    match findStudent db studentId schoolId with
    | none => (.error (HttpError 404 "Student not found" (some "NOT_FOUND")), db)
    | some _ =>
      (.ok true,
       { db with students := removeFirst (isStudent studentId schoolId) db.students })

/-- The method `enrollStudent({ schoolId, studentId, classroomId,
__authUser })`; its `save()` is not inside a `try`. -/
def enrollStudent (ext : Externals) (schoolId studentId : String) (classroomId : JsVal)
    (__authUser : Principal) (db : Db) : Except Thrown StudentDto × Db :=
  match SmsStudentManager._assertScope (.str schoolId) __authUser with
  | .error err => (.error err, db)
  | .ok _ =>
    match findStudent db studentId schoolId with
    | none => (.error (HttpError 404 "Student not found" (some "NOT_FOUND")), db)
    | some student =>
      if classroomId.truthy = true ∧ findClassroom db classroomId schoolId = none then
        (.error (HttpError 404 "Classroom not found" (some "NOT_FOUND")), db)
      else
        let student : Student :=
          { student with
            classroomId := if classroomId.truthy = true then some classroomId.toStr else none
            status := .str "ENROLLED" }
        match ext.studentSaveError db.students student with
        | some err => (.error err, db)
        | none =>
          (.ok (SmsStudentManager._toDto student),
           { db with students := replaceFirst (isStudent studentId schoolId) student db.students })

/-- The method `transferStudent({ schoolId, studentId, toSchoolId,
toClassroomId, __authUser })`. -/
def transferStudent (ext : Externals) (schoolId studentId : String)
    (toSchoolId toClassroomId : JsVal) (__authUser : Principal) (db : Db) :
    Except Thrown StudentDto × Db :=
  if __authUser.role ≠ .str "SUPERADMIN" then
    (.error (HttpError 403 "Forbidden" (some "FORBIDDEN")), db)
  else
    match findStudent db studentId schoolId with
    | none => (.error (HttpError 404 "Student not found" (some "NOT_FOUND")), db)
    | some student =>
      match db.schools.find? (fun s => decide (JsVal.str s._id = toSchoolId)) with
      | none => (.error (HttpError 404 "Destination school not found" (some "NOT_FOUND")), db)
      | some toSchool =>
        if toClassroomId.truthy = true ∧ findClassroom db toClassroomId toSchool._id = none then
          (.error (HttpError 404 "Destination classroom not found" (some "NOT_FOUND")), db)
        else
          let student : Student :=
            { student with
              classroomId :=
                if toClassroomId.truthy = true then some toClassroomId.toStr else none
              schoolId := toSchool._id
              status := .str "TRANSFERRED" }
          saveStudent ext "studentNumber already exists for destination school" studentId
            schoolId student db

/-- The id of a student together with the school it belongs to. -/
def Student.key (s : Student) : String × String := (s._id, s.schoolId)

/-- A database with the schools `A` and `B`, one classroom and one student in
each. -/
def dbTwoSchools : Db :=
  { users := []
    schools :=
      [{ _id := "A", name := "North", address := "", phone := "", createdBy := "u1" },
       { _id := "B", name := "South", address := "", phone := "", createdBy := "u1" }]
    classrooms :=
      [{ _id := "c1", schoolId := "A", name := .str "Room A", capacity := .str "30",
         resources := .null },
       { _id := "c2", schoolId := "B", name := .str "Room B", capacity := .str "20",
         resources := .null }]
    students :=
      [{ _id := "s1", schoolId := "A", classroomId := some "c1", firstName := .str "Ada",
         lastName := .str "Lovelace", dob := .null, studentNumber := .str "S-001",
         status := .str "ENROLLED" },
       { _id := "s2", schoolId := "B", classroomId := some "c2", firstName := .str "Alan",
         lastName := .str "Turing", dob := .null, studentNumber := .str "S-001",
         status := .str "ENROLLED" }] }

/-- The classrooms and the students of the schools other than `a`. -/
def Db.outside (a : String) (db : Db) : List Classroom × List Student :=
  (db.classrooms.filter fun c => decide (c.schoolId ≠ a),
   db.students.filter fun s => decide (s.schoolId ≠ a))

/-! ### Counting the calls let through -/

/-- The calls of a run with their results: the clock reading of each call
paired with what the limiter did. -/
def limiterTrace (cfg : LimiterConfig) (b : Buckets) (calls : List (LimiterReq × Int)) :
    List (Int × Limited) :=
  (calls.map fun x => x.2).zip (runLimiter cfg b calls)

/-- A call that was let through in the window whose reset time is `r`: the
calls between one reset of the bucket and the next are those answered with the
same `X-RateLimit-Reset`. -/
def sameWindow (r : Int) (x : Int × Limited) : Bool :=
  x.2.reply.calledNext && decide (x.2.resetAt = r)

/-- A call that was let through at one of the `w` seconds `a`, ..., `a + w - 1`. -/
def inInterval (a w : Int) (x : Int × Limited) : Bool :=
  x.2.reply.calledNext && decide (a ≤ x.1 ∧ x.1 < a + w)

/-- Twelve login calls from one address: two at second 0, four at second 60,
six at second 61. -/
def burstCalls : List (LimiterReq × Int) :=
  [(loginReq, 0), (loginReq, 0), (loginReq, 60), (loginReq, 60), (loginReq, 60),
   (loginReq, 60), (loginReq, 61), (loginReq, 61), (loginReq, 61), (loginReq, 61),
   (loginReq, 61), (loginReq, 61)]

/-- The method `login({ email, password })` of `SmsAuthManager` called, as the
handler of `POST /auth/login` calls it, with the `email` of `req.body`, which
can be any value, and a string `password`. Its first statement calls
`email.toLowerCase()`: a string has that method; a boolean has no such
property, and calling it throws a `TypeError`; of `undefined` and `null` no
property can be read. -/
def loginWith (ext : Externals) (cfg : AuthConfig) (now : Int) (email : JsVal)
    (password : String) (db : Db) : Except Thrown Session × Db :=
  match email with
  | .str s => login ext cfg now s password db
  | .bool _ => (.error toLowerCaseTypeError, db)
  | .undefined =>
    (.error { status := none, code := none
              message := "Cannot read properties of undefined (reading \x27toLowerCase\x27)" }, db)
  | .null =>
    (.error { status := none, code := none
              message := "Cannot read properties of null (reading \x27toLowerCase\x27)" }, db)

end Sms

/-! # Properties -/

namespace Sms

/-! ## Role guard and scope guard -/

theorem truthy_str (s : String) : (JsVal.str s).truthy = true ↔ s ≠ "" := by
  simp [JsVal.truthy]

/-- C1: `requireSchoolScope` lets a SUPERADMIN through for every target; it
lets a SCHOOL_ADMIN through exactly when `principal.schoolId` is truthy (for a
string: not the empty string) and `String(principal.schoolId)` equals
`String(target)`; a SCHOOL_ADMIN that is not let through is answered
403 FORBIDDEN, and `next` is not called. -/
theorem requireSchoolScope_contract (p : Principal) (target : JsVal) :
    (p.role = .str "SUPERADMIN" → requireSchoolScope (some p) target = .next) ∧
    (p.role = .str "SCHOOL_ADMIN" →
      (requireSchoolScope (some p) target = .next ↔
        p.schoolId.truthy = true ∧ p.schoolId.toStr = target.toStr) ∧
      (∀ s, p.schoolId = .str s →
        (requireSchoolScope (some p) target = .next ↔ s ≠ "" ∧ s = target.toStr)) ∧
      (requireSchoolScope (some p) target ≠ .next →
        requireSchoolScope (some p) target = .send 403 "FORBIDDEN" "Forbidden" ∧
        (requireSchoolScope (some p) target).calledNext = false)) := by
  refine ⟨fun h => by simp [requireSchoolScope, h], fun h => ?_⟩
  have hne : (JsVal.str "SCHOOL_ADMIN") ≠ .str "SUPERADMIN" := by decide
  have key : requireSchoolScope (some p) target = .next ↔
      p.schoolId.truthy = true ∧ p.schoolId.toStr = target.toStr := by
    simp only [requireSchoolScope, h, hne, if_false, ne_eq, not_true_eq_false, false_or]
    by_cases ht : p.schoolId.truthy = true
    · by_cases he : p.schoolId.toStr = target.toStr <;> simp [ht, he]
    · simp [ht]
  refine ⟨key, ?_, ?_⟩
  · intro s hs
    rw [key, hs, truthy_str]
    rfl
  · intro hn
    have : requireSchoolScope (some p) target = .send 403 "FORBIDDEN" "Forbidden" := by
      simp only [requireSchoolScope, h, hne, if_false, ne_eq, not_true_eq_false, false_or] at hn ⊢
      by_cases ht : p.schoolId.truthy = true
      · by_cases he : p.schoolId.toStr = target.toStr
        · simp [ht, he] at hn
        · simp [ht, he]
      · simp [ht]
    rw [this]
    exact ⟨rfl, rfl⟩

/-- C1, at concrete inputs: a superadmin passes for the empty target and for an
unrelated one; the admin of school `A` passes for `A` and is answered
403 FORBIDDEN for `AB`, of which `A` is a prefix. -/
theorem requireSchoolScope_contract_witness :
    requireSchoolScope (some superadmin) (.str "") = .next ∧
    requireSchoolScope (some superadmin) (.str "B") = .next ∧
    requireSchoolScope (some adminOfA) (.str "A") = .next ∧
    requireSchoolScope (some adminOfA) (.str "AB") = .send 403 "FORBIDDEN" "Forbidden" :=
  ⟨(requireSchoolScope_contract superadmin (.str "")).1 rfl,
   (requireSchoolScope_contract superadmin (.str "B")).1 rfl,
   ((requireSchoolScope_contract adminOfA (.str "A")).2 rfl).1.2 ⟨by decide, by decide⟩,
   (((requireSchoolScope_contract adminOfA (.str "AB")).2 rfl).2.2 (by decide)).1⟩

/-- C2: `requireRole(roles)` calls `next` exactly when a principal is present
and its role is one of `roles`; a present principal with another role is
answered 403 FORBIDDEN; a missing principal is answered 401 UNAUTHORIZED for
every `roles`, never 403. -/
theorem requireRole_contract (roles : List JsVal) (auth : Option Principal) :
    (requireRole roles auth = .next ↔ ∃ p, auth = some p ∧ p.role ∈ roles) ∧
    (∀ p, auth = some p → p.role ∉ roles →
      requireRole roles auth = .send 403 "FORBIDDEN" "Forbidden") ∧
    (auth = none →
      requireRole roles auth = .send 401 "UNAUTHORIZED" "Unauthorized" ∧
      (requireRole roles auth).status? ≠ some 403) := by
  refine ⟨?_, ?_, ?_⟩
  · cases auth with
    | none => simp [requireRole]
    | some q =>
      by_cases hm : q.role ∈ roles <;> simp [requireRole, hm]
  · intro p hp hm
    subst hp
    simp [requireRole, hm]
  · intro h
    subst h
    exact ⟨rfl, by simp [requireRole, Reply.status?]⟩

/-- C2, at concrete inputs: on a SUPERADMIN-only route a superadmin passes, a
school admin is answered 403 and a request without principal 401. -/
theorem requireRole_contract_witness :
    requireRole [.str "SUPERADMIN"] (some superadmin) = .next ∧
    requireRole [.str "SUPERADMIN"] (some adminOfA) = .send 403 "FORBIDDEN" "Forbidden" ∧
    requireRole [.str "SUPERADMIN"] none = .send 401 "UNAUTHORIZED" "Unauthorized" :=
  ⟨(requireRole_contract [.str "SUPERADMIN"] (some superadmin)).1.2 ⟨superadmin, rfl, by decide⟩,
   (requireRole_contract [.str "SUPERADMIN"] (some adminOfA)).2.1 adminOfA rfl (by decide),
   ((requireRole_contract [.str "SUPERADMIN"] none).2.2 rfl).1⟩

/-- C3, as stated, fails: a principal with a role outside the two known ones is
answered 403 (not 401), and a request without principal is answered 401
(not 403). -/
theorem requireSchoolScope_swapped_counterexample :
    requireSchoolScope (some teacher) (.str "A") = .send 403 "FORBIDDEN" "Forbidden" ∧
    (requireSchoolScope (some teacher) (.str "A")).status? ≠ some 401 ∧
    requireSchoolScope none (.str "A") = .send 401 "UNAUTHORIZED" "Unauthorized" ∧
    (requireSchoolScope none (.str "A")).status? ≠ some 403 := by
  decide

/-- C3, amended: for every target, `requireSchoolScope` answers
401 UNAUTHORIZED when no principal is present, and 403 FORBIDDEN when the
principal has a role that is neither SUPERADMIN nor SCHOOL_ADMIN. -/
theorem requireSchoolScope_other_cases (target : JsVal) :
    requireSchoolScope none target = .send 401 "UNAUTHORIZED" "Unauthorized" ∧
    (∀ p : Principal, p.role ≠ .str "SUPERADMIN" → p.role ≠ .str "SCHOOL_ADMIN" →
      requireSchoolScope (some p) target = .send 403 "FORBIDDEN" "Forbidden") := by
  refine ⟨rfl, fun p h1 h2 => ?_⟩
  simp [requireSchoolScope, h1, h2]

/-- C3, amended, at concrete inputs. -/
theorem requireSchoolScope_other_cases_witness :
    requireSchoolScope none (.str "A") = .send 401 "UNAUTHORIZED" "Unauthorized" ∧
    requireSchoolScope (some teacher) (.str "A") = .send 403 "FORBIDDEN" "Forbidden" :=
  ⟨(requireSchoolScope_other_cases (.str "A")).1,
   (requireSchoolScope_other_cases (.str "A")).2 teacher (by decide) (by decide)⟩

/-! ## Rate limiter -/

theorem windowReply_eq (max c : Int) (i : Nat) :
    windowReply max c i
      = if c + (i : Int) + 1 > max then .send 429 "RATE_LIMITED" "Too many requests"
        else .next := by
  unfold windowReply
  by_cases h : c + (i : Int) < max
  · have h2 : ¬ (c + (i : Int) + 1 > max) := by omega
    simp [h, h2]
  · have h2 : c + (i : Int) + 1 > max := by omega
    simp [h, h2]

theorem rateLimit_fresh (cfg : LimiterConfig) (req : LimiterReq) (t : Int) (b : Buckets)
    (key : String) (hk : limiterKey cfg req = key) (hb : b key = none) :
    (rateLimit cfg req t b).buckets key = some ⟨t + cfg.windowSec, 1⟩ ∧
    (rateLimit cfg req t b).reply = windowReply cfg.max 0 0 := by
  subst hk
  rw [windowReply_eq]
  by_cases hw : t > t + cfg.windowSec <;>
    simp [rateLimit, Buckets.set, hb, hw]

theorem rateLimit_in_window (cfg : LimiterConfig) (req : LimiterReq) (t : Int) (b : Buckets)
    (key : String) (r c : Int) (hk : limiterKey cfg req = key) (hb : b key = some ⟨r, c⟩)
    (ht : t ≤ r) :
    (rateLimit cfg req t b).buckets key = some ⟨r, c + 1⟩ ∧
    (rateLimit cfg req t b).reply = windowReply cfg.max c 0 := by
  subst hk
  rw [windowReply_eq]
  have hnot : ¬ t > r := by omega
  simp [rateLimit, Buckets.set, hb, hnot]

theorem rateLimit_expired (cfg : LimiterConfig) (req : LimiterReq) (t : Int) (b : Buckets)
    (key : String) (r c : Int) (hk : limiterKey cfg req = key) (hb : b key = some ⟨r, c⟩)
    (ht : r < t) :
    (rateLimit cfg req t b).buckets key = some ⟨t + cfg.windowSec, 1⟩ ∧
    (rateLimit cfg req t b).reply = windowReply cfg.max 0 0 := by
  subst hk
  rw [windowReply_eq]
  have hgt : t > r := ht
  simp [rateLimit, Buckets.set, hb, hgt]

/-- A call for another key leaves the bucket of `key` as it was. -/
theorem rateLimit_other_key (cfg : LimiterConfig) (req : LimiterReq) (t : Int) (b : Buckets)
    (key : String) (hk : limiterKey cfg req ≠ key) :
    (rateLimit cfg req t b).buckets key = b key := by
  have hk2 : ¬ key = limiterKey cfg req := fun h => hk h.symm
  simp [rateLimit, Buckets.set, hk2]

theorem runLimiter_in_window (cfg : LimiterConfig) (key : String) (r : Int) :
    ∀ (calls : List (LimiterReq × Int)) (b : Buckets) (c : Int),
      b key = some ⟨r, c⟩ →
      (∀ x ∈ calls, limiterKey cfg x.1 = key ∧ x.2 ≤ r) →
      (runLimiter cfg b calls).map (fun x => x.reply)
        = (List.range calls.length).map (windowReply cfg.max c) ∧
      bucketsAfter cfg b calls key = some ⟨r, c + calls.length⟩ := by
  intro calls
  induction calls with
  | nil => intro b c hb _; simp [runLimiter, bucketsAfter, hb]
  | cons x rest ih =>
    intro b c hb hall
    obtain ⟨req, t⟩ := x
    have hx := hall (req, t) (List.mem_cons_self _ _)
    have hstep := rateLimit_in_window cfg req t b key r c hx.1 hb hx.2
    have hrest := ih (rateLimit cfg req t b).buckets (c + 1) hstep.1
      (fun y hy => hall y (List.mem_cons_of_mem _ hy))
    refine ⟨?_, ?_⟩
    · simp only [runLimiter, List.map_cons, List.length_cons, List.range_succ_eq_map,
        List.map_map]
      rw [hrest.1, hstep.2]
      congr 1
      apply List.map_congr_left
      intro i _
      simp only [windowReply, Function.comp, Nat.cast_succ]
      congr 1
      apply propext
      constructor <;> intro h <;> omega
    · simp only [bucketsAfter, List.length_cons, Nat.cast_succ]
      rw [hrest.2]
      congr 2
      omega

/-- C4: for a key without bucket, a limit of at least 1 and any window, the
first call at `t0` and the calls that follow it at times up to
`t0 + windowSec` are answered in order: the first `max` call `next`, every
later one gets 429 RATE_LIMITED; after them, a call at any time later than
`t0 + windowSec` calls `next` and leaves the bucket `{reset: t + windowSec,
count: 1}`. -/
theorem rateLimit_window (cfg : LimiterConfig) (b : Buckets) (key : String)
    (req0 : LimiterReq) (t0 : Int) (calls : List (LimiterReq × Int))
    (req1 : LimiterReq) (t1 : Int)
    (hL : 1 ≤ cfg.max) (hnew : b key = none) (hk0 : limiterKey cfg req0 = key)
    (hin : ∀ x ∈ calls, limiterKey cfg x.1 = key ∧ t0 ≤ x.2 ∧ x.2 ≤ t0 + cfg.windowSec)
    (hk1 : limiterKey cfg req1 = key) (ht1 : t0 + cfg.windowSec < t1) :
    (runLimiter cfg b ((req0, t0) :: calls)).map (fun x => x.reply)
      = (List.range (calls.length + 1)).map (fun (i : Nat) =>
          if (i : Int) < cfg.max then Reply.next
          else Reply.send 429 "RATE_LIMITED" "Too many requests") ∧
    (rateLimit cfg req1 t1 (bucketsAfter cfg b ((req0, t0) :: calls))).reply = .next ∧
    (rateLimit cfg req1 t1 (bucketsAfter cfg b ((req0, t0) :: calls))).buckets key
      = some ⟨t1 + cfg.windowSec, 1⟩ := by
  have hfirst := rateLimit_fresh cfg req0 t0 b key hk0 hnew
  have hrest := runLimiter_in_window cfg key (t0 + cfg.windowSec) calls
    (rateLimit cfg req0 t0 b).buckets 1 hfirst.1 (fun x hx => ⟨(hin x hx).1, (hin x hx).2.2⟩)
  have hlate := rateLimit_expired cfg req1 t1 (bucketsAfter cfg b ((req0, t0) :: calls)) key
    (t0 + cfg.windowSec) (1 + calls.length) hk1 (by simpa [bucketsAfter] using hrest.2) ht1
  refine ⟨?_, ?_, hlate.1⟩
  · have h0 : (0 : Int) < cfg.max := by omega
    simp only [runLimiter, List.map_cons, List.range_succ_eq_map, List.map_map]
    rw [hrest.1, hfirst.2]
    simp [windowReply, h0, add_comm]
  · rw [hlate.2]
    have h0 : (0 : Int) < cfg.max := by omega
    simp [windowReply, h0]

/-- C4, for the login limiter (5 calls per 60 seconds): six calls inside the
window are answered `next` five times, then 429; a call at second 61 is let
through and leaves `count = 1`, `reset = 121`. -/
theorem rateLimit_window_witness :
    (runLimiter loginLimiter Buckets.empty
        [(loginReq, 0), (loginReq, 0), (loginReq, 7), (loginReq, 30), (loginReq, 59),
         (loginReq, 60)]).map (fun x => x.reply)
      = [.next, .next, .next, .next, .next, .send 429 "RATE_LIMITED" "Too many requests"] ∧
    (rateLimit loginLimiter loginReq 61 (bucketsAfter loginLimiter Buckets.empty
        [(loginReq, 0), (loginReq, 0), (loginReq, 7), (loginReq, 30), (loginReq, 59),
         (loginReq, 60)])).reply = .next ∧
    (rateLimit loginLimiter loginReq 61 (bucketsAfter loginLimiter Buckets.empty
        [(loginReq, 0), (loginReq, 0), (loginReq, 7), (loginReq, 30), (loginReq, 59),
         (loginReq, 60)])).buckets "10.0.0.1:login" = some ⟨121, 1⟩ :=
  rateLimit_window loginLimiter Buckets.empty "10.0.0.1:login" loginReq 0
    [(loginReq, 0), (loginReq, 7), (loginReq, 30), (loginReq, 59), (loginReq, 60)]
    loginReq 61 (by decide) rfl (by decide) (by decide) (by decide) (by decide)

/-- One call keeps the two buckets in correspondence and gives the same
outcome, count and reset time. -/
theorem rateLimit_simulates (cfg : LimiterConfig) (req : LimiterReq) (t : Int) (b : Buckets)
    (key : String) (sb : Option SpecBucket) (hk : limiterKey cfg req = key)
    (hc : Corresponds cfg.windowSec (b key) sb) :
    Corresponds cfg.windowSec ((rateLimit cfg req t b).buckets key)
      (some (specCheck cfg.max cfg.windowSec t sb).bucket) ∧
    (rateLimit cfg req t b).observed key
      = some (specCheck cfg.max cfg.windowSec t sb).observed := by
  subst hk
  cases hb : b (limiterKey cfg req) with
  | none =>
    cases sb with
    | some s => simp [Corresponds, hb] at hc
    | none =>
      by_cases hw : t > t + cfg.windowSec <;> by_cases hm : (1 : Int) > cfg.max <;>
        simp [rateLimit, specCheck, Limited.observed, SpecChecked.observed, Corresponds,
          Buckets.set, Reply.calledNext, hb, hw, hm] <;> omega
  | some e =>
    cases sb with
    | none => simp [Corresponds, hb] at hc
    | some s =>
      simp only [Corresponds, hb] at hc
      obtain ⟨hr, hcount⟩ := hc
      by_cases hw : t > e.reset
      · have hw2 : t > s.windowStart + cfg.windowSec := by omega
        by_cases hm : (1 : Int) > cfg.max <;>
          simp [rateLimit, specCheck, Limited.observed, SpecChecked.observed, Corresponds,
            Buckets.set, Reply.calledNext, hb, hw, hw2, hm]
        omega
      · have hw2 : ¬ t > s.windowStart + cfg.windowSec := by omega
        by_cases hm : e.count + 1 > cfg.max
        · have hm2 : s.count + 1 > cfg.max := by omega
          simp [rateLimit, specCheck, Limited.observed, SpecChecked.observed, Corresponds,
            Buckets.set, Reply.calledNext, hb, hw, hw2, hm, hm2, hr, hcount]
        · have hm2 : ¬ s.count + 1 > cfg.max := by omega
          simp [rateLimit, specCheck, Limited.observed, SpecChecked.observed, Corresponds,
            Buckets.set, Reply.calledNext, hb, hw, hw2, hm, hm2, hr, hcount]
          omega

theorem runLimiter_simulates (cfg : LimiterConfig) (key : String) :
    ∀ (calls : List (LimiterReq × Int)) (b : Buckets) (sb : Option SpecBucket),
      Corresponds cfg.windowSec (b key) sb →
      (∀ x ∈ calls, limiterKey cfg x.1 = key) →
      (runLimiter cfg b calls).map (Limited.observed key)
        = (specRun cfg.max cfg.windowSec sb (calls.map fun x => x.2)).map
            fun s => some s.observed := by
  intro calls
  induction calls with
  | nil => intro b sb _ _; simp [runLimiter, specRun]
  | cons x rest ih =>
    intro b sb hc hall
    obtain ⟨req, t⟩ := x
    have hstep := rateLimit_simulates cfg req t b key sb
      (hall (req, t) (List.mem_cons_self _ _)) hc
    have hrest := ih (rateLimit cfg req t b).buckets
      (some (specCheck cfg.max cfg.windowSec t sb).bucket) hstep.1
      (fun y hy => hall y (List.mem_cons_of_mem _ hy))
    simp only [runLimiter, specRun, List.map_cons]
    rw [hrest, hstep.2]

/-- C5: on every sequence of calls for one key that has no bucket yet, with a
fixed limit and window, the limiter of the code (bucket `{reset, count}`, reset
when `now > reset`) gives call by call the same outcome, the same count and the
same reset time as the reference algorithm of the specification (bucket
`{windowStart, count}`, reset when `now > windowStart + windowLengthSeconds`). -/
theorem rateLimit_refines_spec (cfg : LimiterConfig) (b : Buckets) (key : String)
    (calls : List (LimiterReq × Int)) (hnew : b key = none)
    (hkey : ∀ x ∈ calls, limiterKey cfg x.1 = key) :
    (runLimiter cfg b calls).map (Limited.observed key)
      = (specRun cfg.max cfg.windowSec none (calls.map fun x => x.2)).map
          fun s => some s.observed :=
  runLimiter_simulates cfg key calls b none (by simp [Corresponds, hnew]) hkey

/-- C5, for the login limiter on calls that cross two window boundaries, one of
them with the clock going back. -/
theorem rateLimit_refines_spec_witness :
    (runLimiter loginLimiter Buckets.empty
        [(loginReq, 0), (loginReq, 60), (loginReq, 61), (loginReq, 5), (loginReq, 122)]).map
        (Limited.observed "10.0.0.1:login")
      = (specRun 5 60 none [0, 60, 61, 5, 122]).map fun s => some s.observed :=
  rateLimit_refines_spec loginLimiter Buckets.empty "10.0.0.1:login"
    [(loginReq, 0), (loginReq, 60), (loginReq, 61), (loginReq, 5), (loginReq, 122)]
    rfl (by decide)

/-- C7: every call of the limiter sets `X-RateLimit-Limit` to `max`,
`X-RateLimit-Remaining` to `max(0, max - count)` and `X-RateLimit-Reset` to the
reset time of the bucket, `count` and `reset` being those of the bucket after
the call (`count` is 1 in a new window and the old count plus 1 otherwise);
Remaining is not negative and is 0 on every call that is not let through,
which is answered 429 RATE_LIMITED; for `windowSec >= 0`, Reset is not earlier
than the call. -/
theorem rateLimit_headers (cfg : LimiterConfig) (req : LimiterReq) (t : Int) (b : Buckets) :
    ∃ e : Entry,
      (rateLimit cfg req t b).buckets (limiterKey cfg req) = some e ∧
      e.count = (match b (limiterKey cfg req) with
        | none => 1
        | some old => if t > old.reset then 1 else old.count + 1) ∧
      (rateLimit cfg req t b).limit = cfg.max ∧
      (rateLimit cfg req t b).remaining = Max.max 0 (cfg.max - e.count) ∧
      (rateLimit cfg req t b).resetAt = e.reset ∧
      0 ≤ (rateLimit cfg req t b).remaining ∧
      ((rateLimit cfg req t b).reply ≠ .next →
        (rateLimit cfg req t b).reply = .send 429 "RATE_LIMITED" "Too many requests" ∧
        (rateLimit cfg req t b).remaining = 0) ∧
      (0 ≤ cfg.windowSec → t ≤ (rateLimit cfg req t b).resetAt) := by
  cases hb : b (limiterKey cfg req) with
  | none =>
    refine ⟨⟨t + cfg.windowSec, 1⟩, ?_, rfl, rfl, ?_, ?_, ?_, ?_, ?_⟩
    all_goals
      by_cases hw : t > t + cfg.windowSec <;> by_cases hm : (1 : Int) > cfg.max <;>
        simp [rateLimit, Buckets.set, hb, hw, hm] <;> omega
  | some old =>
    by_cases hw : t > old.reset
    · refine ⟨⟨t + cfg.windowSec, 1⟩, ?_, by simp [hw], rfl, ?_, ?_, ?_, ?_, ?_⟩
      all_goals
        by_cases hm : (1 : Int) > cfg.max <;>
          simp [rateLimit, Buckets.set, hb, hw, hm] <;> omega
    · refine ⟨⟨old.reset, old.count + 1⟩, ?_, by simp [hw], rfl, ?_, ?_, ?_, ?_, ?_⟩
      all_goals
        by_cases hm : old.count + 1 > cfg.max <;>
          simp [rateLimit, Buckets.set, hb, hw, hm] <;> omega

/-- C7, on the sixth call of a window of the login limiter. -/
theorem rateLimit_headers_witness :
    (rateLimit loginLimiter loginReq 30 fullBucket).reply
      = .send 429 "RATE_LIMITED" "Too many requests" ∧
    (rateLimit loginLimiter loginReq 30 fullBucket).remaining = 0 ∧
    30 ≤ (rateLimit loginLimiter loginReq 30 fullBucket).resetAt := by
  obtain ⟨_, _, _, _, _, _, _, hdenied, hreset⟩ :=
    rateLimit_headers loginLimiter loginReq 30 fullBucket
  exact ⟨(hdenied (by decide)).1, (hdenied (by decide)).2, hreset (by decide)⟩

/-! ## Authenticator -/

theorem splitChars_no_sep (sep : Char) (l : List Char) (h : sep ∉ l) :
    splitChars sep l = [l] := by
  induction l with
  | nil => rfl
  | cons c cs ih =>
    have hc : c ≠ sep := fun e => h (e ▸ List.mem_cons_self _ _)
    have hcs : sep ∉ cs := fun m => h (List.mem_cons_of_mem _ m)
    simp [splitChars, hc, ih hcs]

theorem splitChars_append_sep (sep : Char) (l r : List Char) (h : sep ∉ l) :
    splitChars sep (l ++ sep :: r) = l :: splitChars sep r := by
  induction l with
  | nil => simp [splitChars]
  | cons c cs ih =>
    have hc : c ≠ sep := fun e => h (e ▸ List.mem_cons_self _ _)
    have hcs : sep ∉ cs := fun m => h (List.mem_cons_of_mem _ m)
    simp [splitChars, hc, ih hcs]

theorem splitChars_length (sep : Char) (l : List Char) :
    (splitChars sep l).length = l.count sep + 1 := by
  induction l with
  | nil => rfl
  | cons c cs ih =>
    by_cases hc : c = sep
    · subst hc
      simp [splitChars, ih]
    · have hne : (c == sep) = false := by simpa using hc
      cases hs : splitChars sep cs with
      | nil => simp [hs] at ih
      | cons p ps =>
        rw [hs] at ih
        simp [splitChars, hc, hs, List.count_cons, hne] at ih ⊢
        omega

theorem jsSplit_length (s : String) (sep : Char) :
    (jsSplit s sep).length = s.data.count sep + 1 := by
  simp [jsSplit, splitChars_length]

theorem jsSplit_scheme (scheme rest : String) (h : ' ' ∉ scheme.data) :
    jsSplit (scheme ++ " " ++ rest) ' ' = scheme :: jsSplit rest ' ' := by
  have hd : (scheme ++ " " ++ rest).data = scheme.data ++ ' ' :: rest.data := by
    simp [String.data_append]
  simp [jsSplit, hd, splitChars_append_sep _ _ _ h]

theorem jsSplit_bearer (token : String) (h : ' ' ∉ token.data) :
    jsSplit ("Bearer " ++ token) ' ' = ["Bearer", token] := by
  have hb : ("Bearer " : String) = "Bearer" ++ " " := by decide
  rw [hb, jsSplit_scheme "Bearer" token (by decide)]
  simp [jsSplit, splitChars_no_sep _ _ h]

theorem strOr_empty (v : Option String) : strOr v "" = v.getD "" := by
  cases v with
  | none => rfl
  | some s =>
    by_cases h : s = "" <;> simp [strOr, h]

theorem authJwt_of_not_bearer (jwt : Jwt) (secret : String) (now : Int)
    (authorization : Option String)
    (h : (jsSplit (authorization.getD "") ' ').length ≠ 2 ∨
      (jsSplit (authorization.getD "") ' ')[0]? ≠ some "Bearer") :
    authJwt jwt secret now authorization = malformedHeader := by
  unfold authJwt
  simp only [strOr_empty]
  rw [if_pos h]
  rfl

theorem authJwt_of_bearer (jwt : Jwt) (secret : String) (now : Int)
    (authorization : Option String) (token : String)
    (h : jsSplit (authorization.getD "") ' ' = ["Bearer", token]) :
    authJwt jwt secret now authorization =
      match jwt.verify token secret now with
      | .ok decoded =>
        { verified := [token]
          auth := some { userId := decoded.sub, role := decoded.role, schoolId := decoded.schoolId }
          reply := .next }
      | .error _ =>
        { verified := [token], auth := none
          reply := .send 401 "UNAUTHORIZED" "Invalid or expired token" } := by
  unfold authJwt
  simp only [strOr_empty, h]
  simp

/-- C8: for every `Authorization` header value, an absent header counting as
the empty string: unless splitting it on single spaces gives exactly the two
parts `Bearer` and a token, `authJwt` answers 401 UNAUTHORIZED, passes nothing
to `jwt.verify`, assigns no principal and does not call `next`. In particular
so for every value whose number of spaces is not one (absent header, lone
token, extra spaces) and for every value whose first part is a scheme other
than `Bearer`, also one that differs in case only. -/
theorem authJwt_rejects_other_shapes (jwt : Jwt) (secret : String) (now : Int)
    (authorization : Option String) :
    ((¬ ∃ token, jsSplit (authorization.getD "") ' ' = ["Bearer", token]) →
      authJwt jwt secret now authorization = malformedHeader) ∧
    ((authorization.getD "").data.count ' ' ≠ 1 →
      authJwt jwt secret now authorization = malformedHeader) ∧
    (∀ scheme rest : String, authorization = some (scheme ++ " " ++ rest) →
      ' ' ∉ scheme.data → scheme ≠ "Bearer" →
      authJwt jwt secret now authorization = malformedHeader) := by
  refine ⟨fun h => ?_, fun h => ?_, fun scheme rest ha hs hne => ?_⟩
  · apply authJwt_of_not_bearer
    by_contra hcon
    simp only [not_or, not_not] at hcon
    obtain ⟨hlen, hhead⟩ := hcon
    apply h
    cases hp : jsSplit (authorization.getD "") ' ' with
    | nil => simp [hp] at hlen
    | cons a rest =>
      cases rest with
      | nil => simp [hp] at hlen
      | cons t rest2 =>
        cases rest2 with
        | nil =>
          rw [hp] at hhead
          simp at hhead
          exact ⟨t, by rw [hhead]⟩
        | cons _ _ => simp [hp] at hlen
  · apply authJwt_of_not_bearer
    left
    rw [jsSplit_length]
    omega
  · apply authJwt_of_not_bearer
    right
    subst ha
    simp only [Option.getD_some]
    rw [jsSplit_scheme scheme rest hs]
    simpa using hne

/-- C8, at concrete headers: none, a lone token, a lower-case scheme, another
scheme, and a value with a second space. -/
theorem authJwt_rejects_other_shapes_witness :
    authJwt toyJwt "test-secret" 0 none = malformedHeader ∧
    authJwt toyJwt "test-secret" 0 (some "t.k.n") = malformedHeader ∧
    authJwt toyJwt "test-secret" 0 (some "bearer t.k.n") = malformedHeader ∧
    authJwt toyJwt "test-secret" 0 (some "Basic t.k.n") = malformedHeader ∧
    authJwt toyJwt "test-secret" 0 (some "Bearer t.k.n ") = malformedHeader :=
  ⟨(authJwt_rejects_other_shapes toyJwt "test-secret" 0 none).2.1 (by decide),
   (authJwt_rejects_other_shapes toyJwt "test-secret" 0 (some "t.k.n")).1
     (fun ⟨_, h⟩ =>
       absurd (show (jsSplit "t.k.n" ' ').length = 2 from congrArg List.length h) (by decide)),
   (authJwt_rejects_other_shapes toyJwt "test-secret" 0 (some "bearer t.k.n")).2.2
     "bearer" "t.k.n" (by decide) (by decide) (by decide),
   (authJwt_rejects_other_shapes toyJwt "test-secret" 0 (some "Basic t.k.n")).2.2
     "Basic" "t.k.n" (by decide) (by decide) (by decide),
   (authJwt_rejects_other_shapes toyJwt "test-secret" 0 (some "Bearer t.k.n ")).2.1
     (by decide)⟩

/-- C9: for every two headers of the shape `Bearer <token>` whose tokens
`jwt.verify` rejects, for whatever reasons, the two responses are the same
response, 401 UNAUTHORIZED with the one message `Invalid or expired token`;
no principal is assigned and `next` is not called. -/
theorem authJwt_uniform_failure (jwt : Jwt) (secret : String) (now1 now2 : Int)
    (header1 header2 token1 token2 : String) (e1 e2 : JwtError)
    (hs1 : jsSplit header1 ' ' = ["Bearer", token1])
    (hs2 : jsSplit header2 ' ' = ["Bearer", token2])
    (hv1 : jwt.verify token1 secret now1 = .error e1)
    (hv2 : jwt.verify token2 secret now2 = .error e2) :
    (authJwt jwt secret now1 (some header1)).reply
      = (authJwt jwt secret now2 (some header2)).reply ∧
    (authJwt jwt secret now1 (some header1)).reply
      = .send 401 "UNAUTHORIZED" "Invalid or expired token" ∧
    (authJwt jwt secret now1 (some header1)).auth = none ∧
    (authJwt jwt secret now2 (some header2)).auth = none ∧
    (authJwt jwt secret now1 (some header1)).reply.calledNext = false ∧
    (authJwt jwt secret now2 (some header2)).reply.calledNext = false := by
  rw [authJwt_of_bearer jwt secret now1 (some header1) token1 hs1,
    authJwt_of_bearer jwt secret now2 (some header2) token2 hs2, hv1, hv2]
  exact ⟨rfl, rfl, rfl, rfl, rfl, rfl⟩

/-- C9, for an expired token against a malformed one, and for the valid token
read after its expiry against a malformed one. -/
theorem authJwt_uniform_failure_witness :
    (authJwt toyJwt "test-secret" 10 (some "Bearer old")).reply
      = (authJwt toyJwt "test-secret" 20 (some "Bearer x")).reply ∧
    (authJwt toyJwt "test-secret" 3601 (some "Bearer t.k.n")).reply
      = (authJwt toyJwt "test-secret" 20 (some "Bearer x")).reply :=
  ⟨(authJwt_uniform_failure toyJwt "test-secret" 10 20 "Bearer old" "Bearer x" "old" "x"
      .expired .malformed (by decide) (by decide) rfl rfl).1,
   (authJwt_uniform_failure toyJwt "test-secret" 3601 20 "Bearer t.k.n" "Bearer x" "t.k.n" "x"
      .expired .malformed (by decide) (by decide) rfl rfl).1⟩

/-- C10: let `jwt.sign` and `jwt.verify` round-trip (a signed token holds no
space and, while unexpired, verifies under the same secret to the claims that
were signed). Then for every user record, every secret and every token that
`_signToken(user)` returns, at every time before the token expires, `authJwt`
configured with that secret and given the header `Bearer ` followed by the
token passes exactly that token to `jwt.verify` and calls `next` with the
principal `{userId: String(user._id), role: user.role, schoolId}`, where
`schoolId` is `String(user.schoolId)` when the user has a school and `null`
otherwise. -/
theorem signToken_authJwt_roundtrip (jwt : Jwt) (lifetime : String → Int)
    (hlib : jwt.RoundTrips lifetime) (secret : String) (expiresIn : Option String)
    (issuedAt : Int) (user : User) (token : String)
    (hsign : _signToken jwt secret expiresIn issuedAt user = .ok token)
    (now : Int) (hissued : issuedAt ≤ now)
    (hunexpired : now < issuedAt + lifetime (strOr expiresIn "1h")) :
    authJwt jwt secret now (some ("Bearer " ++ token)) =
      { verified := [token]
        auth := some
          { userId := .str user._id
            role := .str user.role
            schoolId :=
              match user.schoolId with
              | some oid => .str oid
              | none => .null }
        reply := .next } := by
  obtain ⟨hcompact, hverify⟩ :=
    hlib (tokenPayload user) secret (strOr expiresIn "1h") issuedAt token hsign
  rw [authJwt_of_bearer jwt secret now (some ("Bearer " ++ token)) token
    (by simpa using jsSplit_bearer token hcompact), hverify now hissued hunexpired]
  rfl

/-- C10, for the stored superadmin and the stand-in library, 100 seconds after
the token was issued. -/
theorem signToken_authJwt_roundtrip_witness :
    authJwt toyJwt "test-secret" 100 (some "Bearer t.k.n") =
      { verified := ["t.k.n"]
        auth := some { userId := .str "u1", role := .str "SUPERADMIN", schoolId := .null }
        reply := .next } :=
  signToken_authJwt_roundtrip toyJwt (fun _ => 3600)
    (fun claims secret expiresIn issuedAt token h => by
      simp only [toyJwt] at h
      split at h
      · rename_i hc
        cases h
        obtain ⟨hclaims, h0⟩ := hc
        subst hclaims h0
        refine ⟨by decide, fun now _ hlt => ?_⟩
        have hle : now ≤ 3600 := by
          have hlt2 : now < 0 + 3600 := hlt
          omega
        simp [toyJwt, hle]
      · cases h)
    "test-secret" (some "1h") 0 rootUser "t.k.n" rfl 100 (by decide) (by decide)

/-! ## The tenant check of the managers -/

/-- C18: for every principal and every target school id, each of the two
`_assertScope` methods throws `HttpError(403, 'Forbidden', 'FORBIDDEN')`
exactly when `requireSchoolScope` answers 403 FORBIDDEN, and returns normally
exactly when the middleware calls `next`; it does nothing else. -/
theorem assertScope_agrees (p : Principal) (target : JsVal) :
    (SmsClassroomManager._assertScope target p
        = .error (HttpError 403 "Forbidden" (some "FORBIDDEN")) ↔
      requireSchoolScope (some p) target = .send 403 "FORBIDDEN" "Forbidden") ∧
    (SmsClassroomManager._assertScope target p = .ok () ↔
      requireSchoolScope (some p) target = .next) ∧
    (SmsStudentManager._assertScope target p
        = .error (HttpError 403 "Forbidden" (some "FORBIDDEN")) ↔
      requireSchoolScope (some p) target = .send 403 "FORBIDDEN" "Forbidden") ∧
    (SmsStudentManager._assertScope target p = .ok () ↔
      requireSchoolScope (some p) target = .next) ∧
    (SmsClassroomManager._assertScope target p = .ok () ∨
      SmsClassroomManager._assertScope target p
        = .error (HttpError 403 "Forbidden" (some "FORBIDDEN"))) ∧
    (SmsStudentManager._assertScope target p = .ok () ∨
      SmsStudentManager._assertScope target p
        = .error (HttpError 403 "Forbidden" (some "FORBIDDEN"))) := by
  by_cases h1 : p.role = .str "SUPERADMIN"
  · simp [SmsClassroomManager._assertScope, SmsStudentManager._assertScope,
      requireSchoolScope, h1]
  · by_cases h2 : p.role = .str "SCHOOL_ADMIN"
    · by_cases h3 : p.schoolId.truthy = true
      · by_cases h4 : p.schoolId.toStr = target.toStr <;>
          simp [SmsClassroomManager._assertScope, SmsStudentManager._assertScope,
            requireSchoolScope, h1, h2, h3, h4]
      · simp [SmsClassroomManager._assertScope, SmsStudentManager._assertScope,
          requireSchoolScope, h1, h2, h3]
    · simp [SmsClassroomManager._assertScope, SmsStudentManager._assertScope,
        requireSchoolScope, h1, h2]

/-! ## Validation -/

theorem mem_dropWhile_of_not (p : Char → Bool) (c : Char) (l : List Char)
    (hc : c ∈ l) (hp : p c = false) : c ∈ l.dropWhile p := by
  induction l with
  | nil => cases hc
  | cons a as ih =>
    by_cases ha : p a = true
    · rw [List.dropWhile_cons_of_pos ha]
      rcases List.mem_cons.1 hc with h | h
      · subst h
        rw [hp] at ha
        cases ha
      · exact ih h
    · rw [List.dropWhile_cons_of_neg ha]
      exact hc

theorem trimChars_ne_nil (l : List Char) (c : Char) (hc : c ∈ l) (hs : isJsSpace c = false) :
    trimChars l ≠ [] := by
  have h1 : c ∈ l.dropWhile isJsSpace := mem_dropWhile_of_not _ c l hc hs
  have h2 : c ∈ ((l.dropWhile isJsSpace).reverse.dropWhile isJsSpace) :=
    mem_dropWhile_of_not _ c _ (List.mem_reverse.2 h1) hs
  have h3 : c ∈ trimChars l := List.mem_reverse.2 h2
  intro h
  rw [h] at h3
  cases h3

theorem required_absent (obj : Body) (field : String) (errors : List FieldError)
    (h : obj field = .undefined ∨ obj field = .null ∨ obj field = .str "") :
    required obj field errors
      = errors ++ [{ field := field, message := field ++ " is required" }] := by
  have hcond : obj field = .undefined ∨ obj field = .null ∨ str (obj field) = .str "" := by
    rcases h with h | h | h
    · exact Or.inl h
    · exact Or.inr (Or.inl h)
    · right; right
      rw [h]
      decide
  simp only [required, if_pos hcond]

theorem required_present (obj : Body) (field : String) (errors : List FieldError)
    (s : String) (c : Char) (h : obj field = .str s) (hc : c ∈ s.data)
    (hs : isJsSpace c = false) : required obj field errors = errors := by
  have hne : trimChars s.data ≠ [] := trimChars_ne_nil s.data c hc hs
  have hcond : ¬ (obj field = .undefined ∨ obj field = .null ∨ str (obj field) = .str "") := by
    rw [h]
    simp only [str, jsTrim]
    intro hor
    rcases hor with h1 | h1 | h1
    · cases h1
    · cases h1
    · injection h1 with h2
      exact hne (congrArg String.data h2)
  simp only [required, if_neg hcond]

/-- C13: `validate` answers 400 VALIDATION_ERROR exactly when the rule pushed
at least one error, and `details` then holds all pushed errors in order;
otherwise it calls `next`. For every register-superadmin body whose `email` is
absent, `null` or the empty string and whose `password` is a string with a
character that is not white space and with a `length` below 8, `details` is
exactly the two violations `email is required` and `Password must be at least
8 characters`. -/
theorem validate_accumulates (fn : List FieldError → List FieldError) (body : Body) :
    ((∃ e, validate fn = .respond 400 e) ↔ fn [] ≠ []) ∧
    (fn [] ≠ [] → validate fn = .respond 400
      { code := .str "VALIDATION_ERROR", message := "Invalid input", details := some (fn []) }) ∧
    (fn [] = [] → validate fn = .next) ∧
    (∀ (pw : String) (c : Char),
      (body "email" = .undefined ∨ body "email" = .null ∨ body "email" = .str "") →
      body "password" = .str pw → c ∈ pw.data → isJsSpace c = false → jsLength pw < 8 →
      registerRule body []
        = [{ field := "email", message := "email is required" },
           { field := "password", message := "Password must be at least 8 characters" }] ∧
      validate (registerRule body) = .respond 400
        { code := .str "VALIDATION_ERROR", message := "Invalid input"
          details := some
            [{ field := "email", message := "email is required" },
             { field := "password", message := "Password must be at least 8 characters" }] }) := by
  have hpos : fn [] ≠ [] → validate fn = .respond 400
      { code := .str "VALIDATION_ERROR", message := "Invalid input", details := some (fn []) } := by
    intro h
    have hl : (fn []).length ≠ 0 := fun h0 => h (List.length_eq_zero.1 h0)
    simp only [validate, if_pos hl]
  have hneg : fn [] = [] → validate fn = .next := by
    intro h
    simp [validate, h]
  refine ⟨⟨?_, fun h => ⟨_, hpos h⟩⟩, hpos, hneg, ?_⟩
  · rintro ⟨e, he⟩ hnil
    rw [hneg hnil] at he
    cases he
  · intro pw c hemail hpw hc hs hlen
    have hfalsy : (body "email").truthy = false := by
      rcases hemail with h | h | h <;> rw [h] <;> decide
    have hpwne : pw ≠ "" := by
      intro h
      rw [h] at hc
      cases hc
    have hrule : registerRule body []
        = [{ field := "email", message := "email is required" },
           { field := "password", message := "Password must be at least 8 characters" }] := by
      have h1 := required_absent body "email" [] hemail
      have h2 := required_present body "password"
        ([] ++ [{ field := "email", message := "email" ++ " is required" }]) pw c hpw hc hs
      have h4 : (body "password").truthy = true ∧ jsLength (body "password").toStr < 8 := by
        rw [hpw]
        exact ⟨by simpa [JsVal.truthy] using hpwne, hlen⟩
      simp only [registerRule, h1, h2, hfalsy, if_pos h4]
      simp
    refine ⟨hrule, ?_⟩
    simp only [validate, hrule]
    rfl

/-- C13, for the body with the empty `email` and the password `abc`. -/
theorem validate_accumulates_witness :
    validate (registerRule shortBody) = .respond 400
      { code := .str "VALIDATION_ERROR", message := "Invalid input"
        details := some
          [{ field := "email", message := "email is required" },
           { field := "password", message := "Password must be at least 8 characters" }] } :=
  ((validate_accumulates (registerRule shortBody) shortBody).2.2.2 "abc" 'a'
    (Or.inr (Or.inr rfl)) rfl (by decide) (by decide) (by decide)).2

/-! ## The envelope -/

/-- C14, the code at the failing input `POST /v1/auth/login` with the body
`{ email: false, password: 'x' }`, sent without a token: the rule of the route
pushes no error, so the two limiters and `validate` call `next()` and the
handler runs; `login` throws the `TypeError` of `email.toLowerCase()`, which
has no status, and `wrap` answers it with status 500, code INTERNAL_ERROR and
the message of the error itself, not with the fixed message `Internal error`.
Another error without status, a cast error of the database driver, gets a
different response. -/
theorem wrap_leaks_message :
    validate (loginRule falseEmailLogin.body) = .next ∧
    (loginWith plainExt tableCfg 0 (falseEmailLogin.body "email") "x" dbRegistered).1
      = .error toLowerCaseTypeError ∧
    toLowerCaseTypeError.status = none ∧
    (serve { jwt := tableJwt, secret := "test-secret", now := 0 } falseEmailLogin
        (fun req _ => (loginWith plainExt tableCfg 0 (req.body "email") "x" dbRegistered).1)
        (loginRoute Session) { buckets := Buckets.empty, auth := none }).sent
      = [(3, { status := 500
               body := .error { code := .str "INTERNAL_ERROR"
                                message := "email.toLowerCase is not a function"
                                details := none } })] ∧
    @wrap Session (.error toLowerCaseTypeError)
      ≠ [{ status := 500
           body := .error { code := .str "INTERNAL_ERROR", message := "Internal error",
                            details := none } }] ∧
    @wrap Session (.error toLowerCaseTypeError)
      ≠ @wrap Session (.error { status := none, code := none
                                message := "Cast to ObjectId failed for value \"1\"" }) := by
  refine ⟨by decide, rfl, rfl, by decide, by decide, by decide⟩

theorem wrap_unsendable_status (α : Type) (err : Thrown) (status : Nat)
    (h : err.status = some status) (hs : 0 < status ∧ status < 100 ∨ 999 < status) :
    @wrap α (.error err) = [] := by
  have h0 : status ≠ 0 := by omega
  have hr : ¬ (100 ≤ status ∧ status ≤ 999) := by omega
  simp [wrap, statusOr, h, h0, hr]

/-- C15: when the handler returns `v`, `wrap` sends the one response 200
`{ ok: true, data: v }`; when it throws `HttpError(status, message, code)`,
with an error status (400 to 599) and a message that is not empty, `wrap`
sends the one response with that status and
`{ ok: false, error: { code, message } }`, the code being ERROR when the error
was built without a code. Every `HttpError` that the managers build is such an
error and gets exactly its status, its code and its message. -/
theorem wrap_envelope (α : Type) (v : α) (status : Nat) (message : String)
    (code : Option String) (hlow : 400 ≤ status) (hhigh : status ≤ 599)
    (hmessage : message ≠ "") :
    wrap (.ok v) = [{ status := 200, body := .ok v }] ∧
    @wrap α (.error (HttpError status message code))
      = [{ status := status
           body := .error
             { code := .str (strOr code "ERROR"), message := message, details := none } }] ∧
    (code = none →
      @wrap α (.error (HttpError status message code))
        = [{ status := status
             body := .error { code := .str "ERROR", message := message, details := none } }]) ∧
    (∀ c : String, code = some c → c ≠ "" →
      @wrap α (.error (HttpError status message code))
        = [{ status := status
             body := .error { code := .str c, message := message, details := none } }]) ∧
    (wrap (.ok v)).length = 1 ∧
    (@wrap α (.error (HttpError status message code))).length = 1 ∧
    (∀ e ∈ managerErrors,
      (400 ≤ e.1 ∧ e.1 ≤ 599 ∧ e.2.1 ≠ "") ∧
      @wrap α (.error (HttpError e.1 e.2.1 (some e.2.2)))
        = [{ status := e.1
             body := .error { code := .str e.2.2, message := e.2.1, details := none } }]) := by
  have hcode : strOr code "ERROR" ≠ "" := by
    cases code with
    | none => simp [strOr]
    | some c =>
      by_cases hc : c = "" <;> simp [strOr, hc]
  have hstatus : status ≠ 0 := by omega
  have hsend : 100 ≤ status ∧ status ≤ 999 := by omega
  have hw : @wrap α (.error (HttpError status message code))
      = [{ status := status
           body := .error
             { code := .str (strOr code "ERROR"), message := message, details := none } }] := by
    simp [wrap, HttpError, statusOr, codeOr, hstatus, hcode, hsend]
    simp [strOr, hmessage]
  refine ⟨rfl, hw, fun hc => ?_, fun c hc hne => ?_, rfl, by rw [hw]; rfl, ?_⟩
  · rw [hw, hc]
    rfl
  · rw [hw, hc]
    simp [strOr, hne]
  · intro e he
    simp only [managerErrors, List.mem_cons, List.mem_singleton, List.not_mem_nil,
      or_false] at he
    rcases he with h | h | h | h | h | h | h | h | h | h | h | h <;>
      (subst h; exact ⟨by decide, rfl⟩)

/-- C15, for a returned value, for two errors of the managers and for an error
built without a code. -/
theorem wrap_envelope_witness :
    wrap (.ok "created") = [{ status := 200, body := .ok "created" }] ∧
    @wrap String (.error (HttpError 404 "School not found" (some "NOT_FOUND")))
      = [{ status := 404
           body := .error
             { code := .str "NOT_FOUND", message := "School not found", details := none } }] ∧
    @wrap String (.error (HttpError 409 "Email already in use" (some "EMAIL_EXISTS")))
      = [{ status := 409
           body := .error
             { code := .str "EMAIL_EXISTS", message := "Email already in use",
               details := none } }] ∧
    @wrap String (.error (HttpError 409 "Conflict" none))
      = [{ status := 409
           body := .error { code := .str "ERROR", message := "Conflict", details := none } }] :=
  ⟨(wrap_envelope String "created" 404 "School not found" (some "NOT_FOUND")
      (by decide) (by decide) (by decide)).1,
   (wrap_envelope String "created" 404 "School not found" (some "NOT_FOUND")
      (by decide) (by decide) (by decide)).2.2.2.1 "NOT_FOUND" rfl (by decide),
   ((wrap_envelope String "created" 404 "School not found" (some "NOT_FOUND")
      (by decide) (by decide) (by decide)).2.2.2.2.2.2
        (409, "Email already in use", "EMAIL_EXISTS") (by decide)).2,
   (wrap_envelope String "created" 409 "Conflict" none
      (by decide) (by decide) (by decide)).2.2.1 rfl⟩

/-! ## The pipeline of a route -/

theorem requireRole_effects {α : Type} (roles : List JsVal) (ctx : Ctx) (req : HttpReq)
    (st : ReqState) :
    @Mw.requireRole α roles ctx req st = (st, (requireRole roles st.auth).effects α) := by
  unfold Mw.requireRole requireRole
  cases st.auth with
  | none => rfl
  | some p =>
    by_cases h : p.role ∈ roles <;> simp [h, Reply.effects]

theorem requireSchoolScope_effects {α : Type} (ctx : Ctx) (req : HttpReq) (st : ReqState) :
    @Mw.requireSchoolScope α ctx req st
      = (st, (requireSchoolScope st.auth req.schoolId).effects α) := by
  unfold Mw.requireSchoolScope requireSchoolScope
  cases st.auth with
  | none => rfl
  | some p =>
    dsimp only
    split_ifs <;> rfl

theorem validate_effects {α : Type} (rule : Body → List FieldError → List FieldError)
    (ctx : Ctx) (req : HttpReq) (st : ReqState) :
    @Mw.validate α rule ctx req st = (st, (validate (rule req.body)).effects α) := by
  unfold Mw.validate validate
  by_cases h : (rule req.body []).length ≠ 0 <;> simp [h, Outcome.effects]

theorem authJwt_effects {α : Type} (ctx : Ctx) (req : HttpReq) (st : ReqState) :
    @Mw.authJwt α ctx req st
      = ({ st with auth := match (authJwt ctx.jwt ctx.secret ctx.now req.authorization).auth with
                           | some p => some p
                           | none => st.auth },
         (authJwt ctx.jwt ctx.secret ctx.now req.authorization).reply.effects α) := by
  unfold Mw.authJwt authJwt
  by_cases h : (jsSplit (strOr req.authorization "") ' ').length ≠ 2 ∨
      (jsSplit (strOr req.authorization "") ' ')[0]? ≠ some "Bearer"
  · simp only [h, if_true, Reply.effects]
  · simp only [h, if_false]
    cases ctx.jwt.verify ((jsSplit (strOr req.authorization "") ' ').getD 1 "") ctx.secret
        ctx.now <;> simp only [Reply.effects]

theorem rateLimit_effects {α : Type} (cfg : LimiterConfig) (ctx : Ctx) (req : HttpReq)
    (st : ReqState) :
    (@Mw.rateLimit α cfg ctx req st).1
      = { st with buckets :=
            (rateLimit cfg { ip := req.ip, originalUrl := req.originalUrl } ctx.now
              st.buckets).buckets } ∧
    (@Mw.rateLimit α cfg ctx req st).2
      = [ .setHeader "X-RateLimit-Limit"
            (rateLimit cfg { ip := req.ip, originalUrl := req.originalUrl } ctx.now
              st.buckets).limit,
          .setHeader "X-RateLimit-Remaining"
            (rateLimit cfg { ip := req.ip, originalUrl := req.originalUrl } ctx.now
              st.buckets).remaining,
          .setHeader "X-RateLimit-Reset"
            (rateLimit cfg { ip := req.ip, originalUrl := req.originalUrl } ctx.now
              st.buckets).resetAt ] ++
        (rateLimit cfg { ip := req.ip, originalUrl := req.originalUrl } ctx.now
          st.buckets).reply.effects α := by
  unfold Mw.rateLimit rateLimit
  constructor
  · dsimp only
    split_ifs <;> rfl
  · dsimp only
    split_ifs <;> rfl

theorem runEffects_control {α : Type} (i : Nat) (rest : ReqState → Served α) :
    ∀ (es : List (Effect α)) (acc : Served α),
      runEffects i rest es acc = runEffects i rest (control es) acc := by
  intro es
  induction es with
  | nil => intro acc; rfl
  | cons e es ih =>
    intro acc
    cases e with
    | setHeader n v =>
      simp only [runEffects, control, List.filter_cons, Bool.false_eq_true, if_false]
      exact ih acc
    | send r =>
      simp only [runEffects, control, List.filter_cons, if_true]
      exact ih _
    | next =>
      simp only [runEffects, control, List.filter_cons, if_true]
      exact ih _
    | throw err =>
      simp only [runEffects, control, List.filter_cons, if_true]

theorem rateLimit_tidy {α : Type} (cfg : LimiterConfig) : Tidy (@Mw.rateLimit α cfg) := by
  intro ctx req st
  unfold Mw.rateLimit
  dsimp only
  split_ifs
  all_goals first
    | exact Or.inl rfl
    | exact Or.inr ⟨_, rfl, Nat.le_of_ble_eq_true rfl, _, rfl⟩

theorem authJwt_tidy {α : Type} : Tidy (@Mw.authJwt α) := by
  intro ctx req st
  unfold Mw.authJwt
  dsimp only
  split_ifs
  · exact Or.inr ⟨_, rfl, Nat.le_of_ble_eq_true rfl, _, rfl⟩
  · cases ctx.jwt.verify ((jsSplit (strOr req.authorization "") ' ').getD 1 "") ctx.secret
        ctx.now with
    | ok decoded => exact Or.inl rfl
    | error e => exact Or.inr ⟨_, rfl, Nat.le_of_ble_eq_true rfl, _, rfl⟩

theorem requireRole_tidy {α : Type} (roles : List JsVal) : Tidy (@Mw.requireRole α roles) := by
  intro ctx req st
  unfold Mw.requireRole
  cases st.auth with
  | none => exact Or.inr ⟨_, rfl, Nat.le_of_ble_eq_true rfl, _, rfl⟩
  | some p =>
    dsimp only
    split_ifs
    all_goals first
      | exact Or.inl rfl
      | exact Or.inr ⟨_, rfl, Nat.le_of_ble_eq_true rfl, _, rfl⟩

theorem requireSchoolScope_tidy {α : Type} : Tidy (@Mw.requireSchoolScope α) := by
  intro ctx req st
  unfold Mw.requireSchoolScope
  cases st.auth with
  | none => exact Or.inr ⟨_, rfl, Nat.le_of_ble_eq_true rfl, _, rfl⟩
  | some p =>
    dsimp only
    split_ifs
    all_goals first
      | exact Or.inl rfl
      | exact Or.inr ⟨_, rfl, Nat.le_of_ble_eq_true rfl, _, rfl⟩

theorem validate_tidy {α : Type} (rule : Body → List FieldError → List FieldError) :
    Tidy (@Mw.validate α rule) := by
  intro ctx req st
  unfold Mw.validate
  dsimp only
  split_ifs
  all_goals first
    | exact Or.inl rfl
    | exact Or.inr ⟨_, rfl, Nat.le_of_ble_eq_true rfl, _, rfl⟩

/-- The dispatch does what the middleware does: behind a middleware that sends
a response and then calls `next()` the handler is called as well, and two
responses are sent. -/
theorem runStages_send_then_next {α : Type} (ctx : Ctx) (req : HttpReq)
    (handler : HttpReq → Option Principal → Except Thrown α) (r : Response α) (v : α)
    (st : ReqState) (hv : handler req st.auth = .ok v) :
    (runStages ctx req handler [fun _ _ s => (s, [.send r, .next])] 0 st).handlerCalls = 1 ∧
    (runStages ctx req handler [fun _ _ s => (s, [.send r, .next])] 0 st).sent
      = [(0, r), (1, { status := 200, body := .ok v })] := by
  simp [runStages, runEffects, wrap, hv]

theorem runStages_tidy {α : Type} (ctx : Ctx) (req : HttpReq)
    (handler : HttpReq → Option Principal → Except Thrown α) :
    ∀ (stages : List (Middleware α)), (∀ m ∈ stages, Tidy m) → ∀ (i : Nat) (st : ReqState),
      ((runStages ctx req handler stages i st).handlerCalls = 1 ∧
        (runStages ctx req handler stages i st).ran = List.range' i stages.length ∧
        (runStages ctx req handler stages i st).sent
          = (wrap (handler req (runStages ctx req handler stages i st).state.auth)).map
              (fun r => (i + stages.length, r)) ∧
        (runStages ctx req handler stages i st).errors = []) ∨
      (∃ (k : Nat) (r : Response α), k < stages.length ∧
        (runStages ctx req handler stages i st).ran = List.range' i (k + 1) ∧
        (runStages ctx req handler stages i st).handlerCalls = 0 ∧
        (runStages ctx req handler stages i st).sent = [(i + k, r)] ∧
        (runStages ctx req handler stages i st).errors = [] ∧
        400 ≤ r.status ∧ ∃ e : ErrorBody, r.body = .error e) := by
  intro stages
  induction stages with
  | nil =>
    intro _ i st
    left
    simp [runStages]
  | cons m rest ih =>
    intro h i st
    have hm := h m (List.mem_cons_self _ _) ctx req st
    have hrest : ∀ x ∈ rest, Tidy x := fun x hx => h x (List.mem_cons_of_mem _ hx)
    have hrun : runStages ctx req handler (m :: rest) i st
        = runEffects i (runStages ctx req handler rest (i + 1)) (control (m ctx req st).2)
            { ran := [i], handlerCalls := 0, sent := [], errors := [],
              state := (m ctx req st).1 } := by
      rw [runStages, runEffects_control]
    rcases hm with hn | ⟨r, hs, hr, e, he⟩
    · rw [hrun, hn]
      simp only [runEffects, List.nil_append, Nat.zero_add, List.length_cons]
      rcases ih hrest (i + 1) (m ctx req st).1 with
        ⟨h1, h2, h3, h4⟩ | ⟨k, r, hk, h1, h2, h3, h4, h5, h6⟩
      · left
        refine ⟨h1, ?_, ?_, h4⟩
        · rw [h2, List.range'_succ]
          rfl
        · rw [h3]
          have e1 : i + 1 + rest.length = i + (rest.length + 1) := by omega
          rw [e1]
      · right
        refine ⟨k + 1, r, by omega, ?_, h2, ?_, h4, h5, h6⟩
        · rw [h1, List.range'_succ i (k + 1)]
          rfl
        · rw [h3]
          have e1 : i + 1 + k = i + (k + 1) := by omega
          rw [e1]
    · rw [hrun, hs]
      right
      exact ⟨0, r, Nat.succ_pos _, rfl, rfl, rfl, rfl, hr, e, he⟩

/-- C12: for every route of the v1 router, every request and every state of
the limiter: when a middleware of the pipeline (the global limiter at position
0, then those of the route, all before the handler) sends a response, then the
middlewares up to that one are the only ones called, each once, the manager
method is not called, no error leaves a middleware, and that response, a
failure, is the only response sent. -/
theorem pipeline_short_circuits {α : Type} (numberIsNaN : JsVal → Bool) (route : Route α)
    (hroute : route ∈ v1Routes α numberIsNaN) (ctx : Ctx) (req : HttpReq)
    (handler : HttpReq → Option Principal → Except Thrown α) (st : ReqState)
    (k : Nat) (r : Response α) (hk : k ≤ route.stages.length)
    (hsent : (k, r) ∈ (serve ctx req handler route st).sent) :
    (serve ctx req handler route st).ran = List.range (k + 1) ∧
    (serve ctx req handler route st).handlerCalls = 0 ∧
    (serve ctx req handler route st).sent = [(k, r)] ∧
    (serve ctx req handler route st).errors = [] ∧
    400 ≤ r.status ∧ (∃ e : ErrorBody, r.body = .error e) := by
  have htidy : ∀ m ∈ (Mw.rateLimit globalLimiter :: route.stages : List (Middleware α)),
      Tidy m := by
    simp only [v1Routes, List.mem_cons, List.mem_singleton, List.not_mem_nil, or_false] at hroute
    rcases hroute with h | h | h | h | h | h | h | h | h | h | h | h | h | h | h | h | h | h | h | h <;>
      (subst h
       simp only [List.forall_mem_cons, List.not_mem_nil, false_implies, implies_true, and_true]
       simp only [rateLimit_tidy, authJwt_tidy, requireRole_tidy, requireSchoolScope_tidy,
         validate_tidy, and_self])
  unfold serve at hsent ⊢
  rcases runStages_tidy ctx req handler _ htidy 0 st with
    ⟨_, _, h3, _⟩ | ⟨j, r1, _, h1, h2, h3, h4, h5, h6⟩
  · rw [h3] at hsent
    simp only [List.mem_map, Prod.mk.injEq, List.length_cons] at hsent
    obtain ⟨_, _, hpos, _⟩ := hsent
    omega
  · rw [h3] at hsent
    simp only [List.mem_singleton, Prod.mk.injEq, Nat.zero_add] at hsent
    obtain ⟨rfl, rfl⟩ := hsent
    rw [Nat.zero_add] at h3
    exact ⟨by rw [h1, List.range_eq_range'], h2, h3, h4, h5, h6⟩

/-- C12, for a login request without `email` and `password`: the two limiters
call `next()`, `validate` at position 2 answers 400, and the manager method is
not called. -/
theorem pipeline_short_circuits_witness :
    (serve { jwt := toyJwt, secret := "test-secret", now := 0 } emptyLogin
        (fun _ _ => Except.ok "token") (loginRoute String)
        { buckets := Buckets.empty, auth := none }).ran = [0, 1, 2] ∧
    (serve { jwt := toyJwt, secret := "test-secret", now := 0 } emptyLogin
        (fun _ _ => Except.ok "token") (loginRoute String)
        { buckets := Buckets.empty, auth := none }).handlerCalls = 0 ∧
    (serve { jwt := toyJwt, secret := "test-secret", now := 0 } emptyLogin
        (fun _ _ => Except.ok "token") (loginRoute String)
        { buckets := Buckets.empty, auth := none }).sent
      = [(2, { status := 400
               body := .error
                 { code := .str "VALIDATION_ERROR", message := "Invalid input"
                   details := some [{ field := "email", message := "email is required" },
                                    { field := "password", message := "password is required" }] } })] := by
  have h := pipeline_short_circuits (fun _ => false) (loginRoute String)
    (by simp [v1Routes, loginRoute])
    { jwt := toyJwt, secret := "test-secret", now := 0 } emptyLogin
    (fun _ _ => Except.ok "token") { buckets := Buckets.empty, auth := none } 2
    { status := 400
      body := .error
        { code := .str "VALIDATION_ERROR", message := "Invalid input"
          details := some [{ field := "email", message := "email is required" },
                           { field := "password", message := "password is required" }] } }
    (by decide) (by decide)
  exact ⟨h.1, h.2.1, h.2.2.1⟩

/-! ## Users and schools -/

theorem User.create_cases (ext : Externals) (_id email passwordHash role : String)
    (schoolId : Option String) (db : Db) :
    (∃ err, User.create ext _id email passwordHash role schoolId db = (.error err, db)) ∨
    (jsTrim (ext.toLowerCase email) ≠ "" ∧
      User.create ext _id email passwordHash role schoolId db
        = (.ok { _id := _id, email := jsTrim (ext.toLowerCase email)
                 passwordHash := passwordHash, role := role, schoolId := schoolId },
           { db with users := db.users ++
              [{ _id := _id, email := jsTrim (ext.toLowerCase email)
                 passwordHash := passwordHash, role := role, schoolId := schoolId }] })) := by
  unfold User.create
  by_cases h1 : jsTrim (ext.toLowerCase email) = ""
  · left
    refine ⟨{ status := none, code := none
              message := "User validation failed: email: Path `email` is required." }, ?_⟩
    simp only [h1, if_true]
  · by_cases h2 : db.users.any (fun u => u.email = jsTrim (ext.toLowerCase email)) = true
    · left
      refine ⟨{ status := none, code := some (.num 11000)
                message := "E11000 duplicate key error" }, ?_⟩
      simp only [h1, if_false, h2, if_true]
    · right
      exact ⟨h1, by simp only [h1, if_false, h2]; rfl⟩

theorem mem_removeFirst_of_not {α : Type} (p : α → Bool) (a : α) (l : List α)
    (ha : a ∈ l) (hp : p a = false) : a ∈ removeFirst p l := by
  induction l with
  | nil => cases ha
  | cons b bs ih =>
    by_cases hb : p b = true
    · simp only [removeFirst, hb, if_true]
      rcases List.mem_cons.1 ha with h | h
      · subst h
        rw [hp] at hb
        cases hb
      · exact h
    · simp only [removeFirst, hb]
      rcases List.mem_cons.1 ha with h | h
      · subst h
        exact List.mem_cons_self _ _
      · exact List.mem_cons_of_mem _ (ih h)

theorem mem_of_mem_removeFirst {α : Type} (p : α → Bool) (a : α) (l : List α)
    (ha : a ∈ removeFirst p l) : a ∈ l := by
  induction l with
  | nil => cases ha
  | cons b bs ih =>
    by_cases hb : p b = true
    · simp only [removeFirst, hb, if_true] at ha
      exact List.mem_cons_of_mem _ ha
    · simp only [removeFirst, hb] at ha
      rcases List.mem_cons.1 ha with h | h
      · subst h
        exact List.mem_cons_self _ _
      · exact List.mem_cons_of_mem _ (ih h)

theorem countP_superadmin_of_find_none (users : List User)
    (h : users.find? (fun u => u.role = "SUPERADMIN") = none) :
    users.countP (fun u => u.role = "SUPERADMIN") = 0 := by
  rw [List.countP_eq_zero]
  intro u hu
  have := List.find?_eq_none.1 h u hu
  simpa using this

theorem Consistent_add_user (db : Db) (user : User) (hc : db.Consistent)
    (hrole : (user.role = "SUPERADMIN" ∧ user.schoolId = none ∧
        db.users.countP (fun u => u.role = "SUPERADMIN") = 0) ∨
      (user.role = "SCHOOL_ADMIN" ∧ ∃ s ∈ db.schools, user.schoolId = some s._id)) :
    ({ db with users := db.users ++ [user] } : Db).Consistent := by
  obtain ⟨hs, hu, hn⟩ := hc
  refine ⟨hs, ?_, ?_⟩
  · intro u hmem
    rcases List.mem_append.1 hmem with h | h
    · exact hu u h
    · have hue : u = user := by simpa using h
      subst hue
      rcases hrole with ⟨h1, h2, _⟩ | ⟨h1, h2⟩
      · exact Or.inl ⟨h1, h2⟩
      · exact Or.inr ⟨h1, Or.inr h2⟩
  · show (db.users ++ [user]).countP (fun u => u.role = "SUPERADMIN") ≤ 1
    rw [List.countP_append]
    rcases hrole with ⟨h1, _, h0⟩ | ⟨h1, _⟩
    · rw [h0]
      simp [List.countP_cons, h1]
    · have : (decide (user.role = "SUPERADMIN")) = false := by
        rw [h1]
        decide
      simp [List.countP_cons, this]
      exact hn

theorem registerSuperadmin_consistent (ext : Externals) (cfg : AuthConfig) (now : Int)
    (newId email password : String) (db : Db) (hc : db.Consistent) :
    (registerSuperadmin ext cfg now newId email password db).2.Consistent := by
  unfold registerSuperadmin
  cases hf : db.users.find? (fun u => u.role = "SUPERADMIN") with
  | some _ => exact hc
  | none =>
    simp only
    cases db.users.find? (fun u => u.email = ext.toLowerCase email) with
    | some _ => exact hc
    | none =>
      simp only
      rcases User.create_cases ext newId (ext.toLowerCase email) (ext.bcryptHash password)
        "SUPERADMIN" none db with ⟨err, he⟩ | ⟨_, hok⟩
      · rw [he]
        exact hc
      · rw [hok]
        have hnew := Consistent_add_user db
          { _id := newId, email := jsTrim (ext.toLowerCase (ext.toLowerCase email))
            passwordHash := ext.bcryptHash password, role := "SUPERADMIN", schoolId := none } hc
          (Or.inl ⟨rfl, rfl, countP_superadmin_of_find_none _ hf⟩)
        simp only
        split <;> exact hnew

theorem createSchool_consistent (newId : String) (name address phone : JsVal)
    (__authUser : Principal) (db : Db) (hid : isObjectId newId = true) (hc : db.Consistent) :
    (createSchool newId name address phone __authUser db).2.Consistent := by
  unfold createSchool
  split
  · exact hc
  · split
    · exact hc
    · obtain ⟨hs, hu, hn⟩ := hc
      refine ⟨?_, ?_, hn⟩
      · intro s hmem
        rcases List.mem_append.1 hmem with h | h
        · exact hs s h
        · have hse : s = _ := List.mem_singleton.1 h
          rw [hse]
          exact hid
      · intro u hmem
        rcases hu u hmem with h | ⟨h1, h2⟩
        · exact Or.inl h
        · refine Or.inr ⟨h1, ?_⟩
          rcases h2 with h2 | ⟨s, hsm, hse⟩
          · exact Or.inl h2
          · exact Or.inr ⟨s, List.mem_append_left _ hsm, hse⟩

theorem createSchoolAdmin_consistent (ext : Externals) (newId schoolId email password : String)
    (__authUser : Principal) (db : Db) (hc : db.Consistent) :
    (createSchoolAdmin ext newId schoolId email password __authUser db).2.Consistent := by
  unfold createSchoolAdmin
  split
  · exact hc
  · cases hf : db.schools.find? (fun s => s._id = schoolId) with
    | none => exact hc
    | some s =>
      simp only
      cases db.users.find? (fun u => u.email = ext.toLowerCase email) with
      | some _ => exact hc
      | none =>
        simp only
        have hs : s ∈ db.schools := List.mem_of_find?_eq_some hf
        have hsid : s._id = schoolId := by
          have := List.find?_some hf
          simpa using this
        rcases User.create_cases ext newId (ext.toLowerCase email) (ext.bcryptHash password)
          "SCHOOL_ADMIN" (some schoolId) db with ⟨err, he⟩ | ⟨_, hok⟩
        · rw [he]
          exact hc
        · rw [hok]
          exact Consistent_add_user db _ hc (Or.inr ⟨rfl, s, hs, by rw [hsid]⟩)

theorem deleteSchool_consistent (id : String) (__authUser : Principal) (db : Db)
    (hc : db.Consistent) : (deleteSchool id __authUser db).2.Consistent := by
  unfold deleteSchool
  split
  · exact hc
  · cases db.schools.find? (fun s => s._id = id) with
    | none => exact hc
    | some _ =>
      obtain ⟨hs, hu, hn⟩ := hc
      refine ⟨?_, ?_, ?_⟩
      · intro s hmem
        exact hs s (mem_of_mem_removeFirst _ s _ hmem)
      · intro u hmem
        obtain ⟨v, hv, hvu⟩ := List.mem_map.1 hmem
        by_cases hid : v.schoolId = some id
        · rw [if_pos hid] at hvu
          subst hvu
          rcases hu v hv with ⟨h1, _⟩ | ⟨h1, _⟩
          · exact Or.inl ⟨h1, rfl⟩
          · exact Or.inr ⟨h1, Or.inl rfl⟩
        · rw [if_neg hid] at hvu
          subst hvu
          rcases hu v hv with h | ⟨h1, h2⟩
          · exact Or.inl h
          · refine Or.inr ⟨h1, ?_⟩
            rcases h2 with h2 | ⟨s, hsm, hse⟩
            · exact Or.inl h2
            · refine Or.inr ⟨s, mem_removeFirst_of_not _ s _ hsm ?_, hse⟩
              have : s._id ≠ id := fun e => hid (by rw [hse, e])
              simpa using this
      · show (db.users.map _).countP (fun (u : User) => decide (u.role = "SUPERADMIN")) ≤ 1
        rw [List.countP_map]
        have : ((fun (u : User) => decide (u.role = "SUPERADMIN")) ∘
            fun (u : User) => if u.schoolId = some id then { u with schoolId := none } else u)
            = fun (u : User) => decide (u.role = "SUPERADMIN") := by
          funext u
          simp only [Function.comp]
          split <;> rfl
        rw [this]
        exact hn

theorem Reachable.consistent (ext : Externals) (cfg : AuthConfig) (db : Db)
    (h : Reachable ext cfg db) : db.Consistent := by
  induction h with
  | empty => exact ⟨by simp [Db.empty], by simp [Db.empty], by simp [Db.empty]⟩
  | registerSuperadmin db now newId email password _ _ ih =>
    exact registerSuperadmin_consistent ext cfg now newId email password db ih
  | createSchool db newId name address phone __authUser _ hid ih =>
    exact createSchool_consistent newId name address phone __authUser db hid ih
  | createSchoolAdmin db newId schoolId email password __authUser _ _ ih =>
    exact createSchoolAdmin_consistent ext newId schoolId email password __authUser db ih
  | deleteSchool db id __authUser _ ih =>
    exact deleteSchool_consistent id __authUser db ih

theorem authJwt_of_signed (jwt : Jwt) (lifetime : String → Int) (hlib : jwt.RoundTrips lifetime)
    (secret : String) (expiresIn : Option String) (issuedAt : Int) (user : User)
    (token : String) (hsign : _signToken jwt secret expiresIn issuedAt user = .ok token)
    (now : Int) (hissued : issuedAt ≤ now)
    (hunexpired : now < issuedAt + lifetime (strOr expiresIn "1h")) :
    (authJwt jwt secret now (some ("Bearer " ++ token))).auth = some user.principal := by
  obtain ⟨hcompact, hverify⟩ :=
    hlib (tokenPayload user) secret (strOr expiresIn "1h") issuedAt token hsign
  rw [authJwt_of_bearer jwt secret now (some ("Bearer " ++ token)) token
    (by simpa using jsSplit_bearer token hcompact), hverify now hissued hunexpired]
  rfl

theorem tableJwt_roundTrips : tableJwt.RoundTrips (fun _ => 3600) := by
  intro claims secret expiresIn issuedAt token h
  simp only [tableJwt] at h
  split at h
  · rename_i hc
    cases h
    subst hc
    exact ⟨by decide, fun now _ _ => rfl⟩
  · split at h
    · rename_i hc
      cases h
      subst hc
      exact ⟨by decide, fun now _ _ => rfl⟩
    · cases h

theorem dbSchoolDeleted_reachable : Reachable plainExt tableCfg dbSchoolDeleted :=
  Reachable.deleteSchool dbWithAdmin schoolAId rootPrincipal
    (Reachable.createSchoolAdmin dbWithSchool adminId schoolAId "admin@example.com"
      "password123" rootPrincipal
      (Reachable.createSchool dbRegistered schoolAId (.str "My School") (.str "123 St")
        (.str "555") rootPrincipal
        (Reachable.registerSuperadmin Db.empty 0 rootId "sa@example.com" "password123"
          Reachable.empty (by decide))
        (by decide))
      (by decide))

theorem isObjectId_ne_empty (s : String) (h : isObjectId s = true) : s ≠ "" := by
  intro he
  subst he
  revert h
  decide

theorem login_ok (ext : Externals) (cfg : AuthConfig) (now : Int) (email password : String)
    (db : Db) (session : Session)
    (h : (login ext cfg now email password db).1 = .ok session) :
    ∃ user ∈ db.users,
      _signToken cfg.jwt cfg.secret cfg.expiresIn now user = .ok session.token := by
  unfold login at h
  cases hf : db.users.find? (fun u => u.email = ext.toLowerCase email) with
  | none =>
    rw [hf] at h
    cases h
  | some user =>
    rw [hf] at h
    simp only at h
    split at h
    · cases h
    · cases hs : _signToken cfg.jwt cfg.secret cfg.expiresIn now user with
      | error e =>
        rw [hs] at h
        cases h
      | ok token =>
        rw [hs] at h
        simp only at h
        cases h
        exact ⟨user, List.mem_of_find?_eq_some hf, hs⟩

/-- C11, as stated, fails: after a superadmin registered, created a school,
created an admin of it and deleted the school, the admin logs in and its
principal has the role SCHOOL_ADMIN and `schoolId: null`. -/
theorem principal_invariant_counterexample :
    Reachable plainExt tableCfg dbSchoolDeleted ∧
    principalOf plainExt tableCfg 10 20 "admin@example.com" "password123" dbSchoolDeleted
      = some { userId := .str adminId, role := .str "SCHOOL_ADMIN", schoolId := .null } ∧
    (JsVal.null).truthy = false :=
  ⟨dbSchoolDeleted_reachable, by decide, rfl⟩

/-- C11, amended: let `jwt.sign` and `jwt.verify` round-trip. In every state
reached from the empty database by `registerSuperadmin`, `createSchool`,
`createSchoolAdmin` and `deleteSchool`, every principal obtained by logging a
stored user in and authenticating the issued token before it expires has the
role SUPERADMIN or SCHOOL_ADMIN; for SUPERADMIN its `schoolId` is `null`; for
SCHOOL_ADMIN its `schoolId` is `null` (its school was deleted) or the id, not
empty, of a school in the collection. -/
theorem principal_invariant (ext : Externals) (cfg : AuthConfig) (lifetime : String → Int)
    (hlib : cfg.jwt.RoundTrips lifetime) (db : Db) (hreach : Reachable ext cfg db)
    (issuedAt now : Int) (email password : String) (p : Principal)
    (hissued : issuedAt ≤ now)
    (hunexpired : now < issuedAt + lifetime (strOr cfg.expiresIn "1h"))
    (hp : principalOf ext cfg issuedAt now email password db = some p) :
    (p.role = .str "SUPERADMIN" ∨ p.role = .str "SCHOOL_ADMIN") ∧
    (p.role = .str "SUPERADMIN" → p.schoolId = .null) ∧
    (p.role = .str "SCHOOL_ADMIN" →
      p.schoolId = .null ∨ ∃ s ∈ db.schools, p.schoolId = .str s._id ∧ s._id ≠ "") := by
  obtain ⟨hs, hu, _⟩ := Reachable.consistent ext cfg db hreach
  unfold principalOf at hp
  cases hl : (login ext cfg issuedAt email password db).1 with
  | error e =>
    rw [hl] at hp
    cases hp
  | ok session =>
    rw [hl] at hp
    simp only at hp
    obtain ⟨user, hmem, hsign⟩ := login_ok ext cfg issuedAt email password db session hl
    rw [authJwt_of_signed cfg.jwt lifetime hlib cfg.secret cfg.expiresIn issuedAt user
      session.token hsign now hissued hunexpired] at hp
    cases hp
    rcases hu user hmem with ⟨hrole, hnone⟩ | ⟨hrole, hschool⟩
    · refine ⟨Or.inl (by simp [User.principal, hrole]), fun _ => ?_, fun h => ?_⟩
      · simp [User.principal, hnone]
      · simp [User.principal, hrole] at h
    · refine ⟨Or.inr (by simp [User.principal, hrole]), fun h => ?_, fun _ => ?_⟩
      · simp [User.principal, hrole] at h
      · rcases hschool with hnone | ⟨s, hsm, hse⟩
        · left
          simp [User.principal, hnone]
        · right
          exact ⟨s, hsm, by simp [User.principal, hse], isObjectId_ne_empty _ (hs s hsm)⟩

/-- C11, amended, for the superadmin of the examples, 20 seconds after the
login. -/
theorem principal_invariant_witness :
    principalOf plainExt tableCfg 0 20 "sa@example.com" "password123" dbSchoolDeleted
      = some rootPrincipal ∧
    rootPrincipal.schoolId = .null :=
  ⟨by decide,
   (principal_invariant plainExt tableCfg (fun _ => 3600) tableJwt_roundTrips dbSchoolDeleted
      dbSchoolDeleted_reachable 0 20 "sa@example.com" "password123" rootPrincipal
      (by decide) (by decide) (by decide)).2.1 rfl⟩

/-- C16: on a database without users `registerSuperadmin` creates one user,
with the role SUPERADMIN and `schoolId: null`, and it returns the token and
that user when `jwt.sign` returns one (the stored form of the email not being
empty); on every database that holds a SUPERADMIN it throws 409
SUPERADMIN_EXISTS for every email and password and changes nothing; in every
reachable state at most one user is a SUPERADMIN. -/
theorem registerSuperadmin_once (ext : Externals) (cfg : AuthConfig) :
    (∀ (db : Db) (now : Int) (newId email password : String),
      db.users = [] → jsTrim (ext.toLowerCase (ext.toLowerCase email)) ≠ "" →
      (registerSuperadmin ext cfg now newId email password db).2
        = { db with users :=
              [{ _id := newId, email := jsTrim (ext.toLowerCase (ext.toLowerCase email))
                 passwordHash := ext.bcryptHash password, role := "SUPERADMIN"
                 schoolId := none }] } ∧
      ∀ token : String,
        cfg.jwt.sign { sub := .str newId, role := .str "SUPERADMIN", schoolId := .null }
          cfg.secret (strOr cfg.expiresIn "1h") now = .ok token →
        (registerSuperadmin ext cfg now newId email password db).1
          = .ok { token := token
                  user := { id := newId
                            email := jsTrim (ext.toLowerCase (ext.toLowerCase email))
                            role := "SUPERADMIN", schoolId := .undefined } }) ∧
    (∀ (db : Db) (now : Int) (newId email password : String),
      (∃ u ∈ db.users, u.role = "SUPERADMIN") →
      registerSuperadmin ext cfg now newId email password db
        = (.error (HttpError 409 "A superadmin already exists" (some "SUPERADMIN_EXISTS")),
           db)) ∧
    (∀ db : Db, Reachable ext cfg db →
      db.users.countP (fun u => u.role = "SUPERADMIN") ≤ 1) := by
  refine ⟨?_, ?_, fun db h => (Reachable.consistent ext cfg db h).2.2⟩
  · intro db now newId email password hempty hstored
    have hcreate : User.create ext newId (ext.toLowerCase email) (ext.bcryptHash password)
        "SUPERADMIN" none db
        = (.ok { _id := newId, email := jsTrim (ext.toLowerCase (ext.toLowerCase email))
                 passwordHash := ext.bcryptHash password, role := "SUPERADMIN"
                 schoolId := none },
           { db with users :=
              [{ _id := newId, email := jsTrim (ext.toLowerCase (ext.toLowerCase email))
                 passwordHash := ext.bcryptHash password, role := "SUPERADMIN"
                 schoolId := none }] }) := by
      simp [User.create, hstored, hempty]
    constructor
    · simp only [registerSuperadmin, hempty, List.find?_nil, hcreate]
      split <;> rfl
    · intro token hsign
      have hs : _signToken cfg.jwt cfg.secret cfg.expiresIn now
          { _id := newId, email := jsTrim (ext.toLowerCase (ext.toLowerCase email))
            passwordHash := ext.bcryptHash password, role := "SUPERADMIN"
            schoolId := none } = .ok token := hsign
      simp only [registerSuperadmin, hempty, List.find?_nil, hcreate, hs]
  · intro db now newId email password ⟨u, hu, hrole⟩
    cases hf : db.users.find? (fun u => u.role = "SUPERADMIN") with
    | some _ => simp only [registerSuperadmin, hf]
    | none =>
      have := List.find?_eq_none.1 hf u hu
      simp [hrole] at this

/-- C16, on the empty database and on the database it leaves. -/
theorem registerSuperadmin_once_witness :
    (registerSuperadmin plainExt tableCfg 0 rootId "sa@example.com" "password123" Db.empty).1
      = .ok { token := "r.o.t"
              user := { id := rootId, email := "sa@example.com", role := "SUPERADMIN"
                        schoolId := .undefined } } ∧
    registerSuperadmin plainExt tableCfg 5 adminId "other@example.com" "password456"
        dbRegistered
      = (.error (HttpError 409 "A superadmin already exists" (some "SUPERADMIN_EXISTS")),
         dbRegistered) ∧
    dbSchoolDeleted.users.countP (fun u => u.role = "SUPERADMIN") ≤ 1 :=
  ⟨((registerSuperadmin_once plainExt tableCfg).1 Db.empty 0 rootId "sa@example.com"
      "password123" rfl (by decide)).2 "r.o.t" rfl,
   (registerSuperadmin_once plainExt tableCfg).2.1 dbRegistered 5 adminId "other@example.com"
      "password456" ⟨_, List.mem_singleton.2 rfl, rfl⟩,
   (registerSuperadmin_once plainExt tableCfg).2.2 dbSchoolDeleted dbSchoolDeleted_reachable⟩

/-! ## Classrooms and students -/

theorem replaceFirst_filter {α : Type} (p q : α → Bool) (doc : α) (hdoc : q doc = false)
    (hp : ∀ a, p a = true → q a = false) (l : List α) :
    (replaceFirst p doc l).filter q = l.filter q := by
  induction l with
  | nil => rfl
  | cons a as ih =>
    by_cases ha : p a = true
    · simp [replaceFirst, ha, List.filter_cons, hdoc, hp a ha]
    · simp [replaceFirst, ha, List.filter_cons, ih]

theorem replaceFirst_map {α β : Type} (p : α → Bool) (f : α → β) (doc : α)
    (hp : ∀ a, p a = true → f a = f doc) (l : List α) :
    (replaceFirst p doc l).map f = l.map f := by
  induction l with
  | nil => rfl
  | cons a as ih =>
    by_cases ha : p a = true
    · simp [replaceFirst, ha, hp a ha]
    · simp [replaceFirst, ha, ih]

theorem removeFirst_filter {α : Type} (p q : α → Bool)
    (hp : ∀ a, p a = true → q a = false) (l : List α) :
    (removeFirst p l).filter q = l.filter q := by
  induction l with
  | nil => rfl
  | cons a as ih =>
    by_cases ha : p a = true
    · simp [removeFirst, ha, List.filter_cons, hp a ha]
    · simp [removeFirst, ha, List.filter_cons, ih]

theorem removeFirst_split {α : Type} (p : α → Bool) (l : List α) (r : α)
    (h : l.find? p = some r) :
    ∃ pre post, l = pre ++ r :: post ∧ removeFirst p l = pre ++ post := by
  induction l with
  | nil => cases h
  | cons a as ih =>
    by_cases ha : p a = true
    · simp only [List.find?_cons, ha, Option.some.injEq] at h
      subst h
      exact ⟨[], as, rfl, by simp [removeFirst, ha]⟩
    · have ha2 : p a = false := by simpa using ha
      simp only [List.find?_cons, ha2] at h
      obtain ⟨pre, post, h1, h2⟩ := ih h
      exact ⟨a :: pre, post, by simp [h1], by simp [removeFirst, ha2, h2]⟩

theorem removeFirst_map_sublist {α β : Type} (p : α → Bool) (f : α → β) (l : List α) :
    List.Sublist ((removeFirst p l).map f) (l.map f) := by
  induction l with
  | nil => exact List.Sublist.slnil
  | cons a as ih =>
    by_cases ha : p a = true
    · simp only [removeFirst, ha, if_true, List.map_cons]
      exact List.Sublist.cons _ (List.Sublist.refl _)
    · simp only [removeFirst, ha, List.map_cons]
      exact List.Sublist.cons₂ _ ih

theorem studentScope_admin (p : Principal) (schoolId : String)
    (hrole : p.role = .str "SCHOOL_ADMIN")
    (h : SmsStudentManager._assertScope (.str schoolId) p = .ok ()) :
    schoolId = p.schoolId.toStr := by
  have hne : (JsVal.str "SCHOOL_ADMIN") ≠ .str "SUPERADMIN" := by decide
  simp only [SmsStudentManager._assertScope, hrole, hne, if_false, ne_eq, not_true_eq_false]
    at h
  by_cases hc : p.schoolId.truthy = false ∨ ¬ p.schoolId.toStr = (JsVal.str schoolId).toStr
  · rw [if_pos hc] at h
    cases h
  · simp only [not_or, not_not] at hc
    exact hc.2.symm

theorem classroomScope_admin (p : Principal) (schoolId : String)
    (hrole : p.role = .str "SCHOOL_ADMIN")
    (h : SmsClassroomManager._assertScope (.str schoolId) p = .ok ()) :
    schoolId = p.schoolId.toStr := by
  have hne : (JsVal.str "SCHOOL_ADMIN") ≠ .str "SUPERADMIN" := by decide
  simp only [SmsClassroomManager._assertScope, hrole, hne, if_false, ne_eq, not_true_eq_false]
    at h
  by_cases hc : p.schoolId.truthy = false ∨ ¬ p.schoolId.toStr = (JsVal.str schoolId).toStr
  · rw [if_pos hc] at h
    cases h
  · simp only [not_or, not_not] at hc
    exact hc.2.symm

theorem findStudent_some (db : Db) (studentId schoolId : String) (s : Student)
    (h : findStudent db studentId schoolId = some s) :
    s ∈ db.students ∧ s._id = studentId ∧ s.schoolId = schoolId := by
  have h1 := List.mem_of_find?_eq_some h
  have h2 := List.find?_some h
  simp only [isStudent, Bool.and_eq_true, decide_eq_true_eq] at h2
  exact ⟨h1, h2.1, h2.2⟩

theorem findClassroom_some (db : Db) (classroomId : JsVal) (schoolId : String) (c : Classroom)
    (h : findClassroom db classroomId schoolId = some c) :
    c ∈ db.classrooms ∧ JsVal.str c._id = classroomId ∧ c.schoolId = schoolId := by
  have h1 := List.mem_of_find?_eq_some h
  have h2 := List.find?_some h
  simp only [Bool.and_eq_true, decide_eq_true_eq] at h2
  exact ⟨h1, h2.1, h2.2⟩

theorem isStudent_schoolId (studentId schoolId : String) (s : Student)
    (h : isStudent studentId schoolId s = true) : s._id = studentId ∧ s.schoolId = schoolId := by
  simpa [isStudent] using h

theorem assignStudentFields_ids (ext : Externals)
    (firstName lastName dob studentNumber status : JsVal) (student : Student) :
    (assignStudentFields ext firstName lastName dob studentNumber status student)._id
        = student._id ∧
    (assignStudentFields ext firstName lastName dob studentNumber status student).schoolId
        = student.schoolId := by
  unfold assignStudentFields
  constructor <;> (simp only []; repeat' split) <;> rfl

theorem saveStudent_keys (ext : Externals) (message studentId schoolId : String)
    (student : Student) (db : Db) (hid : student._id = studentId)
    (hschool : student.schoolId = schoolId) :
    (saveStudent ext message studentId schoolId student db).2.students.map Student.key
      = db.students.map Student.key := by
  unfold saveStudent
  cases ext.studentSaveError db.students student with
  | some err => rfl
  | none =>
    simp only
    apply replaceFirst_map
    intro a ha
    obtain ⟨h1, h2⟩ := isStudent_schoolId studentId schoolId a ha
    simp [Student.key, h1, h2, hid, hschool]

/-- C17: for every principal whose role is not SUPERADMIN and for all
arguments, `transferStudent` throws 403 FORBIDDEN whatever the database holds
and leaves the database as it is; `updateStudent` and `enrollStudent` leave the
id and the school of every student as they are, `createStudent` at most adds
one student after the existing ones, and `deleteStudent` only removes. -/
theorem transfer_superadmin_only (ext : Externals) (p : Principal) (db : Db) :
    (p.role ≠ .str "SUPERADMIN" →
      ∀ (schoolId studentId : String) (toSchoolId toClassroomId : JsVal),
        transferStudent ext schoolId studentId toSchoolId toClassroomId p db
          = (.error (HttpError 403 "Forbidden" (some "FORBIDDEN")), db)) ∧
    (∀ (newId schoolId : String) (firstName lastName dob studentNumber classroomId : JsVal),
      (createStudent ext newId schoolId firstName lastName dob studentNumber classroomId p
          db).2.students.map Student.key = db.students.map Student.key ∨
      (createStudent ext newId schoolId firstName lastName dob studentNumber classroomId p
          db).2.students.map Student.key = db.students.map Student.key ++ [(newId, schoolId)]) ∧
    (∀ (schoolId studentId : String)
        (firstName lastName dob studentNumber status classroomId : JsVal),
      (updateStudent ext schoolId studentId firstName lastName dob studentNumber status
          classroomId p db).2.students.map Student.key = db.students.map Student.key) ∧
    (∀ (schoolId studentId : String) (classroomId : JsVal),
      (enrollStudent ext schoolId studentId classroomId p db).2.students.map Student.key
        = db.students.map Student.key) ∧
    (∀ schoolId studentId : String,
      List.Sublist ((deleteStudent schoolId studentId p db).2.students.map Student.key)
        (db.students.map Student.key)) := by
  refine ⟨?_, ?_, ?_, ?_, ?_⟩
  · intro h schoolId studentId toSchoolId toClassroomId
    simp only [transferStudent, if_pos h]
  · intro newId schoolId firstName lastName dob studentNumber classroomId
    unfold createStudent
    cases SmsStudentManager._assertScope (.str schoolId) p with
    | error e => exact Or.inl rfl
    | ok _ =>
      simp only
      cases db.schools.find? (fun s => s._id = schoolId) with
      | none => exact Or.inl rfl
      | some _ =>
        simp only
        split
        · exact Or.inl rfl
        · split
          · exact Or.inl rfl
          · right
            simp [Student.key]
  · intro schoolId studentId firstName lastName dob studentNumber status classroomId
    unfold updateStudent
    cases SmsStudentManager._assertScope (.str schoolId) p with
    | error e => rfl
    | ok _ =>
      simp only
      cases hf : findStudent db studentId schoolId with
      | none => rfl
      | some student =>
        obtain ⟨_, hid, hschool⟩ := findStudent_some db studentId schoolId student hf
        simp only
        split
        · rfl
        · apply saveStudent_keys
          · rw [(assignStudentFields_ids ext _ _ _ _ _ _).1]
            repeat' split
            all_goals exact hid
          · rw [(assignStudentFields_ids ext _ _ _ _ _ _).2]
            repeat' split
            all_goals exact hschool
  · intro schoolId studentId classroomId
    unfold enrollStudent
    cases SmsStudentManager._assertScope (.str schoolId) p with
    | error e => rfl
    | ok _ =>
      simp only
      cases hf : findStudent db studentId schoolId with
      | none => rfl
      | some student =>
        obtain ⟨_, hid, hschool⟩ := findStudent_some db studentId schoolId student hf
        simp only
        split
        · rfl
        · split
          · rfl
          · simp only
            apply replaceFirst_map
            intro a ha
            obtain ⟨h1, h2⟩ := isStudent_schoolId studentId schoolId a ha
            simp [Student.key, h1, h2, hid, hschool]
  · intro schoolId studentId
    unfold deleteStudent
    cases SmsStudentManager._assertScope (.str schoolId) p with
    | error e => exact List.Sublist.refl _
    | ok _ =>
      simp only
      cases findStudent db studentId schoolId with
      | none => exact List.Sublist.refl _
      | some _ => exact removeFirst_map_sublist _ _ _

/-- C17, for the admin of school `A`, who asks to move the student of school
`B` into its own school. -/
theorem transfer_superadmin_only_witness :
    transferStudent plainExt "B" "s2" (.str "A") (.str "c1") adminOfA dbTwoSchools
      = (.error (HttpError 403 "Forbidden" (some "FORBIDDEN")), dbTwoSchools) :=
  (transfer_superadmin_only plainExt adminOfA dbTwoSchools).1 (by decide) "B" "s2" (.str "A")
    (.str "c1")

theorem mem_page {α : Type} (found : List α) (positions : List Nat) (x : α)
    (h : x ∈ positions.filterMap fun i => found[i]?) : x ∈ found := by
  obtain ⟨i, _, hi⟩ := List.mem_filterMap.1 h
  exact List.getElem?_mem hi

theorem getClassroom_isolated (p : Principal) (hrole : p.role = .str "SCHOOL_ADMIN") (db : Db)
    (schoolId classroomId : String) :
    (getClassroom schoolId classroomId p db).2 = db ∧
    ∀ r, (getClassroom schoolId classroomId p db).1 = .ok r → r.schoolId = p.schoolId.toStr := by
  unfold getClassroom
  cases hs : SmsClassroomManager._assertScope (.str schoolId) p with
  | error e => exact ⟨rfl, fun r h => by cases h⟩
  | ok u =>
    have hA := classroomScope_admin p schoolId hrole hs
    simp only
    cases hf : findClassroom db (.str classroomId) schoolId with
    | none => exact ⟨rfl, fun r h => by cases h⟩
    | some c =>
      refine ⟨rfl, fun r h => ?_⟩
      simp only [Except.ok.injEq] at h
      rw [← h, ← hA]
      exact (findClassroom_some db _ schoolId c hf).2.2

theorem listClassrooms_isolated (ext : Externals) (p : Principal)
    (hrole : p.role = .str "SCHOOL_ADMIN") (db : Db) (schoolId : String) (limit offset : JsVal) :
    (listClassrooms ext schoolId limit offset p db).2 = db ∧
    ∀ r, (listClassrooms ext schoolId limit offset p db).1 = .ok r →
      ∀ x ∈ r.items, x.schoolId = p.schoolId.toStr := by
  unfold listClassrooms
  cases hs : SmsClassroomManager._assertScope (.str schoolId) p with
  | error e => exact ⟨rfl, fun r h => by cases h⟩
  | ok u =>
    have hA := classroomScope_admin p schoolId hrole hs
    refine ⟨rfl, fun r h x hx => ?_⟩
    simp only [Except.ok.injEq] at h
    rw [← h] at hx
    obtain ⟨c, hc, hcx⟩ := List.mem_map.1 hx
    have hmem := mem_page _ _ c hc
    have hsch := (List.mem_filter.1 hmem).2
    rw [← hcx, ← hA]
    simpa using hsch

theorem getStudent_isolated (p : Principal) (hrole : p.role = .str "SCHOOL_ADMIN") (db : Db)
    (schoolId studentId : String) :
    (getStudent schoolId studentId p db).2 = db ∧
    ∀ r, (getStudent schoolId studentId p db).1 = .ok r → r.schoolId = p.schoolId.toStr := by
  unfold getStudent
  cases hs : SmsStudentManager._assertScope (.str schoolId) p with
  | error e => exact ⟨rfl, fun r h => by cases h⟩
  | ok u =>
    have hA := studentScope_admin p schoolId hrole hs
    simp only
    cases hf : findStudent db studentId schoolId with
    | none => exact ⟨rfl, fun r h => by cases h⟩
    | some s =>
      refine ⟨rfl, fun r h => ?_⟩
      simp only [Except.ok.injEq] at h
      rw [← h, ← hA]
      exact (findStudent_some db _ schoolId s hf).2.2

theorem listStudents_isolated (ext : Externals) (p : Principal)
    (hrole : p.role = .str "SCHOOL_ADMIN") (db : Db) (schoolId : String)
    (limit offset q : JsVal) :
    (listStudents ext schoolId limit offset q p db).2 = db ∧
    ∀ r, (listStudents ext schoolId limit offset q p db).1 = .ok r →
      ∀ x ∈ r.items, x.schoolId = p.schoolId.toStr := by
  unfold listStudents
  cases hs : SmsStudentManager._assertScope (.str schoolId) p with
  | error e => exact ⟨rfl, fun r h => by cases h⟩
  | ok u =>
    have hA := studentScope_admin p schoolId hrole hs
    refine ⟨rfl, fun r h x hx => ?_⟩
    simp only [Except.ok.injEq] at h
    rw [← h] at hx
    obtain ⟨s, hs2, hsx⟩ := List.mem_map.1 hx
    have hmem := mem_page _ _ s hs2
    have hsch := (List.mem_filter.1 hmem).2
    rw [← hsx, ← hA]
    simp only [Bool.and_eq_true, decide_eq_true_eq] at hsch
    exact hsch.1

theorem updateClassroom_isolated (ext : Externals) (p : Principal)
    (hrole : p.role = .str "SCHOOL_ADMIN") (db : Db) (schoolId classroomId : String)
    (name capacity resources : JsVal) :
    (updateClassroom ext schoolId classroomId name capacity resources p db).2.outside
        p.schoolId.toStr = db.outside p.schoolId.toStr ∧
    ∀ r, (updateClassroom ext schoolId classroomId name capacity resources p db).1 = .ok r →
      r.schoolId = p.schoolId.toStr := by
  unfold updateClassroom
  cases hs : SmsClassroomManager._assertScope (.str schoolId) p with
  | error e => exact ⟨rfl, fun r h => by cases h⟩
  | ok u =>
    have hA := classroomScope_admin p schoolId hrole hs
    simp only
    cases hf : findClassroom db (.str classroomId) schoolId with
    | none => exact ⟨rfl, fun r h => by cases h⟩
    | some c =>
      have hc := (findClassroom_some db _ schoolId c hf).2.2
      simp only
      have hdoc : ∀ d : Classroom,
          d = (if resources ≠ .undefined then
                { (if capacity ≠ .undefined then
                    { (if name ≠ .undefined then { c with name := name } else c) with
                      capacity := capacity }
                  else (if name ≠ .undefined then { c with name := name } else c)) with
                  resources := resources }
              else (if capacity ≠ .undefined then
                    { (if name ≠ .undefined then { c with name := name } else c) with
                      capacity := capacity }
                  else (if name ≠ .undefined then { c with name := name } else c))) →
          d.schoolId = schoolId := by
        intro d hd
        rw [hd]
        repeat' split
        all_goals exact hc
      generalize hdef : (if resources ≠ .undefined then
                { (if capacity ≠ .undefined then
                    { (if name ≠ .undefined then { c with name := name } else c) with
                      capacity := capacity }
                  else (if name ≠ .undefined then { c with name := name } else c)) with
                  resources := resources }
              else (if capacity ≠ .undefined then
                    { (if name ≠ .undefined then { c with name := name } else c) with
                      capacity := capacity }
                  else (if name ≠ .undefined then { c with name := name } else c))) = doc
      have hds : doc.schoolId = schoolId := hdoc doc hdef.symm
      cases ext.classroomSaveError db.classrooms doc with
      | some err => exact ⟨rfl, fun r h => by cases h⟩
      | none =>
        refine ⟨?_, fun r h => ?_⟩
        · simp only [Db.outside]
          congr 1
          apply replaceFirst_filter
          · simp [hds, hA]
          · intro a ha
            simp only [Bool.and_eq_true, decide_eq_true_eq] at ha
            simp [ha.2, hA]
        · simp only [Except.ok.injEq] at h
          rw [← h, ← hA]
          exact hds

theorem deleteClassroom_isolated (p : Principal) (hrole : p.role = .str "SCHOOL_ADMIN")
    (db : Db) (schoolId classroomId : String) :
    (deleteClassroom schoolId classroomId p db).2.outside p.schoolId.toStr
        = db.outside p.schoolId.toStr ∧
    ∀ b, (deleteClassroom schoolId classroomId p db).1 = .ok b →
      ∃ pre r post, db.classrooms = pre ++ r :: post ∧
        (deleteClassroom schoolId classroomId p db).2.classrooms = pre ++ post ∧
        r.schoolId = p.schoolId.toStr := by
  unfold deleteClassroom
  cases hs : SmsClassroomManager._assertScope (.str schoolId) p with
  | error e => exact ⟨rfl, fun r h => by cases h⟩
  | ok u =>
    have hA := classroomScope_admin p schoolId hrole hs
    simp only
    cases hf : findClassroom db (.str classroomId) schoolId with
    | none => exact ⟨rfl, fun r h => by cases h⟩
    | some c =>
      have hc := (findClassroom_some db _ schoolId c hf).2.2
      refine ⟨?_, fun b _ => ?_⟩
      · simp only [Db.outside]
        congr 1
        apply removeFirst_filter
        intro a ha
        simp only [Bool.and_eq_true, decide_eq_true_eq] at ha
        simp [ha.2, hA]
      · obtain ⟨pre, post, h1, h2⟩ := removeFirst_split _ db.classrooms c hf
        exact ⟨pre, c, post, h1, h2, by rw [hc, hA]⟩

theorem saveStudent_isolated (ext : Externals) (message studentId schoolId a : String)
    (student : Student) (db : Db) (hschool : student.schoolId = a) (ha : schoolId = a) :
    (saveStudent ext message studentId schoolId student db).2.outside a = db.outside a ∧
    ∀ r, (saveStudent ext message studentId schoolId student db).1 = .ok r →
      r.schoolId = a := by
  unfold saveStudent
  cases ext.studentSaveError db.students student with
  | some err => exact ⟨rfl, fun r h => by cases h⟩
  | none =>
    refine ⟨?_, fun r h => ?_⟩
    · simp only [Db.outside]
      congr 1
      apply replaceFirst_filter
      · simp [hschool]
      · intro x hx
        have := (isStudent_schoolId studentId schoolId x hx).2
        simp [this, ha]
    · simp only [Except.ok.injEq] at h
      rw [← h]
      exact hschool

theorem updateStudent_isolated (ext : Externals) (p : Principal)
    (hrole : p.role = .str "SCHOOL_ADMIN") (db : Db) (schoolId studentId : String)
    (firstName lastName dob studentNumber status classroomId : JsVal) :
    (updateStudent ext schoolId studentId firstName lastName dob studentNumber status
        classroomId p db).2.outside p.schoolId.toStr = db.outside p.schoolId.toStr ∧
    ∀ r, (updateStudent ext schoolId studentId firstName lastName dob studentNumber status
        classroomId p db).1 = .ok r → r.schoolId = p.schoolId.toStr := by
  unfold updateStudent
  cases hs : SmsStudentManager._assertScope (.str schoolId) p with
  | error e => exact ⟨rfl, fun r h => by cases h⟩
  | ok u =>
    have hA := studentScope_admin p schoolId hrole hs
    simp only
    cases hf : findStudent db studentId schoolId with
    | none => exact ⟨rfl, fun r h => by cases h⟩
    | some s =>
      have hsch := (findStudent_some db _ schoolId s hf).2.2
      simp only
      split
      · exact ⟨rfl, fun r h => by cases h⟩
      · apply saveStudent_isolated _ _ _ _ _ _ _ _ hA
        rw [(assignStudentFields_ids ext _ _ _ _ _ _).2, ← hA]
        repeat' split
        all_goals exact hsch

theorem enrollStudent_isolated (ext : Externals) (p : Principal)
    (hrole : p.role = .str "SCHOOL_ADMIN") (db : Db) (schoolId studentId : String)
    (classroomId : JsVal) :
    (enrollStudent ext schoolId studentId classroomId p db).2.outside p.schoolId.toStr
        = db.outside p.schoolId.toStr ∧
    ∀ r, (enrollStudent ext schoolId studentId classroomId p db).1 = .ok r →
      r.schoolId = p.schoolId.toStr := by
  unfold enrollStudent
  cases hs : SmsStudentManager._assertScope (.str schoolId) p with
  | error e => exact ⟨rfl, fun r h => by cases h⟩
  | ok u =>
    have hA := studentScope_admin p schoolId hrole hs
    simp only
    cases hf : findStudent db studentId schoolId with
    | none => exact ⟨rfl, fun r h => by cases h⟩
    | some s =>
      have hsch := (findStudent_some db _ schoolId s hf).2.2
      simp only
      split
      · exact ⟨rfl, fun r h => by cases h⟩
      · split
        · exact ⟨rfl, fun r h => by cases h⟩
        · refine ⟨?_, fun r h => ?_⟩
          · simp only [Db.outside]
            congr 1
            apply replaceFirst_filter
            · simp [hsch, hA]
            · intro x hx
              have := (isStudent_schoolId studentId schoolId x hx).2
              simp [this, hA]
          · simp only [Except.ok.injEq] at h
            rw [← h, ← hA]
            exact hsch

theorem deleteStudent_isolated (p : Principal) (hrole : p.role = .str "SCHOOL_ADMIN")
    (db : Db) (schoolId studentId : String) :
    (deleteStudent schoolId studentId p db).2.outside p.schoolId.toStr
        = db.outside p.schoolId.toStr ∧
    ∀ b, (deleteStudent schoolId studentId p db).1 = .ok b →
      ∃ pre r post, db.students = pre ++ r :: post ∧
        (deleteStudent schoolId studentId p db).2.students = pre ++ post ∧
        r.schoolId = p.schoolId.toStr := by
  unfold deleteStudent
  cases hs : SmsStudentManager._assertScope (.str schoolId) p with
  | error e => exact ⟨rfl, fun r h => by cases h⟩
  | ok u =>
    have hA := studentScope_admin p schoolId hrole hs
    simp only
    cases hf : findStudent db studentId schoolId with
    | none => exact ⟨rfl, fun r h => by cases h⟩
    | some s =>
      have hsch := (findStudent_some db _ schoolId s hf).2.2
      refine ⟨?_, fun b _ => ?_⟩
      · simp only [Db.outside]
        congr 1
        apply removeFirst_filter
        intro x hx
        have := (isStudent_schoolId studentId schoolId x hx).2
        simp [this, hA]
      · obtain ⟨pre, post, h1, h2⟩ := removeFirst_split _ db.students s hf
        exact ⟨pre, s, post, h1, h2, by rw [hsch, hA]⟩

/-- C19: for every database, every SCHOOL_ADMIN principal, whose school `A` is
`String(principal.schoolId)`, and all arguments: every record `getClassroom`,
`listClassrooms`, `updateClassroom`, `getStudent`, `listStudents`,
`updateStudent` and `enrollStudent` return has the `schoolId` `A`; a successful
`deleteClassroom` or `deleteStudent` removes one record, whose `schoolId` is
`A`; and each of the nine methods leaves the classrooms and students of every
other school as they are. -/
theorem tenant_isolation (ext : Externals) (p : Principal)
    (hrole : p.role = .str "SCHOOL_ADMIN") (db : Db) :
    (∀ schoolId classroomId : String,
      (getClassroom schoolId classroomId p db).2 = db ∧
      ∀ r, (getClassroom schoolId classroomId p db).1 = .ok r →
        r.schoolId = p.schoolId.toStr) ∧
    (∀ (schoolId : String) (limit offset : JsVal),
      (listClassrooms ext schoolId limit offset p db).2 = db ∧
      ∀ r, (listClassrooms ext schoolId limit offset p db).1 = .ok r →
        ∀ x ∈ r.items, x.schoolId = p.schoolId.toStr) ∧
    (∀ (schoolId classroomId : String) (name capacity resources : JsVal),
      (updateClassroom ext schoolId classroomId name capacity resources p db).2.outside
          p.schoolId.toStr = db.outside p.schoolId.toStr ∧
      ∀ r, (updateClassroom ext schoolId classroomId name capacity resources p db).1 = .ok r →
        r.schoolId = p.schoolId.toStr) ∧
    (∀ schoolId classroomId : String,
      (deleteClassroom schoolId classroomId p db).2.outside p.schoolId.toStr
          = db.outside p.schoolId.toStr ∧
      ∀ b, (deleteClassroom schoolId classroomId p db).1 = .ok b →
        ∃ pre r post, db.classrooms = pre ++ r :: post ∧
          (deleteClassroom schoolId classroomId p db).2.classrooms = pre ++ post ∧
          r.schoolId = p.schoolId.toStr) ∧
    (∀ schoolId studentId : String,
      (getStudent schoolId studentId p db).2 = db ∧
      ∀ r, (getStudent schoolId studentId p db).1 = .ok r →
        r.schoolId = p.schoolId.toStr) ∧
    (∀ (schoolId : String) (limit offset q : JsVal),
      (listStudents ext schoolId limit offset q p db).2 = db ∧
      ∀ r, (listStudents ext schoolId limit offset q p db).1 = .ok r →
        ∀ x ∈ r.items, x.schoolId = p.schoolId.toStr) ∧
    (∀ (schoolId studentId : String)
        (firstName lastName dob studentNumber status classroomId : JsVal),
      (updateStudent ext schoolId studentId firstName lastName dob studentNumber status
          classroomId p db).2.outside p.schoolId.toStr = db.outside p.schoolId.toStr ∧
      ∀ r, (updateStudent ext schoolId studentId firstName lastName dob studentNumber status
          classroomId p db).1 = .ok r → r.schoolId = p.schoolId.toStr) ∧
    (∀ (schoolId studentId : String) (classroomId : JsVal),
      (enrollStudent ext schoolId studentId classroomId p db).2.outside p.schoolId.toStr
          = db.outside p.schoolId.toStr ∧
      ∀ r, (enrollStudent ext schoolId studentId classroomId p db).1 = .ok r →
        r.schoolId = p.schoolId.toStr) ∧
    (∀ schoolId studentId : String,
      (deleteStudent schoolId studentId p db).2.outside p.schoolId.toStr
          = db.outside p.schoolId.toStr ∧
      ∀ b, (deleteStudent schoolId studentId p db).1 = .ok b →
        ∃ pre r post, db.students = pre ++ r :: post ∧
          (deleteStudent schoolId studentId p db).2.students = pre ++ post ∧
          r.schoolId = p.schoolId.toStr) :=
  ⟨fun s c => getClassroom_isolated p hrole db s c,
   fun s l o => listClassrooms_isolated ext p hrole db s l o,
   fun s c n cap r => updateClassroom_isolated ext p hrole db s c n cap r,
   fun s c => deleteClassroom_isolated p hrole db s c,
   fun s i => getStudent_isolated p hrole db s i,
   fun s l o q => listStudents_isolated ext p hrole db s l o q,
   fun s i f l d n st c => updateStudent_isolated ext p hrole db s i f l d n st c,
   fun s i c => enrollStudent_isolated ext p hrole db s i c,
   fun s i => deleteStudent_isolated p hrole db s i⟩

/-- C19, for the admin of school `A` on a database with the schools `A` and
`B`: the student it reads is of school `A`, and an update of its student
leaves the records of school `B` as they are. -/
theorem tenant_isolation_witness :
    (∀ r, (getStudent "A" "s1" adminOfA dbTwoSchools).1 = .ok r → r.schoolId = "A") ∧
    (updateStudent plainExt "A" "s1" (.str "Augusta") .undefined .undefined .undefined
        .undefined .undefined adminOfA dbTwoSchools).2.outside "A"
      = dbTwoSchools.outside "A" ∧
    getStudent "B" "s2" adminOfA dbTwoSchools
      = (.error (HttpError 403 "Forbidden" (some "FORBIDDEN")), dbTwoSchools) :=
  ⟨((tenant_isolation plainExt adminOfA rfl dbTwoSchools).2.2.2.2.1 "A" "s1").2,
   ((tenant_isolation plainExt adminOfA rfl dbTwoSchools).2.2.2.2.2.2.1 "A" "s1"
      (.str "Augusta") .undefined .undefined .undefined .undefined .undefined).1,
   rfl⟩

/-! ## The bound of the fixed-window limiter -/

theorem limiterTrace_cons (cfg : LimiterConfig) (b : Buckets) (req : LimiterReq) (t : Int)
    (rest : List (LimiterReq × Int)) :
    limiterTrace cfg b ((req, t) :: rest)
      = (t, rateLimit cfg req t b) :: limiterTrace cfg (rateLimit cfg req t b).buckets rest := by
  simp [limiterTrace, runLimiter]

theorem rateLimit_step_new (cfg : LimiterConfig) (req : LimiterReq) (t : Int) (b : Buckets)
    (key : String) (hk : limiterKey cfg req = key)
    (hb : b key = none ∨ ∃ r c, b key = some ⟨r, c⟩ ∧ r < t) :
    (rateLimit cfg req t b).buckets key = some ⟨t + cfg.windowSec, 1⟩ ∧
    (rateLimit cfg req t b).resetAt = t + cfg.windowSec ∧
    (rateLimit cfg req t b).reply.calledNext = decide (1 ≤ cfg.max) := by
  subst hk
  rcases hb with hb | ⟨r, c, hb, hlt⟩
  · by_cases hw : t > t + cfg.windowSec <;> by_cases hm : (1 : Int) > cfg.max <;>
      simp [rateLimit, Buckets.set, hb, hw, hm, Reply.calledNext] <;> omega
  · have hgt : t > r := hlt
    by_cases hm : (1 : Int) > cfg.max
    · simp [rateLimit, Buckets.set, hb, hgt, hm, Reply.calledNext]
    · simp [rateLimit, Buckets.set, hb, hgt, hm, Reply.calledNext]
      omega

theorem rateLimit_step_in (cfg : LimiterConfig) (req : LimiterReq) (t : Int) (b : Buckets)
    (key : String) (r c : Int) (hk : limiterKey cfg req = key) (hb : b key = some ⟨r, c⟩)
    (ht : t ≤ r) :
    (rateLimit cfg req t b).buckets key = some ⟨r, c + 1⟩ ∧
    (rateLimit cfg req t b).resetAt = r ∧
    (rateLimit cfg req t b).reply.calledNext = decide (c + 1 ≤ cfg.max) := by
  subst hk
  have hnot : ¬ t > r := by omega
  by_cases hm : c + 1 > cfg.max
  · simp [rateLimit, Buckets.set, hb, hnot, hm, Reply.calledNext]
  · simp [rateLimit, Buckets.set, hb, hnot, hm, Reply.calledNext]
    omega

theorem countP_le_add {α : Type} (p q1 q2 : α → Bool) (l : List α)
    (h : ∀ x ∈ l, p x = true → q1 x = true ∨ q2 x = true) :
    l.countP p ≤ l.countP q1 + l.countP q2 := by
  induction l with
  | nil => simp
  | cons a as ih =>
    have ih2 := ih (fun x hx => h x (List.mem_cons_of_mem _ hx))
    have ha := h a (List.mem_cons_self _ _)
    simp only [List.countP_cons]
    cases hp : p a <;> cases h1 : q1 a <;> cases h2 : q2 a <;>
      simp [hp, h1, h2] at ha ⊢ <;> omega

theorem countP_eq_zero_of_forall {α : Type} (p : α → Bool) (l : List α)
    (h : ∀ x ∈ l, p x = false) : l.countP p = 0 := by
  rw [List.countP_eq_zero]
  intro x hx
  simp [h x hx]

theorem sameWindow_of_resetAt_ne (r : Int) (x : Int × Limited) (h : x.2.resetAt ≠ r) :
    sameWindow r x = false := by
  simp [sameWindow, h]

theorem trace_window (cfg : LimiterConfig) (key : String) (hW : 1 ≤ cfg.windowSec) :
    ∀ (calls : List (LimiterReq × Int)) (b : Buckets) (r c : Int),
      b key = some ⟨r, c⟩ →
      (∀ x ∈ calls, limiterKey cfg x.1 = key ∧ r ≤ x.2 + cfg.windowSec) →
      calls.Pairwise (fun x y => x.2 ≤ y.2) →
      (∀ x ∈ limiterTrace cfg b calls,
        x.1 ≤ x.2.resetAt ∧ x.2.resetAt ≤ x.1 + cfg.windowSec ∧
        (x.2.resetAt = r ∨ r + cfg.windowSec < x.2.resetAt)) ∧
      (∀ x ∈ limiterTrace cfg b calls, ∀ y ∈ limiterTrace cfg b calls,
        x.2.resetAt = y.2.resetAt ∨ x.2.resetAt + cfg.windowSec < y.2.resetAt ∨
          y.2.resetAt + cfg.windowSec < x.2.resetAt) ∧
      (limiterTrace cfg b calls).countP (sameWindow r) ≤ (cfg.max - c).toNat ∧
      (∀ r2, r2 ≠ r → (limiterTrace cfg b calls).countP (sameWindow r2) ≤ cfg.max.toNat) := by
  intro calls
  induction calls with
  | nil =>
    intro b r c _ _ _
    simp [limiterTrace, runLimiter]
  | cons call rest ih =>
    intro b r c hb hall hsorted
    obtain ⟨req, t⟩ := call
    obtain ⟨hk, hlo⟩ := hall (req, t) (List.mem_cons_self _ _)
    simp only at hk hlo
    obtain ⟨hle, hrest⟩ := List.pairwise_cons.1 hsorted
    rw [limiterTrace_cons]
    by_cases ht : t ≤ r
    · obtain ⟨s1, s2, s3⟩ := rateLimit_step_in cfg req t b key r c hk hb ht
      generalize rateLimit cfg req t b = x0 at s1 s2 s3 ⊢
      obtain ⟨i1, i2, i3, i4⟩ := ih x0.buckets r (c + 1) s1
        (fun y hy => hall y (List.mem_cons_of_mem _ hy)) hrest
      have h0 : ∀ x ∈ (t, x0) :: limiterTrace cfg x0.buckets rest,
          x.1 ≤ x.2.resetAt ∧ x.2.resetAt ≤ x.1 + cfg.windowSec ∧
          (x.2.resetAt = r ∨ r + cfg.windowSec < x.2.resetAt) := by
        intro x hx
        rcases List.mem_cons.1 hx with h | h
        · subst h
          dsimp only
          omega
        · exact i1 x h
      refine ⟨h0, ?_, ?_, ?_⟩
      · intro x hx y hy
        have hx2 := (h0 x hx).2.2
        have hy2 := (h0 y hy).2.2
        rcases List.mem_cons.1 hx with h | h <;> rcases List.mem_cons.1 hy with h' | h'
        · subst h h'
          exact Or.inl rfl
        · subst h
          dsimp only at hx2 ⊢
          omega
        · subst h'
          dsimp only at hy2 ⊢
          omega
        · exact i2 x h y h'
      · rw [List.countP_cons]
        have hsw : sameWindow r (t, x0) = decide (c + 1 ≤ cfg.max) := by
          simp [sameWindow, s2, s3]
        rw [hsw]
        by_cases hm : c + 1 ≤ cfg.max
        · simp only [hm, decide_True, if_true]
          omega
        · simp only [hm, decide_False, Bool.false_eq_true, if_false]
          omega
      · intro r2 hr2
        rw [List.countP_cons, sameWindow_of_resetAt_ne r2 _ (by dsimp only; omega)]
        simpa using i4 r2 hr2
    · have hgt : r < t := by omega
      obtain ⟨s1, s2, s3⟩ := rateLimit_step_new cfg req t b key hk (Or.inr ⟨r, c, hb, hgt⟩)
      generalize rateLimit cfg req t b = x0 at s1 s2 s3 ⊢
      obtain ⟨i1, i2, i3, i4⟩ := ih x0.buckets (t + cfg.windowSec) 1 s1
        (fun y hy => ⟨(hall y (List.mem_cons_of_mem _ hy)).1, by have := hle y hy; omega⟩) hrest
      have h0 : ∀ x ∈ (t, x0) :: limiterTrace cfg x0.buckets rest,
          x.1 ≤ x.2.resetAt ∧ x.2.resetAt ≤ x.1 + cfg.windowSec ∧
          (x.2.resetAt = r ∨ r + cfg.windowSec < x.2.resetAt) := by
        intro x hx
        rcases List.mem_cons.1 hx with h | h
        · subst h
          dsimp only
          omega
        · obtain ⟨a1, a2, a3⟩ := i1 x h
          exact ⟨a1, a2, Or.inr (by omega)⟩
      refine ⟨h0, ?_, ?_, ?_⟩
      · intro x hx y hy
        rcases List.mem_cons.1 hx with h | h <;> rcases List.mem_cons.1 hy with h' | h'
        · subst h h'
          exact Or.inl rfl
        · subst h
          have := (i1 y h').2.2
          dsimp only
          omega
        · subst h'
          have := (i1 x h).2.2
          dsimp only
          omega
        · exact i2 x h y h'
      · have hzero : ((t, x0) :: limiterTrace cfg x0.buckets rest).countP (sameWindow r) = 0 := by
          apply countP_eq_zero_of_forall
          intro x hx
          apply sameWindow_of_resetAt_ne
          rcases List.mem_cons.1 hx with h | h
          · subst h
            dsimp only
            omega
          · have := (i1 x h).2.2
            omega
        rw [hzero]
        exact Nat.zero_le _
      · intro r2 hr2
        rw [List.countP_cons]
        by_cases he : r2 = t + cfg.windowSec
        · subst he
          have hsw : sameWindow (t + cfg.windowSec) (t, x0) = decide (1 ≤ cfg.max) := by
            simp [sameWindow, s2, s3]
          rw [hsw]
          by_cases hm : 1 ≤ cfg.max
          · simp only [hm, decide_True, if_true]
            omega
          · simp only [hm, decide_False, Bool.false_eq_true, if_false]
            omega
        · rw [sameWindow_of_resetAt_ne r2 _ (by dsimp only; omega)]
          simpa using i4 r2 he

theorem trace_fresh (cfg : LimiterConfig) (key : String) (hW : 1 ≤ cfg.windowSec)
    (calls : List (LimiterReq × Int)) (b : Buckets) (hnew : b key = none)
    (hkey : ∀ x ∈ calls, limiterKey cfg x.1 = key)
    (hsorted : calls.Pairwise (fun x y => x.2 ≤ y.2)) :
    (∀ x ∈ limiterTrace cfg b calls,
      x.1 ≤ x.2.resetAt ∧ x.2.resetAt ≤ x.1 + cfg.windowSec) ∧
    (∀ x ∈ limiterTrace cfg b calls, ∀ y ∈ limiterTrace cfg b calls,
      x.2.resetAt = y.2.resetAt ∨ x.2.resetAt + cfg.windowSec < y.2.resetAt ∨
        y.2.resetAt + cfg.windowSec < x.2.resetAt) ∧
    (∀ r, (limiterTrace cfg b calls).countP (sameWindow r) ≤ cfg.max.toNat) := by
  cases calls with
  | nil => simp [limiterTrace, runLimiter]
  | cons call rest =>
    obtain ⟨req, t⟩ := call
    have hk := hkey (req, t) (List.mem_cons_self _ _)
    simp only at hk
    obtain ⟨hle, hrest⟩ := List.pairwise_cons.1 hsorted
    rw [limiterTrace_cons]
    obtain ⟨s1, s2, s3⟩ := rateLimit_step_new cfg req t b key hk (Or.inl hnew)
    generalize rateLimit cfg req t b = x0 at s1 s2 s3 ⊢
    obtain ⟨i1, i2, i3, i4⟩ := trace_window cfg key hW rest x0.buckets (t + cfg.windowSec) 1 s1
      (fun y hy => ⟨hkey y (List.mem_cons_of_mem _ hy), by have := hle y hy; omega⟩) hrest
    refine ⟨?_, ?_, ?_⟩
    · intro x hx
      rcases List.mem_cons.1 hx with h | h
      · subst h
        dsimp only
        omega
      · exact ⟨(i1 x h).1, (i1 x h).2.1⟩
    · intro x hx y hy
      rcases List.mem_cons.1 hx with h | h <;> rcases List.mem_cons.1 hy with h' | h'
      · subst h h'
        exact Or.inl rfl
      · subst h
        have := (i1 y h').2.2
        dsimp only
        omega
      · subst h'
        have := (i1 x h).2.2
        dsimp only
        omega
      · exact i2 x h y h'
    · intro r
      rw [List.countP_cons]
      by_cases he : r = t + cfg.windowSec
      · subst he
        have hsw : sameWindow (t + cfg.windowSec) (t, x0) = decide (1 ≤ cfg.max) := by
          simp [sameWindow, s2, s3]
        rw [hsw]
        by_cases hm : 1 ≤ cfg.max
        · simp only [hm, decide_True, if_true]
          omega
        · simp only [hm, decide_False, Bool.false_eq_true, if_false]
          omega
      · rw [sameWindow_of_resetAt_ne r _ (by dsimp only; omega)]
        simpa using i4 r he

/-- C20: for every key without bucket, every limit, every window of at least
one second and every sequence of calls for the key with non-decreasing
timestamps: the calls let through in one window (between one reset of the
bucket and the next, that is, with one reset time) number at most the limit;
two calls with different reset times have reset times more than a window
apart; and the calls let through at the `windowSec` consecutive seconds
`a`, ..., `a + windowSec - 1` number at most twice the limit, for every `a`.
A limit below 0 counts as 0. -/
theorem fixed_window_bound (cfg : LimiterConfig) (b : Buckets) (key : String)
    (calls : List (LimiterReq × Int)) (hW : 1 ≤ cfg.windowSec) (hnew : b key = none)
    (hkey : ∀ x ∈ calls, limiterKey cfg x.1 = key)
    (hsorted : calls.Pairwise (fun x y => x.2 ≤ y.2)) :
    (∀ r, (limiterTrace cfg b calls).countP (sameWindow r) ≤ cfg.max.toNat) ∧
    (∀ x ∈ limiterTrace cfg b calls, ∀ y ∈ limiterTrace cfg b calls,
      x.2.resetAt = y.2.resetAt ∨ x.2.resetAt + cfg.windowSec < y.2.resetAt ∨
        y.2.resetAt + cfg.windowSec < x.2.resetAt) ∧
    (∀ a, (limiterTrace cfg b calls).countP (inInterval a cfg.windowSec)
      ≤ 2 * cfg.max.toNat) := by
  obtain ⟨hB, hC, hA⟩ := trace_fresh cfg key hW calls b hnew hkey hsorted
  refine ⟨hA, hC, fun a => ?_⟩
  have hunpack : ∀ x : Int × Limited, inInterval a cfg.windowSec x = true →
      x.2.reply.calledNext = true ∧ a ≤ x.1 ∧ x.1 < a + cfg.windowSec := by
    intro x hx
    simpa [inInterval] using hx
  have hsame : ∀ (x : Int × Limited) (r : Int), x.2.reply.calledNext = true →
      x.2.resetAt = r → sameWindow r x = true := by
    intro x r h1 h2
    simp [sameWindow, h1, h2]
  have hex : ∃ r1 r2 : Int, ∀ x ∈ limiterTrace cfg b calls,
      inInterval a cfg.windowSec x = true → sameWindow r1 x = true ∨ sameWindow r2 x = true := by
    by_cases h1 : ∃ x ∈ limiterTrace cfg b calls, inInterval a cfg.windowSec x = true
    · obtain ⟨x0, hx0, hp0⟩ := h1
      by_cases h2 : ∃ y ∈ limiterTrace cfg b calls,
          inInterval a cfg.windowSec y = true ∧ y.2.resetAt ≠ x0.2.resetAt
      · obtain ⟨y0, hy0, hq0, hne⟩ := h2
        refine ⟨x0.2.resetAt, y0.2.resetAt, fun z hz hpz => ?_⟩
        obtain ⟨hzn, hz1, hz2⟩ := hunpack z hpz
        obtain ⟨_, hx1, hx2⟩ := hunpack x0 hp0
        obtain ⟨_, hy1, hy2⟩ := hunpack y0 hq0
        have bx := hB x0 hx0
        have by0 := hB y0 hy0
        have bz := hB z hz
        have cxy := hC x0 hx0 y0 hy0
        have cxz := hC x0 hx0 z hz
        have cyz := hC y0 hy0 z hz
        by_cases e1 : z.2.resetAt = x0.2.resetAt
        · exact Or.inl (hsame z _ hzn e1)
        · by_cases e2 : z.2.resetAt = y0.2.resetAt
          · exact Or.inr (hsame z _ hzn e2)
          · exfalso
            omega
      · refine ⟨x0.2.resetAt, x0.2.resetAt, fun z hz hpz => ?_⟩
        have hz2 : z.2.resetAt = x0.2.resetAt := by
          by_contra hcon
          exact h2 ⟨z, hz, hpz, hcon⟩
        exact Or.inl (hsame z _ (hunpack z hpz).1 hz2)
    · refine ⟨0, 0, fun z hz hpz => ?_⟩
      exact absurd ⟨z, hz, hpz⟩ h1
  obtain ⟨r1, r2, hcover⟩ := hex
  have hle := countP_le_add (inInterval a cfg.windowSec) (sameWindow r1) (sameWindow r2)
    (limiterTrace cfg b calls) hcover
  have h1 := hA r1
  have h2 := hA r2
  omega

/-- C20, for the login limiter (5 calls per 60 seconds) on twelve calls at the
seconds 0, 60 and 61: at most 5 calls are let through in the window that ends
at second 60, and at most 10 at the 60 seconds from second 2 on. -/
theorem fixed_window_bound_witness :
    (limiterTrace loginLimiter Buckets.empty burstCalls).countP (sameWindow 60) ≤ 5 ∧
    (limiterTrace loginLimiter Buckets.empty burstCalls).countP (inInterval 2 60) ≤ 10 :=
  ⟨(fixed_window_bound loginLimiter Buckets.empty "10.0.0.1:login" burstCalls (by decide) rfl
      (by decide) (by decide)).1 60,
   (fixed_window_bound loginLimiter Buckets.empty "10.0.0.1:login" burstCalls (by decide) rfl
      (by decide) (by decide)).2.2 2⟩

end Sms
